import Mathlib

/-!
# vsomeip: E2E CRC engine, subscribe command codec and local client endpoint

A shallow embedding of

* `implementation/e2e_protection/src/crc/crc.cpp` (the table-driven CRC profiles),
* `implementation/protocol/src/subscribe_command_base.cpp` (the subscribe-family payload codec),
* `implementation/endpoints/src/local_tcp_client_endpoint_impl.cpp` (the local client endpoint),

together with the properties proved about them.  The header step of the codec
(`command::serialize`, `command::deserialize`) is defined outside these files; the payload
codec takes it as an argument, and an instance written from the specification of the header
layout is supplied for the statements that need one.  The endpoint is treated the same way:
the base-class methods that `send` calls are an argument, with an instance written from the
specification.

Conventions.  Machine integers are natural numbers; every place where the C++ narrows a
value (`static_cast<uint8_t>`, assignment to a narrower variable, a `uint16_t` cast) is an
explicit `% 2 ^ w`.  A byte buffer is a `List Nat` whose elements are below 256.  An access
outside a `std::vector` has no defined result and is modelled by `none`.
-/

set_option maxRecDepth 100000

namespace vsomeip_v3

namespace e2e_crc

/-! ## Lookup tables (verbatim from `crc.cpp`) -/

/-- The constant `e2e_crc::lookup_table_profile_01_` (256 entries of `uint8_t`). -/
def lookup_table_profile_01_ : List Nat := [
  0x00, 0x1D, 0x3A, 0x27, 0x74, 0x69, 0x4E, 0x53, 0xE8, 0xF5, 0xD2, 0xCF, 0x9C,
  0x81, 0xA6, 0xBB, 0xCD, 0xD0, 0xF7, 0xEA, 0xB9, 0xA4, 0x83, 0x9E, 0x25, 0x38,
  0x1F, 0x02, 0x51, 0x4C, 0x6B, 0x76, 0x87, 0x9A, 0xBD, 0xA0, 0xF3, 0xEE, 0xC9,
  0xD4, 0x6F, 0x72, 0x55, 0x48, 0x1B, 0x06, 0x21, 0x3C, 0x4A, 0x57, 0x70, 0x6D,
  0x3E, 0x23, 0x04, 0x19, 0xA2, 0xBF, 0x98, 0x85, 0xD6, 0xCB, 0xEC, 0xF1, 0x13,
  0x0E, 0x29, 0x34, 0x67, 0x7A, 0x5D, 0x40, 0xFB, 0xE6, 0xC1, 0xDC, 0x8F, 0x92,
  0xB5, 0xA8, 0xDE, 0xC3, 0xE4, 0xF9, 0xAA, 0xB7, 0x90, 0x8D, 0x36, 0x2B, 0x0C,
  0x11, 0x42, 0x5F, 0x78, 0x65, 0x94, 0x89, 0xAE, 0xB3, 0xE0, 0xFD, 0xDA, 0xC7,
  0x7C, 0x61, 0x46, 0x5B, 0x08, 0x15, 0x32, 0x2F, 0x59, 0x44, 0x63, 0x7E, 0x2D,
  0x30, 0x17, 0x0A, 0xB1, 0xAC, 0x8B, 0x96, 0xC5, 0xD8, 0xFF, 0xE2, 0x26, 0x3B,
  0x1C, 0x01, 0x52, 0x4F, 0x68, 0x75, 0xCE, 0xD3, 0xF4, 0xE9, 0xBA, 0xA7, 0x80,
  0x9D, 0xEB, 0xF6, 0xD1, 0xCC, 0x9F, 0x82, 0xA5, 0xB8, 0x03, 0x1E, 0x39, 0x24,
  0x77, 0x6A, 0x4D, 0x50, 0xA1, 0xBC, 0x9B, 0x86, 0xD5, 0xC8, 0xEF, 0xF2, 0x49,
  0x54, 0x73, 0x6E, 0x3D, 0x20, 0x07, 0x1A, 0x6C, 0x71, 0x56, 0x4B, 0x18, 0x05,
  0x22, 0x3F, 0x84, 0x99, 0xBE, 0xA3, 0xF0, 0xED, 0xCA, 0xD7, 0x35, 0x28, 0x0F,
  0x12, 0x41, 0x5C, 0x7B, 0x66, 0xDD, 0xC0, 0xE7, 0xFA, 0xA9, 0xB4, 0x93, 0x8E,
  0xF8, 0xE5, 0xC2, 0xDF, 0x8C, 0x91, 0xB6, 0xAB, 0x10, 0x0D, 0x2A, 0x37, 0x64,
  0x79, 0x5E, 0x43, 0xB2, 0xAF, 0x88, 0x95, 0xC6, 0xDB, 0xFC, 0xE1, 0x5A, 0x47,
  0x60, 0x7D, 0x2E, 0x33, 0x14, 0x09, 0x7F, 0x62, 0x45, 0x58, 0x0B, 0x16, 0x31,
  0x2C, 0x97, 0x8A, 0xAD, 0xB0, 0xE3, 0xFE, 0xD9, 0xC4]

/-- The constant `e2e_crc::lookup_table_profile_04_` (256 entries of `uint32_t`). -/
def lookup_table_profile_04_ : List Nat := [
  0x00000000, 0x30850FF5, 0x610A1FEA, 0x518F101F, 0xC2143FD4, 0xF2913021, 0xA31E203E,
  0x939B2FCB, 0x159615F7, 0x25131A02, 0x749C0A1D, 0x441905E8, 0xD7822A23, 0xE70725D6,
  0xB68835C9, 0x860D3A3C, 0x2B2C2BEE, 0x1BA9241B, 0x4A263404, 0x7AA33BF1, 0xE938143A,
  0xD9BD1BCF, 0x88320BD0, 0xB8B70425, 0x3EBA3E19, 0x0E3F31EC, 0x5FB021F3, 0x6F352E06,
  0xFCAE01CD, 0xCC2B0E38, 0x9DA41E27, 0xAD2111D2, 0x565857DC, 0x66DD5829, 0x37524836,
  0x07D747C3, 0x944C6808, 0xA4C967FD, 0xF54677E2, 0xC5C37817, 0x43CE422B, 0x734B4DDE,
  0x22C45DC1, 0x12415234, 0x81DA7DFF, 0xB15F720A, 0xE0D06215, 0xD0556DE0, 0x7D747C32,
  0x4DF173C7, 0x1C7E63D8, 0x2CFB6C2D, 0xBF6043E6, 0x8FE54C13, 0xDE6A5C0C, 0xEEEF53F9,
  0x68E269C5, 0x58676630, 0x09E8762F, 0x396D79DA, 0xAAF65611, 0x9A7359E4, 0xCBFC49FB,
  0xFB79460E, 0xACB0AFB8, 0x9C35A04D, 0xCDBAB052, 0xFD3FBFA7, 0x6EA4906C, 0x5E219F99,
  0x0FAE8F86, 0x3F2B8073, 0xB926BA4F, 0x89A3B5BA, 0xD82CA5A5, 0xE8A9AA50, 0x7B32859B,
  0x4BB78A6E, 0x1A389A71, 0x2ABD9584, 0x879C8456, 0xB7198BA3, 0xE6969BBC, 0xD6139449,
  0x4588BB82, 0x750DB477, 0x2482A468, 0x1407AB9D, 0x920A91A1, 0xA28F9E54, 0xF3008E4B,
  0xC38581BE, 0x501EAE75, 0x609BA180, 0x3114B19F, 0x0191BE6A, 0xFAE8F864, 0xCA6DF791,
  0x9BE2E78E, 0xAB67E87B, 0x38FCC7B0, 0x0879C845, 0x59F6D85A, 0x6973D7AF, 0xEF7EED93,
  0xDFFBE266, 0x8E74F279, 0xBEF1FD8C, 0x2D6AD247, 0x1DEFDDB2, 0x4C60CDAD, 0x7CE5C258,
  0xD1C4D38A, 0xE141DC7F, 0xB0CECC60, 0x804BC395, 0x13D0EC5E, 0x2355E3AB, 0x72DAF3B4,
  0x425FFC41, 0xC452C67D, 0xF4D7C988, 0xA558D997, 0x95DDD662, 0x0646F9A9, 0x36C3F65C,
  0x674CE643, 0x57C9E9B6, 0xC8DF352F, 0xF85A3ADA, 0xA9D52AC5, 0x99502530, 0x0ACB0AFB,
  0x3A4E050E, 0x6BC11511, 0x5B441AE4, 0xDD4920D8, 0xEDCC2F2D, 0xBC433F32, 0x8CC630C7,
  0x1F5D1F0C, 0x2FD810F9, 0x7E5700E6, 0x4ED20F13, 0xE3F31EC1, 0xD3761134, 0x82F9012B,
  0xB27C0EDE, 0x21E72115, 0x11622EE0, 0x40ED3EFF, 0x7068310A, 0xF6650B36, 0xC6E004C3,
  0x976F14DC, 0xA7EA1B29, 0x347134E2, 0x04F43B17, 0x557B2B08, 0x65FE24FD, 0x9E8762F3,
  0xAE026D06, 0xFF8D7D19, 0xCF0872EC, 0x5C935D27, 0x6C1652D2, 0x3D9942CD, 0x0D1C4D38,
  0x8B117704, 0xBB9478F1, 0xEA1B68EE, 0xDA9E671B, 0x490548D0, 0x79804725, 0x280F573A,
  0x188A58CF, 0xB5AB491D, 0x852E46E8, 0xD4A156F7, 0xE4245902, 0x77BF76C9, 0x473A793C,
  0x16B56923, 0x263066D6, 0xA03D5CEA, 0x90B8531F, 0xC1374300, 0xF1B24CF5, 0x6229633E,
  0x52AC6CCB, 0x03237CD4, 0x33A67321, 0x646F9A97, 0x54EA9562, 0x0565857D, 0x35E08A88,
  0xA67BA543, 0x96FEAAB6, 0xC771BAA9, 0xF7F4B55C, 0x71F98F60, 0x417C8095, 0x10F3908A,
  0x20769F7F, 0xB3EDB0B4, 0x8368BF41, 0xD2E7AF5E, 0xE262A0AB, 0x4F43B179, 0x7FC6BE8C,
  0x2E49AE93, 0x1ECCA166, 0x8D578EAD, 0xBDD28158, 0xEC5D9147, 0xDCD89EB2, 0x5AD5A48E,
  0x6A50AB7B, 0x3BDFBB64, 0x0B5AB491, 0x98C19B5A, 0xA84494AF, 0xF9CB84B0, 0xC94E8B45,
  0x3237CD4B, 0x02B2C2BE, 0x533DD2A1, 0x63B8DD54, 0xF023F29F, 0xC0A6FD6A, 0x9129ED75,
  0xA1ACE280, 0x27A1D8BC, 0x1724D749, 0x46ABC756, 0x762EC8A3, 0xE5B5E768, 0xD530E89D,
  0x84BFF882, 0xB43AF777, 0x191BE6A5, 0x299EE950, 0x7811F94F, 0x4894F6BA, 0xDB0FD971,
  0xEB8AD684, 0xBA05C69B, 0x8A80C96E, 0x0C8DF352, 0x3C08FCA7, 0x6D87ECB8, 0x5D02E34D,
  0xCE99CC86, 0xFE1CC373, 0xAF93D36C, 0x9F16DC99]

/-- The constant `e2e_crc::lookup_table_profile_05_` (256 entries of `uint16_t`). -/
def lookup_table_profile_05_ : List Nat := [
  0x0000, 0x1021, 0x2042, 0x3063, 0x4084, 0x50A5, 0x60C6, 0x70E7, 0x8108, 0x9129,
  0xA14A, 0xB16B, 0xC18C, 0xD1AD, 0xE1CE, 0xF1EF, 0x1231, 0x0210, 0x3273, 0x2252,
  0x52B5, 0x4294, 0x72F7, 0x62D6, 0x9339, 0x8318, 0xB37B, 0xA35A, 0xD3BD, 0xC39C,
  0xF3FF, 0xE3DE, 0x2462, 0x3443, 0x0420, 0x1401, 0x64E6, 0x74C7, 0x44A4, 0x5485,
  0xA56A, 0xB54B, 0x8528, 0x9509, 0xE5EE, 0xF5CF, 0xC5AC, 0xD58D, 0x3653, 0x2672,
  0x1611, 0x0630, 0x76D7, 0x66F6, 0x5695, 0x46B4, 0xB75B, 0xA77A, 0x9719, 0x8738,
  0xF7DF, 0xE7FE, 0xD79D, 0xC7BC, 0x48C4, 0x58E5, 0x6886, 0x78A7, 0x0840, 0x1861,
  0x2802, 0x3823, 0xC9CC, 0xD9ED, 0xE98E, 0xF9AF, 0x8948, 0x9969, 0xA90A, 0xB92B,
  0x5AF5, 0x4AD4, 0x7AB7, 0x6A96, 0x1A71, 0x0A50, 0x3A33, 0x2A12, 0xDBFD, 0xCBDC,
  0xFBBF, 0xEB9E, 0x9B79, 0x8B58, 0xBB3B, 0xAB1A, 0x6CA6, 0x7C87, 0x4CE4, 0x5CC5,
  0x2C22, 0x3C03, 0x0C60, 0x1C41, 0xEDAE, 0xFD8F, 0xCDEC, 0xDDCD, 0xAD2A, 0xBD0B,
  0x8D68, 0x9D49, 0x7E97, 0x6EB6, 0x5ED5, 0x4EF4, 0x3E13, 0x2E32, 0x1E51, 0x0E70,
  0xFF9F, 0xEFBE, 0xDFDD, 0xCFFC, 0xBF1B, 0xAF3A, 0x9F59, 0x8F78, 0x9188, 0x81A9,
  0xB1CA, 0xA1EB, 0xD10C, 0xC12D, 0xF14E, 0xE16F, 0x1080, 0x00A1, 0x30C2, 0x20E3,
  0x5004, 0x4025, 0x7046, 0x6067, 0x83B9, 0x9398, 0xA3FB, 0xB3DA, 0xC33D, 0xD31C,
  0xE37F, 0xF35E, 0x02B1, 0x1290, 0x22F3, 0x32D2, 0x4235, 0x5214, 0x6277, 0x7256,
  0xB5EA, 0xA5CB, 0x95A8, 0x8589, 0xF56E, 0xE54F, 0xD52C, 0xC50D, 0x34E2, 0x24C3,
  0x14A0, 0x0481, 0x7466, 0x6447, 0x5424, 0x4405, 0xA7DB, 0xB7FA, 0x8799, 0x97B8,
  0xE75F, 0xF77E, 0xC71D, 0xD73C, 0x26D3, 0x36F2, 0x0691, 0x16B0, 0x6657, 0x7676,
  0x4615, 0x5634, 0xD94C, 0xC96D, 0xF90E, 0xE92F, 0x99C8, 0x89E9, 0xB98A, 0xA9AB,
  0x5844, 0x4865, 0x7806, 0x6827, 0x18C0, 0x08E1, 0x3882, 0x28A3, 0xCB7D, 0xDB5C,
  0xEB3F, 0xFB1E, 0x8BF9, 0x9BD8, 0xABBB, 0xBB9A, 0x4A75, 0x5A54, 0x6A37, 0x7A16,
  0x0AF1, 0x1AD0, 0x2AB3, 0x3A92, 0xFD2E, 0xED0F, 0xDD6C, 0xCD4D, 0xBDAA, 0xAD8B,
  0x9DE8, 0x8DC9, 0x7C26, 0x6C07, 0x5C64, 0x4C45, 0x3CA2, 0x2C83, 0x1CE0, 0x0CC1,
  0xEF1F, 0xFF3E, 0xCF5D, 0xDF7C, 0xAF9B, 0xBFBA, 0x8FD9, 0x9FF8, 0x6E17, 0x7E36,
  0x4E55, 0x5E74, 0x2E93, 0x3EB2, 0x0ED1, 0x1EF0]

/-- The constant `e2e_crc::lookup_table_profile_07_` (256 entries of `uint64_t`). -/
def lookup_table_profile_07_ : List Nat := [
  0x0000000000000000, 0xB32E4CBE03A75F6F, 0xF4843657A840A05B, 0x47AA7AE9ABE7FF34,
  0x7BD0C384FF8F5E33, 0xC8FE8F3AFC28015C, 0x8F54F5D357CFFE68, 0x3C7AB96D5468A107,
  0xF7A18709FF1EBC66, 0x448FCBB7FCB9E309, 0x0325B15E575E1C3D, 0xB00BFDE054F94352,
  0x8C71448D0091E255, 0x3F5F08330336BD3A, 0x78F572DAA8D1420E, 0xCBDB3E64AB761D61,
  0x7D9BA13851336649, 0xCEB5ED8652943926, 0x891F976FF973C612, 0x3A31DBD1FAD4997D,
  0x064B62BCAEBC387A, 0xB5652E02AD1B6715, 0xF2CF54EB06FC9821, 0x41E11855055BC74E,
  0x8A3A2631AE2DDA2F, 0x39146A8FAD8A8540, 0x7EBE1066066D7A74, 0xCD905CD805CA251B,
  0xF1EAE5B551A2841C, 0x42C4A90B5205DB73, 0x056ED3E2F9E22447, 0xB6409F5CFA457B28,
  0xFB374270A266CC92, 0x48190ECEA1C193FD, 0x0FB374270A266CC9, 0xBC9D3899098133A6,
  0x80E781F45DE992A1, 0x33C9CD4A5E4ECDCE, 0x7463B7A3F5A932FA, 0xC74DFB1DF60E6D95,
  0x0C96C5795D7870F4, 0xBFB889C75EDF2F9B, 0xF812F32EF538D0AF, 0x4B3CBF90F69F8FC0,
  0x774606FDA2F72EC7, 0xC4684A43A15071A8, 0x83C230AA0AB78E9C, 0x30EC7C140910D1F3,
  0x86ACE348F355AADB, 0x3582AFF6F0F2F5B4, 0x7228D51F5B150A80, 0xC10699A158B255EF,
  0xFD7C20CC0CDAF4E8, 0x4E526C720F7DAB87, 0x09F8169BA49A54B3, 0xBAD65A25A73D0BDC,
  0x710D64410C4B16BD, 0xC22328FF0FEC49D2, 0x85895216A40BB6E6, 0x36A71EA8A7ACE989,
  0x0ADDA7C5F3C4488E, 0xB9F3EB7BF06317E1, 0xFE5991925B84E8D5, 0x4D77DD2C5823B7BA,
  0x64B62BCAEBC387A1, 0xD7986774E864D8CE, 0x90321D9D438327FA, 0x231C512340247895,
  0x1F66E84E144CD992, 0xAC48A4F017EB86FD, 0xEBE2DE19BC0C79C9, 0x58CC92A7BFAB26A6,
  0x9317ACC314DD3BC7, 0x2039E07D177A64A8, 0x67939A94BC9D9B9C, 0xD4BDD62ABF3AC4F3,
  0xE8C76F47EB5265F4, 0x5BE923F9E8F53A9B, 0x1C4359104312C5AF, 0xAF6D15AE40B59AC0,
  0x192D8AF2BAF0E1E8, 0xAA03C64CB957BE87, 0xEDA9BCA512B041B3, 0x5E87F01B11171EDC,
  0x62FD4976457FBFDB, 0xD1D305C846D8E0B4, 0x96797F21ED3F1F80, 0x2557339FEE9840EF,
  0xEE8C0DFB45EE5D8E, 0x5DA24145464902E1, 0x1A083BACEDAEFDD5, 0xA9267712EE09A2BA,
  0x955CCE7FBA6103BD, 0x267282C1B9C65CD2, 0x61D8F8281221A3E6, 0xD2F6B4961186FC89,
  0x9F8169BA49A54B33, 0x2CAF25044A02145C, 0x6B055FEDE1E5EB68, 0xD82B1353E242B407,
  0xE451AA3EB62A1500, 0x577FE680B58D4A6F, 0x10D59C691E6AB55B, 0xA3FBD0D71DCDEA34,
  0x6820EEB3B6BBF755, 0xDB0EA20DB51CA83A, 0x9CA4D8E41EFB570E, 0x2F8A945A1D5C0861,
  0x13F02D374934A966, 0xA0DE61894A93F609, 0xE7741B60E174093D, 0x545A57DEE2D35652,
  0xE21AC88218962D7A, 0x5134843C1B317215, 0x169EFED5B0D68D21, 0xA5B0B26BB371D24E,
  0x99CA0B06E7197349, 0x2AE447B8E4BE2C26, 0x6D4E3D514F59D312, 0xDE6071EF4CFE8C7D,
  0x15BB4F8BE788911C, 0xA6950335E42FCE73, 0xE13F79DC4FC83147, 0x521135624C6F6E28,
  0x6E6B8C0F1807CF2F, 0xDD45C0B11BA09040, 0x9AEFBA58B0476F74, 0x29C1F6E6B3E0301B,
  0xC96C5795D7870F42, 0x7A421B2BD420502D, 0x3DE861C27FC7AF19, 0x8EC62D7C7C60F076,
  0xB2BC941128085171, 0x0192D8AF2BAF0E1E, 0x4638A2468048F12A, 0xF516EEF883EFAE45,
  0x3ECDD09C2899B324, 0x8DE39C222B3EEC4B, 0xCA49E6CB80D9137F, 0x7967AA75837E4C10,
  0x451D1318D716ED17, 0xF6335FA6D4B1B278, 0xB199254F7F564D4C, 0x02B769F17CF11223,
  0xB4F7F6AD86B4690B, 0x07D9BA1385133664, 0x4073C0FA2EF4C950, 0xF35D8C442D53963F,
  0xCF273529793B3738, 0x7C0979977A9C6857, 0x3BA3037ED17B9763, 0x888D4FC0D2DCC80C,
  0x435671A479AAD56D, 0xF0783D1A7A0D8A02, 0xB7D247F3D1EA7536, 0x04FC0B4DD24D2A59,
  0x3886B22086258B5E, 0x8BA8FE9E8582D431, 0xCC0284772E652B05, 0x7F2CC8C92DC2746A,
  0x325B15E575E1C3D0, 0x8175595B76469CBF, 0xC6DF23B2DDA1638B, 0x75F16F0CDE063CE4,
  0x498BD6618A6E9DE3, 0xFAA59ADF89C9C28C, 0xBD0FE036222E3DB8, 0x0E21AC88218962D7,
  0xC5FA92EC8AFF7FB6, 0x76D4DE52895820D9, 0x317EA4BB22BFDFED, 0x8250E80521188082,
  0xBE2A516875702185, 0x0D041DD676D77EEA, 0x4AAE673FDD3081DE, 0xF9802B81DE97DEB1,
  0x4FC0B4DD24D2A599, 0xFCEEF8632775FAF6, 0xBB44828A8C9205C2, 0x086ACE348F355AAD,
  0x34107759DB5DFBAA, 0x873E3BE7D8FAA4C5, 0xC094410E731D5BF1, 0x73BA0DB070BA049E,
  0xB86133D4DBCC19FF, 0x0B4F7F6AD86B4690, 0x4CE50583738CB9A4, 0xFFCB493D702BE6CB,
  0xC3B1F050244347CC, 0x709FBCEE27E418A3, 0x3735C6078C03E797, 0x841B8AB98FA4B8F8,
  0xADDA7C5F3C4488E3, 0x1EF430E13FE3D78C, 0x595E4A08940428B8, 0xEA7006B697A377D7,
  0xD60ABFDBC3CBD6D0, 0x6524F365C06C89BF, 0x228E898C6B8B768B, 0x91A0C532682C29E4,
  0x5A7BFB56C35A3485, 0xE955B7E8C0FD6BEA, 0xAEFFCD016B1A94DE, 0x1DD181BF68BDCBB1,
  0x21AB38D23CD56AB6, 0x9285746C3F7235D9, 0xD52F0E859495CAED, 0x6601423B97329582,
  0xD041DD676D77EEAA, 0x636F91D96ED0B1C5, 0x24C5EB30C5374EF1, 0x97EBA78EC690119E,
  0xAB911EE392F8B099, 0x18BF525D915FEFF6, 0x5F1528B43AB810C2, 0xEC3B640A391F4FAD,
  0x27E05A6E926952CC, 0x94CE16D091CE0DA3, 0xD3646C393A29F297, 0x604A2087398EADF8,
  0x5C3099EA6DE60CFF, 0xEF1ED5546E415390, 0xA8B4AFBDC5A6ACA4, 0x1B9AE303C601F3CB,
  0x56ED3E2F9E224471, 0xE5C372919D851B1E, 0xA26908783662E42A, 0x114744C635C5BB45,
  0x2D3DFDAB61AD1A42, 0x9E13B115620A452D, 0xD9B9CBFCC9EDBA19, 0x6A978742CA4AE576,
  0xA14CB926613CF817, 0x1262F598629BA778, 0x55C88F71C97C584C, 0xE6E6C3CFCADB0723,
  0xDA9C7AA29EB3A624, 0x69B2361C9D14F94B, 0x2E184CF536F3067F, 0x9D36004B35545910,
  0x2B769F17CF112238, 0x9858D3A9CCB67D57, 0xDFF2A94067518263, 0x6CDCE5FE64F6DD0C,
  0x50A65C93309E7C0B, 0xE388102D33392364, 0xA4226AC498DEDC50, 0x170C267A9B79833F,
  0xDCD7181E300F9E5E, 0x6FF954A033A8C131, 0x28532E49984F3E05, 0x9B7D62F79BE8616A,
  0xA707DB9ACF80C06D, 0x14299724CC279F02, 0x5383EDCD67C06036, 0xE0ADA17364673F59]

/-! ## The table-driven functions -/

/-- Embeds `e2e_crc::calculate_profile_01`: `crc = start ^ 0xFF`; for every byte
`crc = table[(uint8_t)(byte ^ crc)]`; result `crc ^ 0xFF`.  The register is a `uint8_t`,
so every assignment narrows to eight bits. -/
def calculate_profile_01 (_buffer_view : List Nat) (_start_value : Nat) : Nat :=
  let crc := (_start_value ^^^ 0xFF) % 2 ^ 8
  let crc := _buffer_view.foldl
    (fun crc byte => (lookup_table_profile_01_.getD ((byte ^^^ crc) % 2 ^ 8) 0) % 2 ^ 8) crc
  (crc ^^^ 0xFF) % 2 ^ 8

/-- Embeds `e2e_crc::calculate_profile_04`: `crc = start ^ 0xFFFFFFFF`; for every byte
`crc = table[(uint8_t)(byte ^ crc)] ^ (crc >> 8)`; result `crc ^ 0xFFFFFFFF`. -/
def calculate_profile_04 (_buffer_view : List Nat) (_start_value : Nat) : Nat :=
  let crc := _start_value ^^^ 0xFFFFFFFF
  let crc := _buffer_view.foldl
    (fun crc byte => lookup_table_profile_04_.getD ((byte ^^^ crc) % 2 ^ 8) 0 ^^^ (crc >>> 8)) crc
  crc ^^^ 0xFFFFFFFF

/-- One pass of the loop body of `e2e_crc::calculate_profile_05`:
`table[((uint8_t)(crc >> 8)) ^ buffer[i]] ^ ((uint16_t)(crc << 8))`. -/
def profile_05_update (crc byte : Nat) : Nat :=
  lookup_table_profile_05_.getD (((crc >>> 8) % 2 ^ 8) ^^^ byte) 0 ^^^ ((crc <<< 8) % 2 ^ 16)

/-- Embeds `e2e_crc::calculate_profile_05`: the length is narrowed to `uint32_t`, the loop
runs over the indices `0 .. buffer_length - 1`, the start value is used as is and there is
no final xor. -/
def calculate_profile_05 (_buffer_view : List Nat) (_start_value : Nat) : Nat :=
  let buffer_length := _buffer_view.length % 2 ^ 32
  let crc := _start_value
  (List.range buffer_length).foldl
    (fun crc i => profile_05_update crc (_buffer_view.getD i 0)) crc

/-- Embeds `e2e_crc::calculate_profile_07`: `crc = start ^ 0xFFFFFFFFFFFFFFFF`; for every
byte `crc = table[(uint8_t)(byte ^ crc)] ^ (crc >> 8)`; result `crc ^ 0xFFFFFFFFFFFFFFFF`. -/
def calculate_profile_07 (_buffer_view : List Nat) (_start_value : Nat) : Nat :=
  let crc := _start_value ^^^ 0xFFFFFFFFFFFFFFFF
  let crc := _buffer_view.foldl
    (fun crc byte => lookup_table_profile_07_.getD ((byte ^^^ crc) % 2 ^ 8) 0 ^^^ (crc >>> 8)) crc
  crc ^^^ 0xFFFFFFFFFFFFFFFF

/-- The constant `e2e_crc::lookup_table_profile_custom_` (256 entries of `uint32_t`). -/
def lookup_table_profile_custom_ : List Nat := [
  0x00000000, 0x77073096, 0xEE0E612C, 0x990951BA, 0x076DC419, 0x706AF48F, 0xE963A535,
  0x9E6495A3, 0x0EDB8832, 0x79DCB8A4, 0xE0D5E91E, 0x97D2D988, 0x09B64C2B, 0x7EB17CBD,
  0xE7B82D07, 0x90BF1D91, 0x1DB71064, 0x6AB020F2, 0xF3B97148, 0x84BE41DE, 0x1ADAD47D,
  0x6DDDE4EB, 0xF4D4B551, 0x83D385C7, 0x136C9856, 0x646BA8C0, 0xFD62F97A, 0x8A65C9EC,
  0x14015C4F, 0x63066CD9, 0xFA0F3D63, 0x8D080DF5, 0x3B6E20C8, 0x4C69105E, 0xD56041E4,
  0xA2677172, 0x3C03E4D1, 0x4B04D447, 0xD20D85FD, 0xA50AB56B, 0x35B5A8FA, 0x42B2986C,
  0xDBBBC9D6, 0xACBCF940, 0x32D86CE3, 0x45DF5C75, 0xDCD60DCF, 0xABD13D59, 0x26D930AC,
  0x51DE003A, 0xC8D75180, 0xBFD06116, 0x21B4F4B5, 0x56B3C423, 0xCFBA9599, 0xB8BDA50F,
  0x2802B89E, 0x5F058808, 0xC60CD9B2, 0xB10BE924, 0x2F6F7C87, 0x58684C11, 0xC1611DAB,
  0xB6662D3D, 0x76DC4190, 0x01DB7106, 0x98D220BC, 0xEFD5102A, 0x71B18589, 0x06B6B51F,
  0x9FBFE4A5, 0xE8B8D433, 0x7807C9A2, 0x0F00F934, 0x9609A88E, 0xE10E9818, 0x7F6A0DBB,
  0x086D3D2D, 0x91646C97, 0xE6635C01, 0x6B6B51F4, 0x1C6C6162, 0x856530D8, 0xF262004E,
  0x6C0695ED, 0x1B01A57B, 0x8208F4C1, 0xF50FC457, 0x65B0D9C6, 0x12B7E950, 0x8BBEB8EA,
  0xFCB9887C, 0x62DD1DDF, 0x15DA2D49, 0x8CD37CF3, 0xFBD44C65, 0x4DB26158, 0x3AB551CE,
  0xA3BC0074, 0xD4BB30E2, 0x4ADFA541, 0x3DD895D7, 0xA4D1C46D, 0xD3D6F4FB, 0x4369E96A,
  0x346ED9FC, 0xAD678846, 0xDA60B8D0, 0x44042D73, 0x33031DE5, 0xAA0A4C5F, 0xDD0D7CC9,
  0x5005713C, 0x270241AA, 0xBE0B1010, 0xC90C2086, 0x5768B525, 0x206F85B3, 0xB966D409,
  0xCE61E49F, 0x5EDEF90E, 0x29D9C998, 0xB0D09822, 0xC7D7A8B4, 0x59B33D17, 0x2EB40D81,
  0xB7BD5C3B, 0xC0BA6CAD, 0xEDB88320, 0x9ABFB3B6, 0x03B6E20C, 0x74B1D29A, 0xEAD54739,
  0x9DD277AF, 0x04DB2615, 0x73DC1683, 0xE3630B12, 0x94643B84, 0x0D6D6A3E, 0x7A6A5AA8,
  0xE40ECF0B, 0x9309FF9D, 0x0A00AE27, 0x7D079EB1, 0xF00F9344, 0x8708A3D2, 0x1E01F268,
  0x6906C2FE, 0xF762575D, 0x806567CB, 0x196C3671, 0x6E6B06E7, 0xFED41B76, 0x89D32BE0,
  0x10DA7A5A, 0x67DD4ACC, 0xF9B9DF6F, 0x8EBEEFF9, 0x17B7BE43, 0x60B08ED5, 0xD6D6A3E8,
  0xA1D1937E, 0x38D8C2C4, 0x4FDFF252, 0xD1BB67F1, 0xA6BC5767, 0x3FB506DD, 0x48B2364B,
  0xD80D2BDA, 0xAF0A1B4C, 0x36034AF6, 0x41047A60, 0xDF60EFC3, 0xA867DF55, 0x316E8EEF,
  0x4669BE79, 0xCB61B38C, 0xBC66831A, 0x256FD2A0, 0x5268E236, 0xCC0C7795, 0xBB0B4703,
  0x220216B9, 0x5505262F, 0xC5BA3BBE, 0xB2BD0B28, 0x2BB45A92, 0x5CB36A04, 0xC2D7FFA7,
  0xB5D0CF31, 0x2CD99E8B, 0x5BDEAE1D, 0x9B64C2B0, 0xEC63F226, 0x756AA39C, 0x026D930A,
  0x9C0906A9, 0xEB0E363F, 0x72076785, 0x05005713, 0x95BF4A82, 0xE2B87A14, 0x7BB12BAE,
  0x0CB61B38, 0x92D28E9B, 0xE5D5BE0D, 0x7CDCEFB7, 0x0BDBDF21, 0x86D3D2D4, 0xF1D4E242,
  0x68DDB3F8, 0x1FDA836E, 0x81BE16CD, 0xF6B9265B, 0x6FB077E1, 0x18B74777, 0x88085AE6,
  0xFF0F6A70, 0x66063BCA, 0x11010B5C, 0x8F659EFF, 0xF862AE69, 0x616BFFD3, 0x166CCF45,
  0xA00AE278, 0xD70DD2EE, 0x4E048354, 0x3903B3C2, 0xA7672661, 0xD06016F7, 0x4969474D,
  0x3E6E77DB, 0xAED16A4A, 0xD9D65ADC, 0x40DF0B66, 0x37D83BF0, 0xA9BCAE53, 0xDEBB9EC5,
  0x47B2CF7F, 0x30B5FFE9, 0xBDBDF21C, 0xCABAC28A, 0x53B39330, 0x24B4A3A6, 0xBAD03605,
  0xCDD70693, 0x54DE5729, 0x23D967BF, 0xB3667A2E, 0xC4614AB8, 0x5D681B02, 0x2A6F2B94,
  0xB40BBE37, 0xC30C8EA1, 0x5A05DF1B, 0x2D02EF8D]

/-- Embeds `e2e_crc::calculate_profile_custom`: `crc = 0xFFFFFFFF`; for every byte
`crc = table[(uint8_t)(byte ^ crc)] ^ (crc >> 8)`; result `crc ^ 0xFFFFFFFF`. -/
def calculate_profile_custom (_buffer_view : List Nat) : Nat :=
  let crc := 0xFFFFFFFF
  let crc := _buffer_view.foldl
    (fun crc byte => lookup_table_profile_custom_.getD ((byte ^^^ crc) % 2 ^ 8) 0 ^^^ (crc >>> 8))
    crc
  crc ^^^ 0xFFFFFFFF

/-! ## Bit-serial reference CRC (the parameter tuples of the specification) -/

/-- Bit reversal of `x` over `width` bits. -/
def reflect (width x : Nat) : Nat :=
  (List.range width).foldl
    (fun acc i => if x.testBit i then acc ||| (1 <<< (width - 1 - i)) else acc) 0

/-- One LSB-first step: shift the register right by one bit and xor the (bit-reversed)
polynomial in when the bit shifted out was set. -/
def lsb_step (rpoly reg : Nat) : Nat :=
  if reg % 2 = 1 then (reg >>> 1) ^^^ rpoly else reg >>> 1

/-- One MSB-first step of a `width`-bit register: shift left by one bit, xor the polynomial
in when the bit shifted out was set, keep `width` bits. -/
def msb_step (width poly reg : Nat) : Nat :=
  if reg.testBit (width - 1) then ((reg <<< 1) ^^^ poly) % 2 ^ width
  else (reg <<< 1) % 2 ^ width

/-- Bit-serial processing of one input byte.  Reflected: the byte is xored into the low end
of the register and eight LSB-first steps with the bit-reversed polynomial follow.
Not reflected: the byte is xored into the top eight bits and eight MSB-first steps follow. -/
def reference_byte (width poly : Nat) (reflected : Bool) (reg byte : Nat) : Nat :=
  if reflected then Nat.iterate (lsb_step (reflect width poly)) 8 (reg ^^^ byte)
  else Nat.iterate (msb_step width poly) 8 (reg ^^^ (byte <<< (width - 8)))

/-- Bit-serial reference CRC with the given width, polynomial, reflection of input and
output, initial register and final xor. -/
def crc_reference (width poly : Nat) (reflected : Bool) (init xorout : Nat)
    (data : List Nat) : Nat :=
  data.foldl (reference_byte width poly reflected) init ^^^ xorout

end e2e_crc

namespace protocol

/-! ## Byte buffers -/

/-- The `n` low-order bytes of `v`, least significant first (what `std::memcpy` from an
`n`-byte unsigned integer yields in the little-endian layout of the wire format). -/
def to_le : Nat → Nat → List Nat
  | 0, _ => []
  | n + 1, v => (v % 256) :: to_le n (v / 256)

/-- The unsigned integer whose little-endian bytes are the given list. -/
def of_le : List Nat → Nat
  | [] => 0
  | b :: bs => b + 256 * of_le bs

/-- Overwrites `bytes.length` bytes of the buffer starting at `off` (a `memcpy` to
`&_buffer[off]` or an assignment to `_buffer[off]`).  The write stays inside the vector or
there is no result: `std::vector::operator[]` does not grow the vector. -/
def write_bytes (buf : List Nat) (off : Nat) (bytes : List Nat) : Option (List Nat) :=
  if off + bytes.length ≤ buf.length then
    some (buf.take off ++ bytes ++ buf.drop (off + bytes.length))
  else none

/-- Reads `n` bytes of the buffer starting at `off` (a `memcpy` from `&_buffer[off]` or a read
of `_buffer[off]`); there is no result when the read would leave the vector. -/
def read_bytes (buf : List Nat) (off n : Nat) : Option (List Nat) :=
  if off + n ≤ buf.length then some ((buf.drop off).take n) else none

/-! ## Header -/

/-- The result codes of the codec.  `ERROR_OK` is the one the source names; the three
deserialization failures are the ones the specification lists. -/
inductive error_e where
  | ERROR_OK
  | TooShort
  | UnknownId
  | Truncated
  deriving DecidableEq

/-- Modelled from the spec: the fields of the base class `command` (declared outside the
sources at hand): `id` (1 byte), `version` (1 byte), `client` (2 bytes), `size` (4 bytes,
payload length in bytes). -/
structure command where
  id_ : Nat
  version_ : Nat
  client_ : Nat
  size_ : Nat
  deriving DecidableEq

/-- Modelled from the spec: the header is exactly 8 bytes and precedes the payload. -/
def COMMAND_HEADER_SIZE : Nat := 8

/-- Modelled from the spec: header layout `offset 8: payload`. -/
def COMMAND_POSITION_PAYLOAD : Nat := 8

/-- The header fields of a command are in the range of their types. -/
def command.wf (c : command) : Prop :=
  c.id_ < 2 ^ 8 ∧ c.version_ < 2 ^ 8 ∧ c.client_ < 2 ^ 16 ∧ c.size_ < 2 ^ 32

instance (c : command) : Decidable c.wf := by
  unfold command.wf; infer_instance

/-- The vector `resize`: keep the first `n` bytes, fill up with zero bytes. -/
def resize (buf : List Nat) (n : Nat) : List Nat :=
  buf.take n ++ List.replicate (n - buf.length) 0

/-- Modelled from the spec: `command::serialize` (defined outside the sources at hand).
"Serialization grows the output buffer to `8 + size` and writes fields in order", with the
header layout id u8 at offset 0, version u8 at 1, client u16 at 2, size u32 at 4, multi-byte
fields little-endian.  The specification names no failure of this step. -/
def command.serialize (self : command) (_buffer : List Nat) : List Nat × error_e :=
  let hdr := to_le 1 self.id_ ++ to_le 1 self.version_ ++ to_le 2 self.client_
    ++ to_le 4 self.size_
  (hdr ++ (resize _buffer (COMMAND_HEADER_SIZE + self.size_)).drop COMMAND_HEADER_SIZE,
    error_e.ERROR_OK)

/-- Modelled from the spec: `command::deserialize` (defined outside the sources at hand).
"Deserialization validates that the input length is at least 8, that `size` does not overflow
the remaining buffer, and that `id` names a known variant"; the violations are reported as
`TooShort`, `Truncated` and `UnknownId`.  The closed enumeration of command ids is not in the
sources at hand and is the parameter `known`. -/
def command.deserialize (known : Nat → Bool) (self : command) (_buffer : List Nat) :
    command × error_e :=
  if _buffer.length < COMMAND_HEADER_SIZE then (self, error_e.TooShort)
  else
    let size := of_le ((_buffer.drop 4).take 4)
    if _buffer.length - COMMAND_HEADER_SIZE < size then (self, error_e.Truncated)
    else if known (of_le ((_buffer.drop 0).take 1)) = false then (self, error_e.UnknownId)
    else
      ({ id_ := of_le ((_buffer.drop 0).take 1)
         version_ := of_le ((_buffer.drop 1).take 1)
         client_ := of_le ((_buffer.drop 2).take 2)
         size_ := size }, error_e.ERROR_OK)

/-! ## Subscribe-family payload (from `subscribe_command_base.cpp`) -/

/-- The sentinel `ANY_SERVICE`: the all-ones pattern of `service_t`. -/
def ANY_SERVICE : Nat := 0xFFFF

/-- The sentinel `ANY_INSTANCE`: the all-ones pattern of `instance_t`. -/
def ANY_INSTANCE : Nat := 0xFFFF

/-- The sentinel `ANY_MAJOR`: the all-ones pattern of `major_version_t`. -/
def ANY_MAJOR : Nat := 0xFF

/-- The sentinel `ANY_EVENT`: the all-ones pattern of `event_t`. -/
def ANY_EVENT : Nat := 0xFFFF

/-- The value of `sizeof(service_)`: `service_t` is 16 bits wide. -/
def sizeof_service : Nat := 2

/-- The value of `sizeof(instance_)`: `instance_t` is 16 bits wide. -/
def sizeof_instance : Nat := 2

/-- The value of `sizeof(eventgroup_)`: `eventgroup_t` is 16 bits wide. -/
def sizeof_eventgroup : Nat := 2

/-- The value of `sizeof(major_)`: `major_version_t` is 8 bits wide. -/
def sizeof_major : Nat := 1

/-- The value of `sizeof(event_)`: `event_t` is 16 bits wide. -/
def sizeof_event : Nat := 2

/-- The value of `sizeof(pending_id_)`: `pending_id_t` is 16 bits wide. -/
def sizeof_pending_id : Nat := 2

/-- The class `subscribe_command_base`: the base-class part `command` and six payload
members. -/
structure subscribe_command_base where
  base : command
  service_ : Nat
  instance_ : Nat
  eventgroup_ : Nat
  major_ : Nat
  event_ : Nat
  pending_id_ : Nat
  deriving DecidableEq

/-- The payload members are in the range of their types. -/
def subscribe_command_base.wf (x : subscribe_command_base) : Prop :=
  x.base.wf ∧ x.service_ < 2 ^ 16 ∧ x.instance_ < 2 ^ 16 ∧ x.eventgroup_ < 2 ^ 16 ∧
    x.major_ < 2 ^ 8 ∧ x.event_ < 2 ^ 16 ∧ x.pending_id_ < 2 ^ 16

instance (x : subscribe_command_base) : Decidable x.wf := by
  unfold subscribe_command_base.wf; infer_instance

/-- Embeds `subscribe_command_base::serialize`.  The header step is the base-class method,
passed as `header`; when it reports an error the function returns at once.  Otherwise the six
members are written from `COMMAND_POSITION_PAYLOAD` on, the offset advancing by the `sizeof`
expressions of the source (after `eventgroup_` the source advances by `sizeof(instance_)`).
The result is `none` when a write would leave the vector. -/
def subscribe_command_base.serialize (header : command → List Nat → List Nat × error_e)
    (self : subscribe_command_base) (_buffer : List Nat) : Option (List Nat × error_e) :=
  let (_buffer, _error) := header self.base _buffer
  if _error ≠ error_e.ERROR_OK then some (_buffer, _error)
  else do
    let its_offset := COMMAND_POSITION_PAYLOAD
    let _buffer ← write_bytes _buffer its_offset (to_le sizeof_service self.service_)
    let its_offset := its_offset + sizeof_service
    let _buffer ← write_bytes _buffer its_offset (to_le sizeof_instance self.instance_)
    let its_offset := its_offset + sizeof_instance
    let _buffer ← write_bytes _buffer its_offset (to_le sizeof_eventgroup self.eventgroup_)
    let its_offset := its_offset + sizeof_instance
    let _buffer ← write_bytes _buffer its_offset (to_le sizeof_major self.major_)
    let its_offset := its_offset + sizeof_major
    let _buffer ← write_bytes _buffer its_offset (to_le sizeof_event self.event_)
    let its_offset := its_offset + sizeof_event
    let _buffer ← write_bytes _buffer its_offset (to_le sizeof_pending_id self.pending_id_)
    some (_buffer, _error)

/-- Embeds `subscribe_command_base::deserialize`.  The header step is the base-class method,
passed as `header`; when it reports an error the function returns at once and the payload
members keep their values.  Otherwise the six members are read from
`COMMAND_POSITION_PAYLOAD` on.  The result is `none` when a read would leave the vector. -/
def subscribe_command_base.deserialize (header : command → List Nat → command × error_e)
    (self : subscribe_command_base) (_buffer : List Nat) :
    Option (subscribe_command_base × error_e) :=
  let (base, _error) := header self.base _buffer
  if _error ≠ error_e.ERROR_OK then some ({ self with base := base }, _error)
  else do
    let its_offset := COMMAND_POSITION_PAYLOAD
    let service ← read_bytes _buffer its_offset sizeof_service
    let its_offset := its_offset + sizeof_service
    let inst ← read_bytes _buffer its_offset sizeof_instance
    let its_offset := its_offset + sizeof_instance
    let eventgroup ← read_bytes _buffer its_offset sizeof_eventgroup
    let its_offset := its_offset + sizeof_eventgroup
    let major ← read_bytes _buffer its_offset sizeof_major
    let its_offset := its_offset + sizeof_major
    let event ← read_bytes _buffer its_offset sizeof_event
    let its_offset := its_offset + sizeof_event
    let pending_id ← read_bytes _buffer its_offset sizeof_pending_id
    some ({ base := base
            service_ := of_le service
            instance_ := of_le inst
            eventgroup_ := of_le eventgroup
            major_ := of_le major
            event_ := of_le event
            pending_id_ := of_le pending_id }, _error)

/-- The eleven payload bytes of a subscribe-family command in wire order. -/
def subscribe_payload (x : subscribe_command_base) : List Nat :=
  to_le sizeof_service x.service_ ++ to_le sizeof_instance x.instance_
    ++ to_le sizeof_eventgroup x.eventgroup_ ++ to_le sizeof_major x.major_
    ++ to_le sizeof_event x.event_ ++ to_le sizeof_pending_id x.pending_id_

/-- The serializer the specification asks for: identical to
`subscribe_command_base.serialize`, except that after `eventgroup_` the offset advances by
`sizeof(eventgroup_)`, the width of the member just written. -/
def subscribe_command_base.serialize_by_member_width
    (header : command → List Nat → List Nat × error_e)
    (self : subscribe_command_base) (_buffer : List Nat) : Option (List Nat × error_e) :=
  let (_buffer, _error) := header self.base _buffer
  if _error ≠ error_e.ERROR_OK then some (_buffer, _error)
  else do
    let its_offset := COMMAND_POSITION_PAYLOAD
    let _buffer ← write_bytes _buffer its_offset (to_le sizeof_service self.service_)
    let its_offset := its_offset + sizeof_service
    let _buffer ← write_bytes _buffer its_offset (to_le sizeof_instance self.instance_)
    let its_offset := its_offset + sizeof_instance
    let _buffer ← write_bytes _buffer its_offset (to_le sizeof_eventgroup self.eventgroup_)
    let its_offset := its_offset + sizeof_eventgroup
    let _buffer ← write_bytes _buffer its_offset (to_le sizeof_major self.major_)
    let its_offset := its_offset + sizeof_major
    let _buffer ← write_bytes _buffer its_offset (to_le sizeof_event self.event_)
    let its_offset := its_offset + sizeof_event
    let _buffer ← write_bytes _buffer its_offset (to_le sizeof_pending_id self.pending_id_)
    some (_buffer, _error)

end protocol

/-! ## State and collaborators of the local client endpoint
(from `local_tcp_client_endpoint_impl.cpp`)

One call of a member function is one step on the record below; the mutexes of the source
delimit these steps and are not modelled.  Calls that leave the class (socket, timers, routing
host, error handler) are appended to `trace` in the order they are made. -/

/-- The connection states.  `CLOSED` and `CONNECTING` are the constants the source names;
`ESTABLISHED` is the operational state of the specification (the enumeration is declared
outside the sources at hand). -/
inductive cei_state_e where
  | CLOSED
  | CONNECTING
  | ESTABLISHED
  deriving DecidableEq

/-- Modelled from the spec: the result of the message-size check; `MSG_OK` is the constant the
source names, `MSG_TOO_BIG` stands for the refusal the specification calls oversize. -/
inductive cms_ret_e where
  | MSG_OK
  | MSG_TOO_BIG
  deriving DecidableEq

/-- The `boost::system::error_code` values that `receive_cbk` tells apart; `other` is any
further error. -/
inductive error_code where
  | success
  | operation_aborted
  | eof
  | connection_reset
  | bad_descriptor
  | other (value : Nat)
  deriving DecidableEq

/-- The socket options that `connect` sets. -/
inductive socket_option where
  | no_delay
  | keep_alive
  | linger
  | reuse_address
  deriving DecidableEq

/-- The values of the member `connect_timeout_`: the constant
`VSOMEIP_DEFAULT_CONNECT_TIMEOUT` (its value is defined outside the sources at hand) or any
other number of milliseconds. -/
inductive connect_timeout where
  | VSOMEIP_DEFAULT_CONNECT_TIMEOUT
  | milliseconds (value : Nat)
  deriving DecidableEq

/-- The calls that leave the class. -/
inductive event where
  /-- The call `its_routing_host->on_message(data, length, this)`, with the bytes of the range. -/
  | on_message (data : List Nat)
  /-- The call `socket_->async_receive(...)`: one asynchronous receive is armed. -/
  | async_receive
  /-- The call `handler()` of the user-registered error handler. -/
  | error_handler
  /-- The call `shutdown_and_close_socket_unlocked(_recreate_socket)`. -/
  | shutdown_and_close_socket_unlocked (recreate_socket : Bool)
  /-- The call `start_connect_timer()`: a reconnect is scheduled. -/
  | start_connect_timer
  /-- The call `boost::asio::async_write(*socket_, bufs, ...)`: one gathered write of the
  buffers `bufs`, in this order. -/
  | async_write (bufs : List (List Nat))
  /-- The call `connect_timer_.cancel(ec)`. -/
  | cancel_connect_timer
  /-- The call `std::this_thread::sleep_for(std::chrono::milliseconds(10))`. -/
  | sleep_for_10_milliseconds
  /-- The call `shutdown_and_close_socket(_recreate_socket)`. -/
  | shutdown_and_close_socket (recreate_socket : Bool)
  /-- The call `socket_->open(remote_.protocol(), its_error)`. -/
  | socket_open
  /-- The call `socket_->set_option(..., its_error)`. -/
  | set_option (option : socket_option)
  /-- The call `socket_->bind(local_, its_error)`. -/
  | bind
  /-- The call `strand_.post(std::bind(&client_endpoint_impl::connect_cbk, ..., _error))`:
  the connect callback is posted with the error code `_error`. -/
  | post_connect_cbk (_error : error_code)
  /-- The call `start_connecting_timer()`. -/
  | start_connecting_timer
  /-- The call `socket_->async_connect(remote_, ...)`. -/
  | async_connect
  deriving DecidableEq

/-- The members of `local_tcp_client_endpoint_impl` (own and inherited) that the functions
below read or write, and the observable state of its collaborators. -/
structure local_tcp_client_endpoint_impl where
  /-- The member `state_`. -/
  state_ : cei_state_e
  /-- The member `sending_blocked_`. -/
  sending_blocked_ : Bool
  /-- The member `queue_`: buffers awaiting transmission, each paired with a number. -/
  queue_ : List (List Nat × Nat)
  /-- The member `queue_size_`. -/
  queue_size_ : Nat
  /-- The bytes of `train_->buffer_`. -/
  train_ : List Nat
  /-- The member `max_message_size_`. -/
  max_message_size_ : Nat
  /-- The member `queue_limit_`. -/
  queue_limit_ : Nat
  /-- The member `recv_buffer_`. -/
  recv_buffer_ : List Nat
  /-- The member `was_not_connected_`. -/
  was_not_connected_ : Bool
  /-- The member `reconnect_counter_`. -/
  reconnect_counter_ : Nat
  /-- The member `connect_timeout_`. -/
  connect_timeout_ : connect_timeout
  /-- The answer of `socket_->is_open()`. -/
  socket_is_open : Bool
  /-- Whether `routing_host_.lock()` yields a routing host. -/
  routing_host_alive : Bool
  /-- Whether `error_handler_` holds a callable. -/
  error_handler_ : Bool
  /-- The calls made so far. -/
  trace : List event
  deriving DecidableEq

namespace local_tcp_client_endpoint_impl

/-- Modelled from the spec: the size of the receive buffer.  The frame the client accepts is
"exactly `LOCAL_RECV_BUFFER_SIZE` bytes" with the tags at bytes 0-3 and 15-18, that is 19
bytes. -/
def VSOMEIP_LOCAL_CLIENT_ENDPOINT_RECV_BUFFER_SIZE : Nat := 19

/-- The width of `std::size_t`, the type of `train_->buffer_->size()`, on the 64-bit
targets. -/
def SIZE_T_BITS : Nat := 64

/-- The methods of the base class `client_endpoint_impl` that `send` calls; they are defined
outside the sources at hand. -/
structure base_methods where
  /-- The method `check_message_size(nullptr, _size)`. -/
  check_message_size : local_tcp_client_endpoint_impl → Nat → cms_ret_e
  /-- The method `check_queue_limit(_data, _size)`. -/
  check_queue_limit : local_tcp_client_endpoint_impl → List Nat → Nat → Bool
  /-- The method `queue_train(train_)`. -/
  queue_train : local_tcp_client_endpoint_impl → local_tcp_client_endpoint_impl

/-- Modelled from the spec: `check_message_size`.  A message is oversize when it is longer
than `max_message_size` (a message of exactly `max_message_size` bytes is accepted). -/
def check_message_size (self : local_tcp_client_endpoint_impl) (_size : Nat) : cms_ret_e :=
  if _size > self.max_message_size_ then cms_ret_e.MSG_TOO_BIG else cms_ret_e.MSG_OK

/-- Modelled from the spec: `check_queue_limit` "refuses enqueue when the queue byte-count
plus `n` exceeds `queue_limit`". -/
def check_queue_limit (self : local_tcp_client_endpoint_impl) (_data : List Nat)
    (_size : Nat) : Bool :=
  !decide (self.queue_size_ + _size > self.queue_limit_)

/-- Modelled from the spec: `queue_train`.  The train buffer is frozen onto the tail of the
queue and its size is added to the queue byte-count. -/
def queue_train (self : local_tcp_client_endpoint_impl) : local_tcp_client_endpoint_impl :=
  { self with
    queue_ := self.queue_ ++ [(self.train_, 0)]
    queue_size_ := self.queue_size_ + self.train_.length }

/-- The base-class methods as the specification describes them. -/
def spec_base : base_methods :=
  { check_message_size := check_message_size
    check_queue_limit := check_queue_limit
    queue_train := queue_train }

/-- Modelled from the spec: `shutdown_and_close_socket_unlocked` (base class).  The call is
recorded and the socket is closed afterwards. -/
def shutdown_and_close_socket_unlocked (self : local_tcp_client_endpoint_impl)
    (_recreate_socket : Bool) : local_tcp_client_endpoint_impl :=
  { self with
    socket_is_open := false
    trace := self.trace ++ [event.shutdown_and_close_socket_unlocked _recreate_socket] }

/-- Modelled from the spec: `start_connect_timer` (base class).  The call is recorded: it
schedules one reconnect. -/
def start_connect_timer (self : local_tcp_client_endpoint_impl) :
    local_tcp_client_endpoint_impl :=
  { self with trace := self.trace ++ [event.start_connect_timer] }

/-- Embeds `local_tcp_client_endpoint_impl::restart`. -/
def restart (self : local_tcp_client_endpoint_impl) (_force : Bool) :
    local_tcp_client_endpoint_impl :=
  if !_force && self.state_ == cei_state_e.CONNECTING then self
  else
    let self := { self with state_ := cei_state_e.CONNECTING }
    let self := { self with sending_blocked_ := false, queue_ := [], queue_size_ := 0 }
    let self := shutdown_and_close_socket_unlocked self true
    let self := { self with was_not_connected_ := true }
    let self := { self with reconnect_counter_ := 0 }
    start_connect_timer self

/-- Embeds `local_tcp_client_endpoint_impl::receive`: one asynchronous receive is armed when
the socket is open. -/
def receive (self : local_tcp_client_endpoint_impl) : local_tcp_client_endpoint_impl :=
  if self.socket_is_open then { self with trace := self.trace ++ [event.async_receive] }
  else self

/-- Embeds `local_tcp_client_endpoint_impl::check_packetizer_space`.  The sum
`train_->buffer_->size() + _size` is computed in `std::size_t`. -/
def check_packetizer_space (self : local_tcp_client_endpoint_impl) (_size : Nat) :
    Bool × local_tcp_client_endpoint_impl :=
  if (self.train_.length + _size) % 2 ^ SIZE_T_BITS < self.train_.length then (false, self)
  else if (self.train_.length + _size) % 2 ^ SIZE_T_BITS > self.max_message_size_
      && !self.train_.isEmpty then
    (true, { self with
      queue_ := self.queue_ ++ [(self.train_, 0)]
      queue_size_ := self.queue_size_ + self.train_.length
      train_ := [] })
  else (true, self)

/-- Embeds `local_tcp_client_endpoint_impl::send`.  `_data` are the bytes behind the pointer,
of which the first `_size` are appended.  The four operands of `||` are evaluated from left to
right and the evaluation stops at the first one that holds. -/
def send (base : base_methods) (self : local_tcp_client_endpoint_impl) (_data : List Nat)
    (_size : Nat) : Bool × local_tcp_client_endpoint_impl :=
  if self.sending_blocked_ then (false, self)
  else if base.check_message_size self _size ≠ cms_ret_e.MSG_OK then (false, self)
  else
    let (space, self) := check_packetizer_space self _size
    if !space then (false, self)
    else if !base.check_queue_limit self _data _size then (false, self)
    else
      let self := { self with train_ := self.train_ ++ _data.take _size }
      let self := base.queue_train self
      let self := { self with train_ := [] }
      (true, self)

/-- Embeds `local_tcp_client_endpoint_impl::receive_cbk`.  `ASSIGN_CLIENT_ACK_ID` is the byte
value of `protocol::id_e::ASSIGN_CLIENT_ACK_ID`, which is declared outside the sources at
hand. -/
def receive_cbk (ASSIGN_CLIENT_ACK_ID : Nat) (self : local_tcp_client_endpoint_impl)
    (_error : error_code) (_bytes : Nat) : local_tcp_client_endpoint_impl :=
  if _error ≠ error_code.success then
    if _error = error_code.operation_aborted then self
    else if _error = error_code.connection_reset ∨ _error = error_code.bad_descriptor then
      restart self true
    else
      let self :=
        if _error = error_code.eof then
          { self with sending_blocked_ := false, queue_ := [], queue_size_ := 0 }
        else self
      if self.error_handler_ then { self with trace := self.trace ++ [event.error_handler] }
      else self
  else
    let self :=
      if _bytes = VSOMEIP_LOCAL_CLIENT_ENDPOINT_RECV_BUFFER_SIZE
          ∧ self.recv_buffer_.getD 0 0 = 0x67 ∧ self.recv_buffer_.getD 1 0 = 0x37
          ∧ self.recv_buffer_.getD 2 0 = 0x6d ∧ self.recv_buffer_.getD 3 0 = 0x07
          ∧ self.recv_buffer_.getD 4 0 = ASSIGN_CLIENT_ACK_ID
          ∧ self.recv_buffer_.getD 15 0 = 0x07 ∧ self.recv_buffer_.getD 16 0 = 0x6d
          ∧ self.recv_buffer_.getD 17 0 = 0x37 ∧ self.recv_buffer_.getD 18 0 = 0x67 then
        if self.routing_host_alive then
          { self with
            trace := self.trace ++ [event.on_message
              ((self.recv_buffer_.drop 4).take (self.recv_buffer_.length - 8))] }
        else self
      else self
    receive self

/-- Modelled from the spec: the endpoint after construction.  The constructor of the source
sizes `recv_buffer_` and takes `max_message_size_` and `queue_limit_` from the configuration;
the base classes create the endpoint in `CLOSED` with an empty train, an empty queue, a
queue byte-count of 0 and the default connect timeout. -/
def construct (_max_message_size_local _queue_limit_local : Nat) :
    local_tcp_client_endpoint_impl :=
  { state_ := cei_state_e.CLOSED
    sending_blocked_ := false
    queue_ := []
    queue_size_ := 0
    train_ := []
    max_message_size_ := _max_message_size_local
    queue_limit_ := _queue_limit_local
    recv_buffer_ := List.replicate VSOMEIP_LOCAL_CLIENT_ENDPOINT_RECV_BUFFER_SIZE 0
    was_not_connected_ := false
    reconnect_counter_ := 0
    connect_timeout_ := connect_timeout.VSOMEIP_DEFAULT_CONNECT_TIMEOUT
    socket_is_open := false
    routing_host_alive := true
    error_handler_ := false
    trace := [] }

/-- Consecutive calls of `send`, one per message, with nothing drained in between: the return
values in call order and the state after the last call. -/
def send_each (base : base_methods) (self : local_tcp_client_endpoint_impl) :
    List (List Nat) → List Bool × local_tcp_client_endpoint_impl
  | [] => ([], self)
  | m :: ms =>
    ((send base self m m.length).1 :: (send_each base (send base self m m.length).2 ms).1,
      (send_each base (send base self m m.length).2 ms).2)

/-- The framing the specification asks of the first inbound message: `k` bytes were received
with `k = LOCAL_RECV_BUFFER_SIZE`, bytes 0..3 are `67 37 6D 07`, byte 4 is the
`ASSIGN_CLIENT_ACK` command id and bytes 15..18 are `07 6D 37 67`. -/
def well_framed (ASSIGN_CLIENT_ACK_ID : Nat) (buf : List Nat) (k : Nat) : Prop :=
  k = VSOMEIP_LOCAL_CLIENT_ENDPOINT_RECV_BUFFER_SIZE ∧ buf.take 4 = [0x67, 0x37, 0x6D, 0x07] ∧
    buf[4]? = some ASSIGN_CLIENT_ACK_ID ∧ (buf.drop 15).take 4 = [0x07, 0x6D, 0x37, 0x67]

instance (ack : Nat) (buf : List Nat) (k : Nat) : Decidable (well_framed ack buf k) := by
  unfold well_framed; infer_instance

/-- Modelled from the spec: `shutdown_and_close_socket` (base class), the variant that takes
the socket lock itself.  The call is recorded and the socket is closed afterwards. -/
def shutdown_and_close_socket (self : local_tcp_client_endpoint_impl)
    (_recreate_socket : Bool) : local_tcp_client_endpoint_impl :=
  { self with
    socket_is_open := false
    trace := self.trace ++ [event.shutdown_and_close_socket _recreate_socket] }

/-- The loop `while (times_slept <= 50)` of `stop`, started with `times_slept` sleeps already
done; the result is `times_slept` at the exit of the loop.  `queue_empty_at t` is the answer
of `queue_.size() == 0` at the poll made after `t` sleeps: the completion handlers of the
writes drain the queue while `stop` sleeps. -/
def stop_loop (queue_empty_at : Nat → Bool) (times_slept : Nat) : Nat :=
  if times_slept ≤ 50 then
    if queue_empty_at times_slept then times_slept
    else stop_loop queue_empty_at (times_slept + 1)
  else times_slept
termination_by 51 - times_slept
decreasing_by omega

/-- Embeds `local_tcp_client_endpoint_impl::stop`.  Every pass of the loop that finds the
queue non-empty sleeps once, so the number of sleeps is the final `times_slept`. -/
def stop (self : local_tcp_client_endpoint_impl) (queue_empty_at : Nat → Bool) :
    local_tcp_client_endpoint_impl :=
  let self := { self with sending_blocked_ := true }
  let self := { self with trace := self.trace ++ [event.cancel_connect_timer] }
  let self := { self with connect_timeout_ := connect_timeout.VSOMEIP_DEFAULT_CONNECT_TIMEOUT }
  let is_open := self.socket_is_open
  let self :=
    if is_open then
      { self with
        trace := self.trace
          ++ List.replicate (stop_loop queue_empty_at 0) event.sleep_for_10_milliseconds }
    else self
  shutdown_and_close_socket self false

/-- What the environment answers to the calls of `connect`: the error code of
`socket_->open`, and whether each `set_option` and the `bind` report an error. -/
structure connect_answers where
  /-- The error code that `socket_->open` leaves in `its_error`. -/
  open_error : error_code
  /-- Whether `set_option(no_delay(true))` reports an error. -/
  no_delay_fails : Bool
  /-- Whether `set_option(keep_alive(true))` reports an error. -/
  keep_alive_fails : Bool
  /-- Whether `set_option(linger(true, 5))` reports an error. -/
  linger_fails : Bool
  /-- Whether `set_option(reuse_address(true))` reports an error. -/
  reuse_address_fails : Bool
  /-- Whether `bind(local_)` reports an error. -/
  bind_fails : Bool

/-- Embeds `local_tcp_client_endpoint_impl::connect`.  `already_open` is the value of
`boost::asio::error::already_open`, one of the further errors `error_code.other`.  The failed
`set_option` calls only write a log line.  `its_connect_error` is default-constructed
(`success`) and is assigned only when the socket could not be opened.  The `catch` blocks
around `strand_.post` only write a log line and are not modelled. -/
def connect (already_open : Nat) (self : local_tcp_client_endpoint_impl)
    (answers : connect_answers) : local_tcp_client_endpoint_impl :=
  let its_connect_error := error_code.success
  let self := { self with trace := self.trace ++ [event.socket_open] }
  if answers.open_error = error_code.success
      ∨ answers.open_error = error_code.other already_open then
    let self := { self with socket_is_open := true }
    let self := { self with
      trace := self.trace ++ [event.set_option socket_option.no_delay,
        event.set_option socket_option.keep_alive, event.set_option socket_option.linger,
        event.set_option socket_option.reuse_address, event.bind] }
    if answers.bind_fails then
      { self with trace := self.trace ++ [event.post_connect_cbk its_connect_error] }
    else
      let self := { self with state_ := cei_state_e.CONNECTING }
      { self with trace := self.trace ++ [event.start_connecting_timer, event.async_connect] }
  else
    let its_connect_error := answers.open_error
    { self with trace := self.trace ++ [event.post_connect_cbk its_connect_error] }

/-- The constant `its_start_tag` of `send_queued`. -/
def its_start_tag : List Nat := [0x67, 0x37, 0x6D, 0x07]

/-- The constant `its_end_tag` of `send_queued`. -/
def its_end_tag : List Nat := [0x07, 0x6D, 0x37, 0x67]

/-- Embeds `local_tcp_client_endpoint_impl::send_queued`: the three buffers start tag, queued
buffer `*_entry.first` and end tag are handed to one `async_write`. -/
def send_queued (self : local_tcp_client_endpoint_impl) (_entry : List Nat × Nat) :
    local_tcp_client_endpoint_impl :=
  let bufs : List (List Nat) := []
  let bufs := bufs ++ [its_start_tag]
  let bufs := bufs ++ [_entry.1]
  let bufs := bufs ++ [its_end_tag]
  { self with trace := self.trace ++ [event.async_write bufs] }

/-- The states reachable from an initial state (empty train, empty queue, queue byte-count 0)
by `send`, `check_packetizer_space`, `restart` and `receive_cbk` completed with `eof`, the
base-class methods being the ones of the specification. -/
inductive reachable : local_tcp_client_endpoint_impl → Prop where
  | initial (st : local_tcp_client_endpoint_impl) :
      st.train_ = [] → st.queue_ = [] → st.queue_size_ = 0 → reachable st
  | send (st : local_tcp_client_endpoint_impl) (_data : List Nat) (_size : Nat) :
      reachable st → reachable (send spec_base st _data _size).2
  | check_packetizer_space (st : local_tcp_client_endpoint_impl) (_size : Nat) :
      reachable st → reachable (check_packetizer_space st _size).2
  | restart (st : local_tcp_client_endpoint_impl) (_force : Bool) :
      reachable st → reachable (restart st _force)
  | receive_cbk_eof (ack : Nat) (st : local_tcp_client_endpoint_impl) (_bytes : Nat) :
      reachable st → reachable (receive_cbk ack st error_code.eof _bytes)

end local_tcp_client_endpoint_impl

/-! # Proofs: CRC engine -/

namespace e2e_crc

/-! ## Bitwise facts -/

theorem shiftRight_xor (a b k : Nat) : (a ^^^ b) >>> k = (a >>> k) ^^^ (b >>> k) := by
  apply Nat.eq_of_testBit_eq; intro i; simp

theorem shiftLeft_xor (a b k : Nat) : (a ^^^ b) <<< k = (a <<< k) ^^^ (b <<< k) := by
  apply Nat.eq_of_testBit_eq; intro i
  simp only [Nat.testBit_shiftLeft, Nat.testBit_xor]
  cases decide (i ≥ k) <;> simp

theorem xor_mod_pow (a b k : Nat) : (a ^^^ b) % 2 ^ k = (a % 2 ^ k) ^^^ (b % 2 ^ k) := by
  apply Nat.eq_of_testBit_eq; intro i
  simp only [Nat.testBit_mod_two_pow, Nat.testBit_xor]
  cases decide (i < k) <;> simp

theorem split_low (x k : Nat) : x = (x % 2 ^ k) ^^^ ((x >>> k) <<< k) := by
  apply Nat.eq_of_testBit_eq; intro i
  simp only [Nat.testBit_mod_two_pow, Nat.testBit_xor, Nat.testBit_shiftLeft,
    Nat.testBit_shiftRight]
  by_cases h : i < k
  · simp [h, Nat.not_le.mpr h]
  · have h2 : k ≤ i := Nat.le_of_not_lt h
    simp [h, h2, Nat.add_sub_cancel' h2]

theorem shiftRight_eq_zero_of_lt {x k : Nat} (h : x < 2 ^ k) : x >>> k = 0 := by
  rw [Nat.shiftRight_eq_div_pow]; exact Nat.div_eq_of_lt h

theorem xor_xor_cancel (a m : Nat) : (a ^^^ m) ^^^ m = a := by
  rw [Nat.xor_assoc, Nat.xor_self, Nat.xor_zero]

/-! ## Linearity of the bit-serial steps -/

theorem xor_cancel_mid (a b p : Nat) : (a ^^^ p) ^^^ (b ^^^ p) = a ^^^ b := by
  apply Nat.eq_of_testBit_eq; intro i
  simp only [Nat.testBit_xor]
  cases a.testBit i <;> cases b.testBit i <;> cases p.testBit i <;> rfl

theorem xor_swap_right (a b p : Nat) : (a ^^^ p) ^^^ b = (a ^^^ b) ^^^ p := by
  apply Nat.eq_of_testBit_eq; intro i
  simp only [Nat.testBit_xor]
  cases a.testBit i <;> cases b.testBit i <;> cases p.testBit i <;> rfl

theorem lsb_step_xor (rp a b : Nat) :
    lsb_step rp (a ^^^ b) = lsb_step rp a ^^^ lsb_step rp b := by
  have hx : (a ^^^ b) % 2 = (a + b) % 2 := Nat.xor_mod_two_eq
  have hs := shiftRight_xor a b 1
  unfold lsb_step
  rcases Nat.mod_two_eq_zero_or_one a with ha | ha <;>
    rcases Nat.mod_two_eq_zero_or_one b with hb | hb
  · have h : (a ^^^ b) % 2 = 0 := by omega
    rw [if_neg (by omega), if_neg (by omega), if_neg (by omega), hs]
  · have h : (a ^^^ b) % 2 = 1 := by omega
    rw [if_pos h, if_neg (by omega), if_pos hb, hs, Nat.xor_assoc]
  · have h : (a ^^^ b) % 2 = 1 := by omega
    rw [if_pos h, if_pos ha, if_neg (by omega), hs, xor_swap_right]
  · have h : (a ^^^ b) % 2 = 0 := by omega
    rw [if_neg (by omega), if_pos ha, if_pos hb, hs, xor_cancel_mid]

theorem lsb_iterate_xor (rp : Nat) (k a b : Nat) :
    Nat.iterate (lsb_step rp) k (a ^^^ b)
      = Nat.iterate (lsb_step rp) k a ^^^ Nat.iterate (lsb_step rp) k b := by
  induction k generalizing a b with
  | zero => rfl
  | succ k ih => simp only [Function.iterate_succ_apply, lsb_step_xor, ih]

theorem lsb_iterate_shiftLeft (rp : Nat) (k h : Nat) :
    Nat.iterate (lsb_step rp) k (h <<< k) = h := by
  induction k with
  | zero => simp
  | succ k ih =>
    rw [Function.iterate_succ_apply]
    have h1 : (h <<< (k + 1)) % 2 = 0 := by
      rw [Nat.shiftLeft_succ]; omega
    have h2 : (h <<< (k + 1)) >>> 1 = h <<< k := by
      rw [Nat.shiftLeft_succ, Nat.shiftRight_eq_div_pow]; omega
    unfold lsb_step
    simp only [h1, h2]
    simpa using ih

/-- Eight LSB-first steps split into a table part (low byte) and a shift part. -/
theorem lsb_iterate_split (rp x : Nat) :
    Nat.iterate (lsb_step rp) 8 x
      = Nat.iterate (lsb_step rp) 8 (x % 2 ^ 8) ^^^ (x >>> 8) := by
  conv_lhs => rw [split_low x 8]
  rw [lsb_iterate_xor, lsb_iterate_shiftLeft]

/-! ## The tables are the eight-step images of their indices -/

theorem table_04_entries : ∀ i < 256,
    lookup_table_profile_04_.getD i 0 = Nat.iterate (lsb_step 0xC8DF352F) 8 i := by
  decide

theorem table_07_entries : ∀ i < 256,
    lookup_table_profile_07_.getD i 0 = Nat.iterate (lsb_step 0xC96C5795D7870F42) 8 i := by
  decide

theorem reflect_poly_04 : reflect 32 0xF4ACFB13 = 0xC8DF352F := by decide

theorem reflect_poly_07 : reflect 64 0x42F0E1EBA9EA3693 = 0xC96C5795D7870F42 := by decide

theorem table_05_entries : ∀ i < 256,
    lookup_table_profile_05_.getD i 0 = Nat.iterate (msb_step 16 0x1021) 8 (i <<< 8) := by
  decide

theorem table_05_bound : ∀ i < 256, lookup_table_profile_05_.getD i 0 < 2 ^ 16 := by
  decide

theorem msb_16_low_byte : ∀ l < 256,
    Nat.iterate (msb_step 16 0x1021) 8 l = (l <<< 8) % 2 ^ 16 := by
  decide

theorem table_01_entries : ∀ i < 256,
    lookup_table_profile_01_.getD i 0 = Nat.iterate (msb_step 8 0x1D) 8 i := by
  decide

theorem table_01_bound : ∀ i < 256, lookup_table_profile_01_.getD i 0 < 2 ^ 8 := by
  decide

theorem msb_step_xor (w p a b : Nat) :
    msb_step w p (a ^^^ b) = msb_step w p a ^^^ msb_step w p b := by
  have ht : (a ^^^ b).testBit (w - 1) = (a.testBit (w - 1) ^^ b.testBit (w - 1)) :=
    Nat.testBit_xor a b (w - 1)
  have hs := shiftLeft_xor a b 1
  unfold msb_step
  rw [ht, hs]
  cases a.testBit (w - 1) <;> cases b.testBit (w - 1)
  · simp [xor_mod_pow]
  · simp [xor_mod_pow, Nat.xor_assoc]
  · simp only [Bool.true_bne, Bool.not_false, if_true, Bool.false_eq_true, if_false,
      xor_mod_pow]
    rw [xor_swap_right]
  · simp only [Bool.true_bne, Bool.not_true, Bool.false_eq_true, if_false, if_true,
      xor_mod_pow]
    rw [xor_cancel_mid]

theorem msb_iterate_xor (w p : Nat) (k a b : Nat) :
    Nat.iterate (msb_step w p) k (a ^^^ b)
      = Nat.iterate (msb_step w p) k a ^^^ Nat.iterate (msb_step w p) k b := by
  induction k generalizing a b with
  | zero => rfl
  | succ k ih => simp only [Function.iterate_succ_apply, msb_step_xor, ih]

/-! ## Folding -/

theorem foldl_eq_of_invariant {α β : Type} (P : α → Prop) (Q : β → Prop) (f g : α → β → α)
    (hfg : ∀ a x, P a → Q x → f a x = g a x) (hP : ∀ a x, P a → Q x → P (f a x)) :
    ∀ (l : List β) (a : α), P a → (∀ x ∈ l, Q x) →
      l.foldl f a = l.foldl g a ∧ P (l.foldl f a) := by
  intro l
  induction l with
  | nil => intro a ha _; exact ⟨rfl, ha⟩
  | cons x xs ih =>
    intro a ha hl
    have hx : Q x := hl x (List.mem_cons_self x xs)
    have hxs : ∀ y ∈ xs, Q y := fun y hy => hl y (List.mem_cons_of_mem x hy)
    simp only [List.foldl_cons]
    rw [← hfg a x ha hx]
    exact ih (f a x) (hP a x ha hx) hxs

theorem foldl_range_getD (f : Nat → Nat → Nat) (l : List Nat) :
    ∀ (n : Nat), n ≤ l.length → ∀ (a : Nat),
      (List.range n).foldl (fun c i => f c (l.getD i 0)) a = (l.take n).foldl f a := by
  intro n
  induction n with
  | zero => intro _ a; simp
  | succ n ih =>
    intro hn a
    have hlt : n < l.length := hn
    rw [List.range_succ, List.foldl_append, ih (Nat.le_of_lt hlt) a, List.take_succ,
      List.foldl_append]
    simp [List.getD, List.getElem?_eq_getElem hlt]

/-! ## The table update equals eight bit-serial steps -/

theorem reflected_update (rp : Nat) (T : List Nat)
    (hT : ∀ i < 256, T.getD i 0 = Nat.iterate (lsb_step rp) 8 i)
    (crc byte : Nat) (hb : byte < 256) :
    T.getD ((byte ^^^ crc) % 2 ^ 8) 0 ^^^ (crc >>> 8)
      = Nat.iterate (lsb_step rp) 8 (crc ^^^ byte) := by
  have hm : (byte ^^^ crc) % 2 ^ 8 < 256 := Nat.mod_lt _ (by norm_num)
  have hz : byte >>> 8 = 0 := shiftRight_eq_zero_of_lt (by simpa using hb)
  rw [lsb_iterate_split rp (crc ^^^ byte), hT _ hm, Nat.xor_comm byte crc, shiftRight_xor, hz,
    Nat.xor_zero]

theorem profile_05_update_eq (crc byte : Nat) (hc : crc < 2 ^ 16) (hb : byte < 256) :
    profile_05_update crc byte
      = Nat.iterate (msb_step 16 0x1021) 8 (crc ^^^ (byte <<< 8)) := by
  have hhi : crc >>> 8 < 256 := by
    rw [Nat.shiftRight_eq_div_pow]; omega
  have hidx : (crc >>> 8) ^^^ byte < 256 :=
    Nat.xor_lt_two_pow (n := 8) (by simpa using hhi) (by simpa using hb)
  have hxhi : (crc ^^^ (byte <<< 8)) >>> 8 = (crc >>> 8) ^^^ byte := by
    rw [shiftRight_xor, Nat.shiftLeft_shiftRight]
  have hxlo : (crc ^^^ (byte <<< 8)) % 2 ^ 8 = crc % 2 ^ 8 := by
    rw [xor_mod_pow]
    have : (byte <<< 8) % 2 ^ 8 = 0 := by rw [Nat.shiftLeft_eq]; exact Nat.mul_mod_left _ _
    rw [this, Nat.xor_zero]
  have hlo : crc % 2 ^ 8 < 256 := Nat.mod_lt _ (by norm_num)
  have hsh : ((crc % 2 ^ 8) <<< 8) % 2 ^ 16 = (crc <<< 8) % 2 ^ 16 := by
    rw [Nat.shiftLeft_eq, Nat.shiftLeft_eq]; omega
  unfold profile_05_update
  conv_rhs => rw [split_low (crc ^^^ (byte <<< 8)) 8]
  rw [msb_iterate_xor, hxhi, hxlo, ← table_05_entries _ hidx, msb_16_low_byte _ hlo, hsh,
    Nat.mod_eq_of_lt (show crc >>> 8 < 2 ^ 8 by simpa using hhi), Nat.xor_comm]

theorem profile_05_update_lt (crc byte : Nat) (hc : crc < 2 ^ 16) (hb : byte < 256) :
    profile_05_update crc byte < 2 ^ 16 := by
  have hhi : crc >>> 8 < 256 := by
    rw [Nat.shiftRight_eq_div_pow]; omega
  have hidx : ((crc >>> 8) % 2 ^ 8) ^^^ byte < 256 :=
    Nat.xor_lt_two_pow (n := 8) (Nat.mod_lt _ (by norm_num)) (by simpa using hb)
  exact Nat.xor_lt_two_pow (table_05_bound _ hidx) (Nat.mod_lt _ (by norm_num))


theorem profile_05_fold (b : List Nat) (s : Nat) (hlen : b.length < 2 ^ 32) :
    calculate_profile_05 b s = b.foldl profile_05_update s := by
  unfold calculate_profile_05
  simp only [Nat.mod_eq_of_lt hlen]
  rw [foldl_range_getD profile_05_update b b.length (Nat.le_refl _) s, List.take_length]

theorem profile_01_fold_lt (b : List Nat) (c : Nat) (hc : c < 256) :
    b.foldl (fun crc byte =>
      (lookup_table_profile_01_.getD ((byte ^^^ crc) % 2 ^ 8) 0) % 2 ^ 8) c < 256 := by
  induction b generalizing c with
  | nil => simpa using hc
  | cons x xs ih => exact ih _ (Nat.mod_lt _ (by norm_num))

theorem xor_ff_mod (r : Nat) (hr : r < 256) : (r ^^^ 0xFF) % 2 ^ 8 = r ^^^ 0xFF :=
  Nat.mod_eq_of_lt (Nat.xor_lt_two_pow (n := 8) (by simpa using hr) (by norm_num))

theorem xor_ff_lt (r : Nat) (hr : r < 256) : r ^^^ 0xFF < 256 :=
  Nat.xor_lt_two_pow (n := 8) (by simpa using hr) (by norm_num)

/-! ## Known-answer vectors and streaming -/

/-- C2: `calculate_profile_04` on the ASCII bytes "123456789" with start value 0 returns
0x1697D06A. -/
theorem profile_04_check_value :
    calculate_profile_04 [0x31, 0x32, 0x33, 0x34, 0x35, 0x36, 0x37, 0x38, 0x39] 0
      = 0x1697D06A := by
  decide

/-- C3 (as stated, refuted): `calculate_profile_07` on the ASCII bytes "123456789" with start
value 0 does not return 0x62EC59E3F1A4F00A. -/
theorem profile_07_claimed_check_refuted :
    calculate_profile_07 [0x31, 0x32, 0x33, 0x34, 0x35, 0x36, 0x37, 0x38, 0x39] 0
      ≠ 0x62EC59E3F1A4F00A := by
  decide

/-- C3 (amended): `calculate_profile_07` on the ASCII bytes "123456789" with start value 0
returns 0x995DC9BBDF1939FA. -/
theorem profile_07_check_value :
    calculate_profile_07 [0x31, 0x32, 0x33, 0x34, 0x35, 0x36, 0x37, 0x38, 0x39] 0
      = 0x995DC9BBDF1939FA := by
  decide

/-- C4: `calculate_profile_05` on the ASCII bytes "123456789" with start value 0xFFFF returns
0x29B1. -/
theorem profile_05_check_value :
    calculate_profile_05 [0x31, 0x32, 0x33, 0x34, 0x35, 0x36, 0x37, 0x38, 0x39] 0xFFFF
      = 0x29B1 := by
  decide

/-- C5 (as stated, refuted): `calculate_profile_01` on nine zero bytes with start value 0 does
not return 0x59. -/
theorem profile_01_nine_zeros_refuted :
    calculate_profile_01 [0, 0, 0, 0, 0, 0, 0, 0, 0] 0 ≠ 0x59 := by
  decide

/-- C5 (amended): `calculate_profile_01` on nine zero bytes with start value 0 returns 0x7C;
the value 0x59 is what it returns on the four zero bytes of the AUTOSAR reference vector. -/
theorem profile_01_zero_vectors :
    calculate_profile_01 [0, 0, 0, 0, 0, 0, 0, 0, 0] 0 = 0x7C ∧
    calculate_profile_01 [0, 0, 0, 0] 0 = 0x59 := by
  decide

/-- C6: streaming.  For each of the profiles 01, 04, 05 and 07, feeding the result of a first
call as the start value of a second call gives the result of the one-shot call over the
concatenated bytes.  The length bound is the range of the `uint32_t` length of profile 05. -/
theorem crc_streaming (s : Nat) (b1 b2 : List Nat) (hlen : (b1 ++ b2).length < 2 ^ 32) :
    calculate_profile_01 b2 (calculate_profile_01 b1 s) = calculate_profile_01 (b1 ++ b2) s ∧
    calculate_profile_04 b2 (calculate_profile_04 b1 s) = calculate_profile_04 (b1 ++ b2) s ∧
    calculate_profile_05 b2 (calculate_profile_05 b1 s) = calculate_profile_05 (b1 ++ b2) s ∧
    calculate_profile_07 b2 (calculate_profile_07 b1 s) = calculate_profile_07 (b1 ++ b2) s := by
  have hl : b1.length + b2.length < 2 ^ 32 := by simpa using hlen
  refine ⟨?_, ?_, ?_, ?_⟩
  · have hr := profile_01_fold_lt b1 ((s ^^^ 0xFF) % 2 ^ 8) (Nat.mod_lt _ (by norm_num))
    unfold calculate_profile_01
    simp only [List.foldl_append]
    rw [xor_ff_mod _ hr, xor_ff_mod _ (xor_ff_lt _ hr), xor_xor_cancel]
  · unfold calculate_profile_04
    simp only [List.foldl_append, xor_xor_cancel]
  · rw [profile_05_fold b1 s (by omega), profile_05_fold b2 _ (by omega),
      profile_05_fold (b1 ++ b2) s hlen, List.foldl_append]
  · unfold calculate_profile_07
    simp only [List.foldl_append, xor_xor_cancel]

/-- Witness for C6 at the split "1234" ++ "56789" with start value 0. -/
theorem crc_streaming_witness :
    ([0x31, 0x32, 0x33, 0x34] ++ [0x35, 0x36, 0x37, 0x38, 0x39]).length < 2 ^ 32 ∧
    calculate_profile_01 [0x35, 0x36, 0x37, 0x38, 0x39]
        (calculate_profile_01 [0x31, 0x32, 0x33, 0x34] 0)
      = calculate_profile_01 ([0x31, 0x32, 0x33, 0x34] ++ [0x35, 0x36, 0x37, 0x38, 0x39]) 0 ∧
    calculate_profile_04 [0x35, 0x36, 0x37, 0x38, 0x39]
        (calculate_profile_04 [0x31, 0x32, 0x33, 0x34] 0)
      = calculate_profile_04 ([0x31, 0x32, 0x33, 0x34] ++ [0x35, 0x36, 0x37, 0x38, 0x39]) 0 ∧
    calculate_profile_05 [0x35, 0x36, 0x37, 0x38, 0x39]
        (calculate_profile_05 [0x31, 0x32, 0x33, 0x34] 0)
      = calculate_profile_05 ([0x31, 0x32, 0x33, 0x34] ++ [0x35, 0x36, 0x37, 0x38, 0x39]) 0 ∧
    calculate_profile_07 [0x35, 0x36, 0x37, 0x38, 0x39]
        (calculate_profile_07 [0x31, 0x32, 0x33, 0x34] 0)
      = calculate_profile_07 ([0x31, 0x32, 0x33, 0x34] ++ [0x35, 0x36, 0x37, 0x38, 0x39]) 0 :=
  ⟨by decide,
    crc_streaming 0 [0x31, 0x32, 0x33, 0x34] [0x35, 0x36, 0x37, 0x38, 0x39] (by decide)⟩

/-! ## Refinement of the bit-serial reference -/

theorem reflected_fold (rp : Nat) (T : List Nat)
    (hT : ∀ i < 256, T.getD i 0 = Nat.iterate (lsb_step rp) 8 i)
    (b : List Nat) (hb : ∀ x ∈ b, x < 256) (c : Nat) :
    b.foldl (fun crc byte => T.getD ((byte ^^^ crc) % 2 ^ 8) 0 ^^^ (crc >>> 8)) c
      = b.foldl (fun reg byte => Nat.iterate (lsb_step rp) 8 (reg ^^^ byte)) c :=
  (foldl_eq_of_invariant (fun _ => True) (fun x => x < 256) _ _
    (fun a x _ hx => reflected_update rp T hT a x hx) (fun _ _ _ _ => trivial)
    b c trivial hb).1

/-- C7: on byte sequences, `calculate_profile_04` is the bit-serial reference CRC of width 32
with polynomial 0xF4ACFB13, reflected input and output, register initialised to
`s XOR 0xFFFFFFFF` and final xor 0xFFFFFFFF; the bit-reversed polynomial is 0xC8DF352F and
every table entry `i` is the image of `i` under eight LSB-first steps with it. -/
theorem profile_04_refines_reference (b : List Nat) (s : Nat)
    (hb : ∀ x ∈ b, x < 256) :
    calculate_profile_04 b s
        = crc_reference 32 0xF4ACFB13 true (s ^^^ 0xFFFFFFFF) 0xFFFFFFFF b ∧
    reflect 32 0xF4ACFB13 = 0xC8DF352F ∧
    lookup_table_profile_04_.length = 256 ∧
    ∀ i < 256, lookup_table_profile_04_.getD i 0 = Nat.iterate (lsb_step 0xC8DF352F) 8 i := by
  refine ⟨?_, reflect_poly_04, by decide, table_04_entries⟩
  unfold calculate_profile_04 crc_reference
  simp only [reflected_fold 0xC8DF352F lookup_table_profile_04_ table_04_entries b hb]
  have hf : reference_byte 32 0xF4ACFB13 true
      = fun reg byte => Nat.iterate (lsb_step 0xC8DF352F) 8 (reg ^^^ byte) := by
    funext reg byte
    simp only [reference_byte, if_true, reflect_poly_04]
  rw [hf]

/-- Witness for C7 at the bytes "12" with start value 0. -/
theorem profile_04_refines_reference_witness :
    (∀ x ∈ [0x31, 0x32], x < 256) ∧
    calculate_profile_04 [0x31, 0x32] 0
      = crc_reference 32 0xF4ACFB13 true (0 ^^^ 0xFFFFFFFF) 0xFFFFFFFF [0x31, 0x32] :=
  ⟨by decide, (profile_04_refines_reference [0x31, 0x32] 0 (by decide)).1⟩

/-- C8: on byte sequences, `calculate_profile_07` is the bit-serial reference CRC of width 64
with polynomial 0x42F0E1EBA9EA3693, reflected input and output, register initialised to
`s XOR 0xFFFFFFFFFFFFFFFF` and final xor 0xFFFFFFFFFFFFFFFF; the bit-reversed polynomial is
0xC96C5795D7870F42 and every table entry `i` is the image of `i` under eight LSB-first steps
with it. -/
theorem profile_07_refines_reference (b : List Nat) (s : Nat)
    (hb : ∀ x ∈ b, x < 256) :
    calculate_profile_07 b s
        = crc_reference 64 0x42F0E1EBA9EA3693 true (s ^^^ 0xFFFFFFFFFFFFFFFF)
            0xFFFFFFFFFFFFFFFF b ∧
    reflect 64 0x42F0E1EBA9EA3693 = 0xC96C5795D7870F42 ∧
    lookup_table_profile_07_.length = 256 ∧
    ∀ i < 256,
      lookup_table_profile_07_.getD i 0 = Nat.iterate (lsb_step 0xC96C5795D7870F42) 8 i := by
  refine ⟨?_, reflect_poly_07, by decide, table_07_entries⟩
  unfold calculate_profile_07 crc_reference
  simp only [reflected_fold 0xC96C5795D7870F42 lookup_table_profile_07_ table_07_entries b hb]
  have hf : reference_byte 64 0x42F0E1EBA9EA3693 true
      = fun reg byte => Nat.iterate (lsb_step 0xC96C5795D7870F42) 8 (reg ^^^ byte) := by
    funext reg byte
    simp only [reference_byte, if_true, reflect_poly_07]
  rw [hf]

/-- Witness for C8 at the bytes "12" with start value 0. -/
theorem profile_07_refines_reference_witness :
    (∀ x ∈ [0x31, 0x32], x < 256) ∧
    calculate_profile_07 [0x31, 0x32] 0
      = crc_reference 64 0x42F0E1EBA9EA3693 true (0 ^^^ 0xFFFFFFFFFFFFFFFF)
          0xFFFFFFFFFFFFFFFF [0x31, 0x32] :=
  ⟨by decide, (profile_07_refines_reference [0x31, 0x32] 0 (by decide)).1⟩

/-- C9: on byte sequences whose length fits the `uint32_t` loop bound, `calculate_profile_05`
is the bit-serial reference CRC of width 16 with polynomial 0x1021, no reflection, register
initialised to `s` and no final xor; every table entry `i` is the image of `i << 8` under
eight MSB-first steps on a 16-bit register. -/
theorem profile_05_refines_reference (b : List Nat) (s : Nat)
    (hb : ∀ x ∈ b, x < 256) (hs : s < 2 ^ 16) (hlen : b.length < 2 ^ 32) :
    calculate_profile_05 b s = crc_reference 16 0x1021 false s 0 b ∧
    lookup_table_profile_05_.length = 256 ∧
    ∀ i < 256,
      lookup_table_profile_05_.getD i 0 = Nat.iterate (msb_step 16 0x1021) 8 (i <<< 8) := by
  refine ⟨?_, by decide, table_05_entries⟩
  rw [profile_05_fold b s hlen]
  unfold crc_reference
  have hf : reference_byte 16 0x1021 false
      = fun reg byte => Nat.iterate (msb_step 16 0x1021) 8 (reg ^^^ (byte <<< 8)) := by
    funext reg byte
    simp [reference_byte]
  rw [hf, Nat.xor_zero]
  exact (foldl_eq_of_invariant (fun c => c < 2 ^ 16) (fun x => x < 256) _ _
    profile_05_update_eq profile_05_update_lt b s hs hb).1

/-- Witness for C9 at the bytes "12" with start value 0xFFFF. -/
theorem profile_05_refines_reference_witness :
    (∀ x ∈ [0x31, 0x32], x < 256) ∧ 0xFFFF < 2 ^ 16 ∧ [0x31, 0x32].length < 2 ^ 32 ∧
    calculate_profile_05 [0x31, 0x32] 0xFFFF
      = crc_reference 16 0x1021 false 0xFFFF 0 [0x31, 0x32] :=
  ⟨by decide, by decide, by decide,
    (profile_05_refines_reference [0x31, 0x32] 0xFFFF
      (by decide) (by decide) (by decide)).1⟩

theorem profile_01_update_eq (crc byte : Nat) (hc : crc < 256) (hb : byte < 256) :
    (lookup_table_profile_01_.getD ((byte ^^^ crc) % 2 ^ 8) 0) % 2 ^ 8
      = Nat.iterate (msb_step 8 0x1D) 8 (crc ^^^ byte) := by
  have hx : byte ^^^ crc < 2 ^ 8 :=
    Nat.xor_lt_two_pow (n := 8) (by simpa using hb) (by simpa using hc)
  rw [Nat.mod_eq_of_lt hx, Nat.mod_eq_of_lt (table_01_bound _ (by simpa using hx)),
    table_01_entries _ (by simpa using hx), Nat.xor_comm]

/-- C10: on byte sequences, `calculate_profile_01` is the bit-serial reference CRC of width 8
with polynomial 0x1D, no reflection, register initialised to `s XOR 0xFF` and final xor 0xFF;
every table entry `i` is the image of `i` under eight MSB-first steps on an 8-bit register,
so the update `table[byte ^ crc]` with no shifted term is the exact update. -/
theorem profile_01_refines_reference (b : List Nat) (s : Nat)
    (hb : ∀ x ∈ b, x < 256) (hs : s < 2 ^ 8) :
    calculate_profile_01 b s = crc_reference 8 0x1D false (s ^^^ 0xFF) 0xFF b ∧
    lookup_table_profile_01_.length = 256 ∧
    ∀ i < 256, lookup_table_profile_01_.getD i 0 = Nat.iterate (msb_step 8 0x1D) 8 i := by
  refine ⟨?_, by decide, table_01_entries⟩
  have hs2 : s < 256 := by simpa using hs
  unfold calculate_profile_01 crc_reference
  have hf : reference_byte 8 0x1D false
      = fun reg byte => Nat.iterate (msb_step 8 0x1D) 8 (reg ^^^ byte) := by
    funext reg byte
    simp [reference_byte]
  have hfold := foldl_eq_of_invariant (fun c => c < 256) (fun x => x < 256)
    (fun crc byte => (lookup_table_profile_01_.getD ((byte ^^^ crc) % 2 ^ 8) 0) % 2 ^ 8)
    (fun reg byte => Nat.iterate (msb_step 8 0x1D) 8 (reg ^^^ byte))
    profile_01_update_eq (fun _ _ _ _ => Nat.mod_lt _ (by norm_num))
    b (s ^^^ 0xFF) (xor_ff_lt s hs2) hb
  simp only [xor_ff_mod s hs2]
  rw [xor_ff_mod _ hfold.2, hfold.1, hf]

/-- Witness for C10 at nine zero bytes with start value 0. -/
theorem profile_01_refines_reference_witness :
    (∀ x ∈ [0, 0, 0, 0, 0, 0, 0, 0, 0], x < 256) ∧ 0 < 2 ^ 8 ∧
    calculate_profile_01 [0, 0, 0, 0, 0, 0, 0, 0, 0] 0
      = crc_reference 8 0x1D false (0 ^^^ 0xFF) 0xFF [0, 0, 0, 0, 0, 0, 0, 0, 0] :=
  ⟨by decide, by decide,
    (profile_01_refines_reference [0, 0, 0, 0, 0, 0, 0, 0, 0] 0
      (by decide) (by decide)).1⟩

/-! ## Custom profile -/

theorem table_custom_entries : ∀ i < 256,
    lookup_table_profile_custom_.getD i 0 = Nat.iterate (lsb_step 0xEDB88320) 8 i := by
  decide

theorem reflect_poly_custom : reflect 32 0x04C11DB7 = 0xEDB88320 := by decide

/-- C11: on byte sequences, `calculate_profile_custom` is the bit-serial reference CRC of
width 32 with polynomial 0x04C11DB7, reflected input and output, initial register 0xFFFFFFFF
and final xor 0xFFFFFFFF; the bit-reversed polynomial is 0xEDB88320 and every table entry `i`
is the image of `i` under eight LSB-first steps with it. -/
theorem profile_custom_refines_reference (b : List Nat) (hb : ∀ x ∈ b, x < 256) :
    calculate_profile_custom b
        = crc_reference 32 0x04C11DB7 true 0xFFFFFFFF 0xFFFFFFFF b ∧
    reflect 32 0x04C11DB7 = 0xEDB88320 ∧
    lookup_table_profile_custom_.length = 256 ∧
    ∀ i < 256,
      lookup_table_profile_custom_.getD i 0 = Nat.iterate (lsb_step 0xEDB88320) 8 i := by
  refine ⟨?_, reflect_poly_custom, by decide, table_custom_entries⟩
  unfold calculate_profile_custom crc_reference
  simp only [reflected_fold 0xEDB88320 lookup_table_profile_custom_ table_custom_entries b hb]
  have hf : reference_byte 32 0x04C11DB7 true
      = fun reg byte => Nat.iterate (lsb_step 0xEDB88320) 8 (reg ^^^ byte) := by
    funext reg byte
    simp only [reference_byte, if_true, reflect_poly_custom]
  rw [hf]

/-- Witness for C11 at the ASCII bytes "123456789", whose CRC is 0xCBF43926. -/
theorem profile_custom_refines_reference_witness :
    (∀ x ∈ [0x31, 0x32, 0x33, 0x34, 0x35, 0x36, 0x37, 0x38, 0x39], x < 256) ∧
    calculate_profile_custom [0x31, 0x32, 0x33, 0x34, 0x35, 0x36, 0x37, 0x38, 0x39]
      = 0xCBF43926 ∧
    calculate_profile_custom [0x31, 0x32, 0x33, 0x34, 0x35, 0x36, 0x37, 0x38, 0x39]
      = crc_reference 32 0x04C11DB7 true 0xFFFFFFFF 0xFFFFFFFF
          [0x31, 0x32, 0x33, 0x34, 0x35, 0x36, 0x37, 0x38, 0x39] :=
  ⟨by decide, by decide,
    (profile_custom_refines_reference [0x31, 0x32, 0x33, 0x34, 0x35, 0x36, 0x37, 0x38, 0x39]
      (by decide)).1⟩

/-! ## Empty range -/

/-- C29: for every start value `s` of a `uint8_t`, `calculate_profile_01` on the empty byte
range returns `s`. -/
theorem profile_01_empty_range (s : Nat) (hs : s < 2 ^ 8) : calculate_profile_01 [] s = s := by
  have hs2 : s < 256 := by simpa using hs
  unfold calculate_profile_01
  simp only [List.foldl_nil]
  rw [xor_ff_mod s hs2, xor_ff_mod _ (xor_ff_lt s hs2), xor_xor_cancel]

/-- Witness for C29 at the start value 0x5A. -/
theorem profile_01_empty_range_witness : 0x5A < 2 ^ 8 ∧ calculate_profile_01 [] 0x5A = 0x5A :=
  ⟨by decide, profile_01_empty_range 0x5A (by decide)⟩

/-! ## Detection of a single corrupted byte -/

theorem table_04_bound : ∀ i < 256, lookup_table_profile_04_.getD i 0 < 2 ^ 32 := by
  decide

theorem table_07_bound : ∀ i < 256, lookup_table_profile_07_.getD i 0 < 2 ^ 64 := by
  decide

theorem table_04_top_byte : ∀ i < 256, lookup_table_profile_04_.getD i 0 < 2 ^ 24 → i = 0 := by
  decide

theorem table_07_top_byte : ∀ i < 256, lookup_table_profile_07_.getD i 0 < 2 ^ 56 → i = 0 := by
  decide

theorem table_05_low_byte :
    ∀ i < 256, lookup_table_profile_05_.getD i 0 % 2 ^ 8 = 0 → i = 0 := by
  decide

theorem table_01_zero : ∀ i < 256, lookup_table_profile_01_.getD i 0 = 0 → i = 0 := by
  decide

/-- A map that is linear over xor and has a trivial kernel on the `w`-bit values is injective
on them. -/
theorem linear_injective (F : Nat → Nat) (w : Nat)
    (hlin : ∀ a b, F (a ^^^ b) = F a ^^^ F b)
    (hker : ∀ z, z < 2 ^ w → F z = 0 → z = 0)
    (u v : Nat) (hu : u < 2 ^ w) (hv : v < 2 ^ w) (h : F u = F v) : u = v := by
  have h0 : F (u ^^^ v) = 0 := by rw [hlin, h, Nat.xor_self]
  exact Nat.xor_eq_zero.mp (hker _ (Nat.xor_lt_two_pow hu hv) h0)

theorem foldl_ne_of_ne (step : Nat → Nat → Nat) (P : Nat → Prop)
    (hP : ∀ c x, P c → x < 256 → P (step c x))
    (hc : ∀ c1 c2 x, P c1 → P c2 → x < 256 → step c1 x = step c2 x → c1 = c2) :
    ∀ (l : List Nat), (∀ x ∈ l, x < 256) → ∀ c1 c2, P c1 → P c2 → c1 ≠ c2 →
      l.foldl step c1 ≠ l.foldl step c2 := by
  intro l
  induction l with
  | nil => intro _ c1 c2 _ _ h; exact h
  | cons x xs ih =>
    intro hl c1 c2 h1 h2 hne
    have hx : x < 256 := hl x (List.mem_cons_self x xs)
    have hxs : ∀ y ∈ xs, y < 256 := fun y hy => hl y (List.mem_cons_of_mem x hy)
    simp only [List.foldl_cons]
    exact ih hxs _ _ (hP c1 x h1 hx) (hP c2 x h2 hx)
      (fun h => hne (hc c1 c2 x h1 h2 hx h))

theorem eq_of_getD_eq : ∀ (a b : List Nat), a.length = b.length →
    (∀ j, a.getD j 0 = b.getD j 0) → a = b := by
  intro a
  induction a with
  | nil =>
    intro b hlen _
    cases b with
    | nil => rfl
    | cons y ys => simp at hlen
  | cons x xs ih =>
    intro b hlen h
    cases b with
    | nil => simp at hlen
    | cons y ys =>
      have h0 : x = y := by simpa using h 0
      have ht : xs = ys := ih ys (by simpa using hlen) (fun j => by simpa using h (j + 1))
      rw [h0, ht]

/-- Two byte sequences of equal length that differ at position `i` and nowhere else take a
fold whose step is injective in the register and in the byte to different results. -/
theorem foldl_differs (step : Nat → Nat → Nat) (P : Nat → Prop)
    (hP : ∀ c x, P c → x < 256 → P (step c x))
    (hc : ∀ c1 c2 x, P c1 → P c2 → x < 256 → step c1 x = step c2 x → c1 = c2)
    (hb : ∀ c x y, P c → x < 256 → y < 256 → step c x = step c y → x = y) :
    ∀ (a b : List Nat) (i : Nat), (∀ x ∈ a, x < 256) → (∀ x ∈ b, x < 256) →
      a.length = b.length → i < a.length → a.getD i 0 ≠ b.getD i 0 →
      (∀ j, j ≠ i → a.getD j 0 = b.getD j 0) →
      ∀ c, P c → a.foldl step c ≠ b.foldl step c := by
  intro a
  induction a with
  | nil => intro b i _ _ _ hi; simp at hi
  | cons x xs ih =>
    intro b i ha hbb hlen hi hne heq c hPc
    cases b with
    | nil => simp at hlen
    | cons y ys =>
      have hx : x < 256 := ha x (List.mem_cons_self x xs)
      have hy : y < 256 := hbb y (List.mem_cons_self y ys)
      have hxs : ∀ z ∈ xs, z < 256 := fun z hz => ha z (List.mem_cons_of_mem x hz)
      have hys : ∀ z ∈ ys, z < 256 := fun z hz => hbb z (List.mem_cons_of_mem y hz)
      have hlen2 : xs.length = ys.length := by simpa using hlen
      simp only [List.foldl_cons]
      cases i with
      | zero =>
        have hxy : x ≠ y := by simpa using hne
        have ht : xs = ys :=
          eq_of_getD_eq xs ys hlen2 (fun j => by simpa using heq (j + 1) (by omega))
        rw [ht]
        exact foldl_ne_of_ne step P hP hc ys hys _ _ (hP c x hPc hx) (hP c y hPc hy)
          (fun h => hxy (hb c x y hPc hx hy h))
      | succ k =>
        have hxy : x = y := by simpa using heq 0 (by omega)
        rw [← hxy]
        exact ih ys k hxs hys hlen2 (by simpa using hi) (by simpa using hne)
          (fun j hj => by simpa using heq (j + 1) (by omega)) _ (hP c x hPc hx)

theorem lsb_iterate_zero (rp : Nat) (k : Nat) : Nat.iterate (lsb_step rp) k 0 = 0 := by
  induction k with
  | zero => rfl
  | succ k ih => rw [Function.iterate_succ_apply]; simpa [lsb_step] using ih

/-- Eight LSB-first steps send no non-zero `k + 8`-bit register to zero, when no table entry
but the first has its top byte clear. -/
theorem reflected_kernel (rp : Nat) (T : List Nat) (k : Nat)
    (hT : ∀ i < 256, T.getD i 0 = Nat.iterate (lsb_step rp) 8 i)
    (htop : ∀ i < 256, T.getD i 0 < 2 ^ k → i = 0)
    (z : Nat) (hz : z < 2 ^ (k + 8)) (h : Nat.iterate (lsb_step rp) 8 z = 0) : z = 0 := by
  have hm : z % 2 ^ 8 < 256 := Nat.mod_lt _ (by norm_num)
  rw [lsb_iterate_split, ← hT _ hm] at h
  have h1 : T.getD (z % 2 ^ 8) 0 = z >>> 8 := Nat.xor_eq_zero.mp h
  have h2 : z >>> 8 < 2 ^ k := by
    rw [Nat.shiftRight_eq_div_pow]
    apply Nat.div_lt_of_lt_mul
    rw [← Nat.pow_add, Nat.add_comm]
    exact hz
  have h3 : z % 2 ^ 8 = 0 := htop _ hm (h1 ▸ h2)
  rw [h3, hT 0 (by norm_num), lsb_iterate_zero, Nat.shiftRight_eq_div_pow] at h1
  have h4 : z / 2 ^ 8 = 0 := h1.symm
  have h5 := Nat.div_add_mod z (2 ^ 8)
  rw [h3, h4] at h5
  omega

theorem reflected_step_lt (T : List Nat) (w : Nat) (hTb : ∀ i < 256, T.getD i 0 < 2 ^ w)
    (c x : Nat) (hc : c < 2 ^ w) :
    T.getD ((x ^^^ c) % 2 ^ 8) 0 ^^^ (c >>> 8) < 2 ^ w := by
  have hm : (x ^^^ c) % 2 ^ 8 < 256 := Nat.mod_lt _ (by norm_num)
  have hs : c >>> 8 < 2 ^ w := by
    rw [Nat.shiftRight_eq_div_pow]
    exact Nat.lt_of_le_of_lt (Nat.div_le_self _ _) hc
  exact Nat.xor_lt_two_pow (hTb _ hm) hs

theorem byte_lt_two_pow (k x : Nat) (hx : x < 256) : x < 2 ^ (k + 8) := by
  have h : 2 ^ 8 ≤ 2 ^ (k + 8) := Nat.pow_le_pow_right (by norm_num) (by omega)
  omega

/-- The fold of a reflected table-driven update separates two byte sequences of equal length
that differ in exactly one position. -/
theorem reflected_differs (rp : Nat) (T : List Nat) (k : Nat)
    (hT : ∀ i < 256, T.getD i 0 = Nat.iterate (lsb_step rp) 8 i)
    (hTb : ∀ i < 256, T.getD i 0 < 2 ^ (k + 8))
    (htop : ∀ i < 256, T.getD i 0 < 2 ^ k → i = 0)
    (a b : List Nat) (i : Nat) (ha : ∀ x ∈ a, x < 256) (hb : ∀ x ∈ b, x < 256)
    (hlen : a.length = b.length) (hi : i < a.length) (hne : a.getD i 0 ≠ b.getD i 0)
    (heq : ∀ j, j ≠ i → a.getD j 0 = b.getD j 0) (c : Nat) (hc : c < 2 ^ (k + 8)) :
    a.foldl (fun crc byte => T.getD ((byte ^^^ crc) % 2 ^ 8) 0 ^^^ (crc >>> 8)) c
      ≠ b.foldl (fun crc byte => T.getD ((byte ^^^ crc) % 2 ^ 8) 0 ^^^ (crc >>> 8)) c := by
  have hinj := linear_injective (Nat.iterate (lsb_step rp) 8) (k + 8)
    (lsb_iterate_xor rp 8) (reflected_kernel rp T k hT htop)
  refine foldl_differs _ (fun c => c < 2 ^ (k + 8))
    (fun c x hc _ => reflected_step_lt T (k + 8) hTb c x hc) ?_ ?_
    a b i ha hb hlen hi hne heq c hc
  · intro c1 c2 x h1 h2 hx h
    simp only [reflected_update rp T hT _ x hx] at h
    have hx2 := byte_lt_two_pow k x hx
    exact Nat.xor_left_inj.mp
      (hinj _ _ (Nat.xor_lt_two_pow h1 hx2) (Nat.xor_lt_two_pow h2 hx2) h)
  · intro c x y hc hx hy h
    simp only [reflected_update rp T hT _ x hx, reflected_update rp T hT _ y hy] at h
    exact Nat.xor_right_inj.mp
      (hinj _ _ (Nat.xor_lt_two_pow hc (byte_lt_two_pow k x hx))
        (Nat.xor_lt_two_pow hc (byte_lt_two_pow k y hy)) h)

theorem msb_16_kernel (z : Nat) (hz : z < 2 ^ 16)
    (h : Nat.iterate (msb_step 16 0x1021) 8 z = 0) : z = 0 := by
  have hu := profile_05_update_eq z 0 hz (by norm_num)
  rw [Nat.zero_shiftLeft, Nat.xor_zero, h] at hu
  unfold profile_05_update at hu
  rw [Nat.xor_zero] at hu
  have hm : (z >>> 8) % 2 ^ 8 < 256 := Nat.mod_lt _ (by norm_num)
  have h1 : lookup_table_profile_05_.getD ((z >>> 8) % 2 ^ 8) 0 = (z <<< 8) % 2 ^ 16 :=
    Nat.xor_eq_zero.mp hu
  have h2 : lookup_table_profile_05_.getD ((z >>> 8) % 2 ^ 8) 0 % 2 ^ 8 = 0 := by
    rw [h1, Nat.shiftLeft_eq]; omega
  have h3 := table_05_low_byte _ hm h2
  rw [h3] at h1
  have h4 : lookup_table_profile_05_.getD 0 0 = 0 := by decide
  rw [h4, Nat.shiftLeft_eq] at h1
  rw [Nat.shiftRight_eq_div_pow] at h3
  omega

theorem profile_05_differs (a b : List Nat) (i : Nat)
    (ha : ∀ x ∈ a, x < 256) (hb : ∀ x ∈ b, x < 256)
    (hlen : a.length = b.length) (hi : i < a.length) (hne : a.getD i 0 ≠ b.getD i 0)
    (heq : ∀ j, j ≠ i → a.getD j 0 = b.getD j 0) (c : Nat) (hc : c < 2 ^ 16) :
    a.foldl profile_05_update c ≠ b.foldl profile_05_update c := by
  have hinj := linear_injective (Nat.iterate (msb_step 16 0x1021) 8) 16
    (msb_iterate_xor 16 0x1021 8) msb_16_kernel
  have hsh : ∀ x, x < 256 → x <<< 8 < 2 ^ 16 := by
    intro x hx; rw [Nat.shiftLeft_eq]; omega
  refine foldl_differs _ (fun c => c < 2 ^ 16)
    (fun c x hc hx => profile_05_update_lt c x hc hx) ?_ ?_
    a b i ha hb hlen hi hne heq c hc
  · intro c1 c2 x h1 h2 hx h
    rw [profile_05_update_eq c1 x h1 hx, profile_05_update_eq c2 x h2 hx] at h
    exact Nat.xor_left_inj.mp
      (hinj _ _ (Nat.xor_lt_two_pow h1 (hsh x hx)) (Nat.xor_lt_two_pow h2 (hsh x hx)) h)
  · intro c x y hc hx hy h
    rw [profile_05_update_eq c x hc hx, profile_05_update_eq c y hc hy] at h
    have h1 : x <<< 8 = y <<< 8 := Nat.xor_right_inj.mp
      (hinj _ _ (Nat.xor_lt_two_pow hc (hsh x hx)) (Nat.xor_lt_two_pow hc (hsh y hy)) h)
    rw [Nat.shiftLeft_eq, Nat.shiftLeft_eq] at h1
    omega

theorem msb_8_kernel (z : Nat) (hz : z < 2 ^ 8)
    (h : Nat.iterate (msb_step 8 0x1D) 8 z = 0) : z = 0 := by
  have hz2 : z < 256 := by simpa using hz
  rw [← table_01_entries z hz2] at h
  exact table_01_zero z hz2 h

theorem profile_01_differs (a b : List Nat) (i : Nat)
    (ha : ∀ x ∈ a, x < 256) (hb : ∀ x ∈ b, x < 256)
    (hlen : a.length = b.length) (hi : i < a.length) (hne : a.getD i 0 ≠ b.getD i 0)
    (heq : ∀ j, j ≠ i → a.getD j 0 = b.getD j 0) (c : Nat) (hc : c < 256) :
    a.foldl (fun crc byte =>
        (lookup_table_profile_01_.getD ((byte ^^^ crc) % 2 ^ 8) 0) % 2 ^ 8) c
      ≠ b.foldl (fun crc byte =>
        (lookup_table_profile_01_.getD ((byte ^^^ crc) % 2 ^ 8) 0) % 2 ^ 8) c := by
  have hinj := linear_injective (Nat.iterate (msb_step 8 0x1D) 8) 8
    (msb_iterate_xor 8 0x1D 8) msb_8_kernel
  have hlt : ∀ x y, x < 256 → y < 256 → x ^^^ y < 2 ^ 8 := fun x y hx hy =>
    Nat.xor_lt_two_pow (n := 8) (by simpa using hx) (by simpa using hy)
  refine foldl_differs _ (fun c => c < 256)
    (fun _ _ _ _ => Nat.mod_lt _ (by norm_num)) ?_ ?_
    a b i ha hb hlen hi hne heq c hc
  · intro c1 c2 x h1 h2 hx h
    have h3 : (lookup_table_profile_01_.getD ((x ^^^ c1) % 2 ^ 8) 0) % 2 ^ 8
        = (lookup_table_profile_01_.getD ((x ^^^ c2) % 2 ^ 8) 0) % 2 ^ 8 := h
    rw [profile_01_update_eq c1 x h1 hx, profile_01_update_eq c2 x h2 hx] at h3
    exact Nat.xor_left_inj.mp (hinj _ _ (hlt _ _ h1 hx) (hlt _ _ h2 hx) h3)
  · intro c x y hc hx hy h
    have h3 : (lookup_table_profile_01_.getD ((x ^^^ c) % 2 ^ 8) 0) % 2 ^ 8
        = (lookup_table_profile_01_.getD ((y ^^^ c) % 2 ^ 8) 0) % 2 ^ 8 := h
    rw [profile_01_update_eq c x hc hx, profile_01_update_eq c y hc hy] at h3
    exact Nat.xor_right_inj.mp (hinj _ _ (hlt _ _ hc hx) (hlt _ _ hc hy) h3)

theorem xor_ne_of_ne (m : Nat) {u v : Nat} (h : u ≠ v) : u ^^^ m ≠ v ^^^ m :=
  fun he => h (Nat.xor_left_inj.mp he)

/-- C33: single-byte corruption is always detected.  For two byte sequences of equal length
(shorter than 2^32 bytes, the range of the `uint32_t` length of profile 05) that differ at
position `i` and nowhere else, and for every start value in the range of the respective
parameter type, each of `calculate_profile_01`, `calculate_profile_04`,
`calculate_profile_05` and `calculate_profile_07` returns different results on the two. -/
theorem single_byte_corruption_detected (a b : List Nat) (i : Nat)
    (ha : ∀ x ∈ a, x < 256) (hb : ∀ x ∈ b, x < 256)
    (hlen : a.length = b.length) (hlen32 : a.length < 2 ^ 32) (hi : i < a.length)
    (hne : a.getD i 0 ≠ b.getD i 0) (heq : ∀ j, j ≠ i → a.getD j 0 = b.getD j 0) :
    (∀ s, calculate_profile_01 a s ≠ calculate_profile_01 b s) ∧
    (∀ s, s < 2 ^ 32 → calculate_profile_04 a s ≠ calculate_profile_04 b s) ∧
    (∀ s, s < 2 ^ 16 → calculate_profile_05 a s ≠ calculate_profile_05 b s) ∧
    (∀ s, s < 2 ^ 64 → calculate_profile_07 a s ≠ calculate_profile_07 b s) := by
  refine ⟨fun s => ?_, fun s hs => ?_, fun s hs => ?_, fun s hs => ?_⟩
  · have h0 : (s ^^^ 0xFF) % 2 ^ 8 < 256 := Nat.mod_lt _ (by norm_num)
    have hd := profile_01_differs a b i ha hb hlen hi hne heq _ h0
    unfold calculate_profile_01
    simp only
    rw [xor_ff_mod _ (profile_01_fold_lt a _ h0), xor_ff_mod _ (profile_01_fold_lt b _ h0)]
    exact xor_ne_of_ne 0xFF hd
  · unfold calculate_profile_04
    exact xor_ne_of_ne 0xFFFFFFFF
      (reflected_differs 0xC8DF352F lookup_table_profile_04_ 24 table_04_entries
        table_04_bound table_04_top_byte a b i ha hb hlen hi hne heq _
        (Nat.xor_lt_two_pow (n := 32) hs (by norm_num)))
  · rw [profile_05_fold a s hlen32, profile_05_fold b s (hlen ▸ hlen32)]
    exact profile_05_differs a b i ha hb hlen hi hne heq s hs
  · unfold calculate_profile_07
    exact xor_ne_of_ne 0xFFFFFFFFFFFFFFFF
      (reflected_differs 0xC96C5795D7870F42 lookup_table_profile_07_ 56 table_07_entries
        table_07_bound table_07_top_byte a b i ha hb hlen hi hne heq _
        (Nat.xor_lt_two_pow (n := 64) hs (by norm_num)))

/-- Witness for C33: the bytes "12" against "13", which differ at position 1. -/
theorem single_byte_corruption_detected_witness :
    (∀ x ∈ [0x31, 0x32], x < 256) ∧ (∀ x ∈ [0x31, 0x33], x < 256) ∧
    [0x31, 0x32].length = [0x31, 0x33].length ∧ [0x31, 0x32].length < 2 ^ 32 ∧
    1 < [0x31, 0x32].length ∧ [0x31, 0x32].getD 1 0 ≠ [0x31, 0x33].getD 1 0 ∧
    (∀ j, j ≠ 1 → [0x31, 0x32].getD j 0 = [0x31, 0x33].getD j 0) ∧
    calculate_profile_01 [0x31, 0x32] 0 ≠ calculate_profile_01 [0x31, 0x33] 0 ∧
    calculate_profile_04 [0x31, 0x32] 0 ≠ calculate_profile_04 [0x31, 0x33] 0 ∧
    calculate_profile_05 [0x31, 0x32] 0xFFFF ≠ calculate_profile_05 [0x31, 0x33] 0xFFFF ∧
    calculate_profile_07 [0x31, 0x32] 0 ≠ calculate_profile_07 [0x31, 0x33] 0 :=
  have hj : ∀ j, j ≠ 1 → [0x31, 0x32].getD j 0 = [0x31, 0x33].getD j 0 := by
    intro j hj
    match j, hj with
    | 0, _ => rfl
    | 1, h => exact absurd rfl h
    | _ + 2, _ => rfl
  have h := single_byte_corruption_detected [0x31, 0x32] [0x31, 0x33] 1
    (by decide) (by decide) (by decide) (by decide) (by decide) (by decide) hj
  ⟨by decide, by decide, by decide, by decide, by decide, by decide, hj,
    h.1 0, h.2.1 0 (by decide), h.2.2.1 0xFFFF (by decide),
    h.2.2.2 0 (by decide)⟩

end e2e_crc

/-! # Proofs: subscribe command codec -/

namespace protocol

/-! ## Facts about buffers -/

@[simp] theorem to_le_length (n v : Nat) : (to_le n v).length = n := by
  induction n generalizing v with
  | zero => rfl
  | succ n ih => simp [to_le, ih]

theorem of_le_to_le (n v : Nat) (h : v < 256 ^ n) : of_le (to_le n v) = v := by
  induction n generalizing v with
  | zero => simp at h; simp [to_le, of_le, h]
  | succ n ih =>
    have h2 : v / 256 < 256 ^ n := by
      rw [Nat.div_lt_iff_lt_mul (by norm_num)]; rw [pow_succ] at h; exact h
    simp only [to_le, of_le, ih _ h2]
    omega

theorem write_bytes_length {buf bs r : List Nat} {off : Nat}
    (h : write_bytes buf off bs = some r) :
    off + bs.length ≤ buf.length ∧ r.length = buf.length := by
  unfold write_bytes at h
  split at h
  · rename_i hle
    simp only [Option.some.injEq] at h
    subst h
    refine ⟨hle, ?_⟩
    simp only [List.length_append, List.length_take, List.length_drop]
    omega
  · simp at h

theorem write_bytes_append (A B bs : List Nat) (off : Nat) (hA : A.length = off)
    (hB : bs.length ≤ B.length) :
    write_bytes (A ++ B) off bs = some ((A ++ bs) ++ B.drop bs.length) := by
  subst hA
  unfold write_bytes
  rw [if_pos (by simp only [List.length_append]; omega)]
  simp [List.take_left', List.drop_append]

theorem read_bytes_append_skip (A L : List Nat) (off n : Nat) (h : A.length ≤ off) :
    read_bytes (A ++ L) off n = read_bytes L (off - A.length) n := by
  unfold read_bytes
  have h1 : (off + n ≤ (A ++ L).length) ↔ (off - A.length + n ≤ L.length) := by
    simp only [List.length_append]; omega
  have h2 : List.drop off (A ++ L) = List.drop (off - A.length) L := by
    rw [List.drop_append_eq_append_drop, List.drop_of_length_le h, List.nil_append]
  simp only [h1, h2]

theorem read_bytes_append_zero (bs C : List Nat) (n : Nat) (h : bs.length = n) :
    read_bytes (bs ++ C) 0 n = some bs := by
  subst h
  unfold read_bytes
  simp

theorem take_drop_append_skip (A L : List Nat) (off n : Nat) (h : A.length ≤ off) :
    ((A ++ L).drop off).take n = ((L.drop (off - A.length)).take n) := by
  rw [List.drop_append_eq_append_drop, List.drop_of_length_le h, List.nil_append]

theorem serialize_closed_form (header : command → List Nat → List Nat × error_e)
    (x : subscribe_command_base) (buf buf0 : List Nat)
    (hh : header x.base buf = (buf0, error_e.ERROR_OK)) (hlen : 19 ≤ buf0.length) :
    subscribe_command_base.serialize header x buf
      = some (buf0.take 8 ++ subscribe_payload x ++ buf0.drop 19, error_e.ERROR_OK) := by
  have e : buf0.take 8 ++ buf0.drop 8 = buf0 := List.take_append_drop 8 buf0
  have hH : (buf0.take 8).length = 8 := by simp; omega
  have hB : (buf0.drop 8).length = buf0.length - 8 := by simp
  have hd : buf0.drop 19 = (buf0.drop 8).drop 11 := by simp
  rw [hd]
  generalize buf0.take 8 = H at e hH
  generalize buf0.drop 8 = B at e hB
  unfold subscribe_command_base.serialize
  simp only [hh, ne_eq, not_true_eq_false, if_false]
  subst e
  simp only [COMMAND_POSITION_PAYLOAD, sizeof_service, sizeof_instance, sizeof_eventgroup,
    sizeof_major, sizeof_event, sizeof_pending_id, subscribe_payload]
  rw [write_bytes_append H B _ 8 hH (by simp; omega)]
  simp only [Option.bind_eq_bind, Option.some_bind, to_le_length]
  rw [write_bytes_append _ _ _ (8 + 2) (by simp; omega) (by simp; omega)]
  simp only [Option.bind_eq_bind, Option.some_bind, to_le_length]
  rw [write_bytes_append _ _ _ (8 + 2 + 2) (by simp; omega) (by simp; omega)]
  simp only [Option.bind_eq_bind, Option.some_bind, to_le_length]
  rw [write_bytes_append _ _ _ (8 + 2 + 2 + 2) (by simp; omega) (by simp; omega)]
  simp only [Option.bind_eq_bind, Option.some_bind, to_le_length]
  rw [write_bytes_append _ _ _ (8 + 2 + 2 + 2 + 1) (by simp; omega) (by simp; omega)]
  simp only [Option.bind_eq_bind, Option.some_bind, to_le_length]
  rw [write_bytes_append _ _ _ (8 + 2 + 2 + 2 + 1 + 2) (by simp; omega) (by simp; omega)]
  simp only [Option.bind_eq_bind, Option.some_bind, to_le_length, List.drop_drop,
    List.append_assoc]

theorem serialize_success_length (header : command → List Nat → List Nat × error_e)
    (x : subscribe_command_base) (buf buf0 out : List Nat) (e : error_e)
    (hh : header x.base buf = (buf0, error_e.ERROR_OK))
    (hs : subscribe_command_base.serialize header x buf = some (out, e)) :
    19 ≤ buf0.length := by
  unfold subscribe_command_base.serialize at hs
  simp only [hh, ne_eq, not_true_eq_false, if_false, Option.bind_eq_bind,
    COMMAND_POSITION_PAYLOAD, sizeof_service, sizeof_instance, sizeof_eventgroup,
    sizeof_major, sizeof_event, sizeof_pending_id] at hs
  obtain ⟨r1, h1, hs⟩ := Option.bind_eq_some.mp hs
  obtain ⟨r2, h2, hs⟩ := Option.bind_eq_some.mp hs
  obtain ⟨r3, h3, hs⟩ := Option.bind_eq_some.mp hs
  obtain ⟨r4, h4, hs⟩ := Option.bind_eq_some.mp hs
  obtain ⟨r5, h5, hs⟩ := Option.bind_eq_some.mp hs
  obtain ⟨r6, h6, hs⟩ := Option.bind_eq_some.mp hs
  have l1 := (write_bytes_length h1).2
  have l2 := (write_bytes_length h2).2
  have l3 := (write_bytes_length h3).2
  have l4 := (write_bytes_length h4).2
  have l5 := (write_bytes_length h5).2
  have l6 := (write_bytes_length h6).1
  simp only [to_le_length] at l6
  omega

/-- The header step of the specification sizes the buffer to `8 + size` bytes. -/
theorem command_serialize_length (c : command) (buf : List Nat) :
    (command.serialize c buf).1.length = 8 + c.size_ ∧
    (command.serialize c buf).2 = error_e.ERROR_OK := by
  simp only [command.serialize, resize, COMMAND_HEADER_SIZE, List.length_append, to_le_length,
    List.length_drop, List.length_take, List.length_replicate, and_true]
  omega

theorem command_serialize_take (c : command) (buf : List Nat) :
    (command.serialize c buf).1.take 8
      = to_le 1 c.id_ ++ to_le 1 c.version_ ++ to_le 2 c.client_ ++ to_le 4 c.size_ := by
  simp only [command.serialize]
  rw [List.take_left']
  simp

theorem take_drop_append_zero (bs C : List Nat) (n : Nat) (h : bs.length = n) :
    ((bs ++ C).drop 0).take n = bs := by
  subst h; simp

theorem of_le_to_le_1 (v : Nat) (h : v < 2 ^ 8) : of_le (to_le 1 v) = v :=
  of_le_to_le 1 v (by simpa using h)

theorem of_le_to_le_2 (v : Nat) (h : v < 2 ^ 16) : of_le (to_le 2 v) = v :=
  of_le_to_le 2 v (by norm_num at h ⊢; exact h)

theorem of_le_to_le_4 (v : Nat) (h : v < 2 ^ 32) : of_le (to_le 4 v) = v :=
  of_le_to_le 4 v (by norm_num at h ⊢; exact h)

/-- Deserializing the closed form of a serialized command gives the command back. -/
theorem deserialize_closed_form (known : Nat → Bool) (x fresh : subscribe_command_base)
    (rest : List Nat) (hwf : x.wf) (hid : known x.base.id_ = true)
    (hrest : 11 + rest.length = x.base.size_) :
    subscribe_command_base.deserialize (command.deserialize known) fresh
        ((to_le 1 x.base.id_ ++ to_le 1 x.base.version_ ++ to_le 2 x.base.client_
            ++ to_le 4 x.base.size_) ++ subscribe_payload x ++ rest)
      = some (x, error_e.ERROR_OK) := by
  obtain ⟨⟨h1, h2, h3, h4⟩, h5, h6, h7, h8, h9, h10⟩ := hwf
  have hlen : ((to_le 1 x.base.id_ ++ to_le 1 x.base.version_ ++ to_le 2 x.base.client_
      ++ to_le 4 x.base.size_) ++ subscribe_payload x ++ rest).length = 8 + x.base.size_ := by
    simp only [subscribe_payload, List.length_append, to_le_length, sizeof_service,
      sizeof_instance, sizeof_eventgroup, sizeof_major, sizeof_event, sizeof_pending_id]
    omega
  unfold subscribe_command_base.deserialize command.deserialize
  simp only [hlen, COMMAND_HEADER_SIZE]
  simp only [subscribe_payload, sizeof_service, sizeof_instance, sizeof_eventgroup,
    sizeof_major, sizeof_event, sizeof_pending_id, COMMAND_POSITION_PAYLOAD,
    List.append_assoc]
  simp only [take_drop_append_skip, take_drop_append_zero, read_bytes_append_skip,
    read_bytes_append_zero, to_le_length, Nat.le_refl, Nat.sub_self, Nat.reduceLeDiff,
    Nat.reduceSub, Nat.reduceAdd, of_le_to_le_1 _ h1, of_le_to_le_1 _ h2, of_le_to_le_2 _ h3,
    of_le_to_le_4 _ h4, of_le_to_le_2 _ h5, of_le_to_le_2 _ h6, of_le_to_le_2 _ h7,
    of_le_to_le_1 _ h8, of_le_to_le_2 _ h9, of_le_to_le_2 _ h10, hid]
  simp only [Option.bind_eq_bind, Option.some_bind, Nat.add_sub_cancel_left, Nat.lt_irrefl,
    Nat.not_lt_zero, Bool.true_eq_false, if_false, ne_eq, not_true_eq_false,
    Nat.not_succ_le_self]
  rw [if_neg (show ¬ (8 + x.base.size_ < 8) by omega)]
  simp only [not_true_eq_false, if_false]
  rw [of_le_to_le_2 _ h5, of_le_to_le_2 _ h6, of_le_to_le_2 _ h7, of_le_to_le_1 _ h8,
    of_le_to_le_2 _ h9, of_le_to_le_2 _ h10]

/-! ## Round trip -/

/-- C1: round trip of the subscribe-family codec.  For every command `x` with members in the
range of their types (the all-ones sentinels included) and a known id, whenever
`subscribe_command_base::serialize` completes with `ERROR_OK` and leaves the buffer `out`,
`subscribe_command_base::deserialize` of `out` into any command object completes with
`ERROR_OK` and yields `x` itself: `service`, `instance`, `eventgroup`, `major`, `event` and
`pending_id` (and the header members) have the values they had in `x`. -/
theorem subscribe_roundtrip (known : Nat → Bool) (x fresh : subscribe_command_base)
    (buf out : List Nat) (hwf : x.wf) (hid : known x.base.id_ = true)
    (hser : subscribe_command_base.serialize command.serialize x buf
      = some (out, error_e.ERROR_OK)) :
    subscribe_command_base.deserialize (command.deserialize known) fresh out
      = some (x, error_e.ERROR_OK) := by
  have hh : command.serialize x.base buf
      = ((command.serialize x.base buf).1, error_e.ERROR_OK) :=
    Prod.ext rfl (command_serialize_length x.base buf).2
  have hlen := serialize_success_length command.serialize x buf _ out _ hh hser
  have hcf := serialize_closed_form command.serialize x buf _ hh hlen
  rw [hser, command_serialize_take] at hcf
  have hout := (Prod.mk.inj (Option.some.inj hcf)).1
  have hsz := (command_serialize_length x.base buf).1
  rw [hout]
  exact deserialize_closed_form known x fresh _ hwf hid (by simp only [List.length_drop]; omega)

/-- Witness for C1: the command carrying the sentinels `ANY_SERVICE`, `ANY_INSTANCE`,
`ANY_MAJOR`, `ANY_EVENT`, serialized into an empty buffer. -/
theorem subscribe_roundtrip_witness :
    subscribe_command_base.wf
      { base := { id_ := 1, version_ := 0, client_ := 0x1234, size_ := 11 }
        service_ := ANY_SERVICE, instance_ := ANY_INSTANCE, eventgroup_ := 0x0ABC
        major_ := ANY_MAJOR, event_ := ANY_EVENT, pending_id_ := 0x0042 } ∧
    subscribe_command_base.serialize command.serialize
      { base := { id_ := 1, version_ := 0, client_ := 0x1234, size_ := 11 }
        service_ := ANY_SERVICE, instance_ := ANY_INSTANCE, eventgroup_ := 0x0ABC
        major_ := ANY_MAJOR, event_ := ANY_EVENT, pending_id_ := 0x0042 } []
      = some ([1, 0, 0x34, 0x12, 11, 0, 0, 0, 0xFF, 0xFF, 0xFF, 0xFF, 0xBC, 0x0A, 0xFF, 0xFF,
          0xFF, 0x42, 0x00], error_e.ERROR_OK) ∧
    subscribe_command_base.deserialize (command.deserialize (fun _ => true))
      { base := { id_ := 1, version_ := 0, client_ := 0, size_ := 0 }
        service_ := 0, instance_ := 0, eventgroup_ := 0, major_ := 0, event_ := 0
        pending_id_ := 0 }
      [1, 0, 0x34, 0x12, 11, 0, 0, 0, 0xFF, 0xFF, 0xFF, 0xFF, 0xBC, 0x0A, 0xFF, 0xFF,
          0xFF, 0x42, 0x00]
      = some ({ base := { id_ := 1, version_ := 0, client_ := 0x1234, size_ := 11 }
                service_ := ANY_SERVICE, instance_ := ANY_INSTANCE, eventgroup_ := 0x0ABC
                major_ := ANY_MAJOR, event_ := ANY_EVENT, pending_id_ := 0x0042 },
              error_e.ERROR_OK) :=
  ⟨by decide, by decide,
    subscribe_roundtrip (fun _ => true) _ _ [] _ (by decide) rfl (by decide)⟩

/-! ## Layout of the payload -/

theorem subscribe_payload_length (x : subscribe_command_base) :
    (subscribe_payload x).length = 11 := by
  simp [subscribe_payload, sizeof_service, sizeof_instance, sizeof_eventgroup, sizeof_major,
    sizeof_event, sizeof_pending_id]

/-- A successful `serialize` had a successful header step that left at least 19 bytes, and
its result is that buffer with the bytes 8..18 replaced by the payload. -/
theorem serialize_ok_out (header : command → List Nat → List Nat × error_e)
    (x : subscribe_command_base) (buf out : List Nat)
    (hser : subscribe_command_base.serialize header x buf = some (out, error_e.ERROR_OK)) :
    header x.base buf = ((header x.base buf).1, error_e.ERROR_OK) ∧
    19 ≤ (header x.base buf).1.length ∧
    out = (header x.base buf).1.take 8 ++ subscribe_payload x
      ++ (header x.base buf).1.drop 19 := by
  have hok : (header x.base buf).2 = error_e.ERROR_OK := by
    by_contra hne
    unfold subscribe_command_base.serialize at hser
    simp only [ne_eq, hne, not_false_eq_true, if_true, Option.some.injEq, Prod.mk.injEq]
      at hser
    exact hser.2
  have hh : header x.base buf = ((header x.base buf).1, error_e.ERROR_OK) := Prod.ext rfl hok
  have hlen := serialize_success_length header x buf _ out _ hh hser
  have hcf := serialize_closed_form header x buf _ hh hlen
  rw [hser] at hcf
  exact ⟨hh, hlen, (Prod.mk.inj (Option.some.inj hcf)).1⟩

/-- Reading the six members back from a buffer that carries the payload after eight header
bytes, whatever the header step is, as long as it reports `ERROR_OK`. -/
theorem deserialize_payload (header : command → List Nat → command × error_e)
    (x fresh : subscribe_command_base) (H R : List Nat) (hH : H.length = 8) (hwf : x.wf)
    (hok : (header fresh.base (H ++ subscribe_payload x ++ R)).2 = error_e.ERROR_OK) :
    subscribe_command_base.deserialize header fresh (H ++ subscribe_payload x ++ R)
      = some ({ x with base := (header fresh.base (H ++ subscribe_payload x ++ R)).1 },
          error_e.ERROR_OK) := by
  obtain ⟨-, h5, h6, h7, h8, h9, h10⟩ := hwf
  unfold subscribe_command_base.deserialize
  generalize header fresh.base (H ++ subscribe_payload x ++ R) = r at hok
  obtain ⟨b, e⟩ := r
  simp only at hok
  subst hok
  simp only [ne_eq, not_true_eq_false, if_false]
  simp only [subscribe_payload, sizeof_service, sizeof_instance, sizeof_eventgroup,
    sizeof_major, sizeof_event, sizeof_pending_id, COMMAND_POSITION_PAYLOAD,
    List.append_assoc]
  simp only [read_bytes_append_skip, read_bytes_append_zero, to_le_length, hH, Nat.le_refl,
    Nat.sub_self, Nat.reduceLeDiff, Nat.reduceSub, Nat.reduceAdd, Option.bind_eq_bind,
    Option.some_bind, of_le_to_le_2 _ h5, of_le_to_le_2 _ h6, of_le_to_le_2 _ h7,
    of_le_to_le_1 _ h8, of_le_to_le_2 _ h9, of_le_to_le_2 _ h10]

theorem serialize_by_member_width_eq (header : command → List Nat → List Nat × error_e)
    (x : subscribe_command_base) (buf : List Nat) :
    subscribe_command_base.serialize_by_member_width header x buf
      = subscribe_command_base.serialize header x buf := rfl

theorem read_payload_members (x : subscribe_command_base) (H R : List Nat)
    (hH : H.length = 8) :
    read_bytes (H ++ subscribe_payload x ++ R) (COMMAND_POSITION_PAYLOAD + 0) 2
      = some (to_le 2 x.service_) ∧
    read_bytes (H ++ subscribe_payload x ++ R) (COMMAND_POSITION_PAYLOAD + 2) 2
      = some (to_le 2 x.instance_) ∧
    read_bytes (H ++ subscribe_payload x ++ R) (COMMAND_POSITION_PAYLOAD + 4) 2
      = some (to_le 2 x.eventgroup_) ∧
    read_bytes (H ++ subscribe_payload x ++ R) (COMMAND_POSITION_PAYLOAD + 6) 1
      = some (to_le 1 x.major_) ∧
    read_bytes (H ++ subscribe_payload x ++ R) (COMMAND_POSITION_PAYLOAD + 7) 2
      = some (to_le 2 x.event_) ∧
    read_bytes (H ++ subscribe_payload x ++ R) (COMMAND_POSITION_PAYLOAD + 9) 2
      = some (to_le 2 x.pending_id_) := by
  simp only [subscribe_payload, sizeof_service, sizeof_instance, sizeof_eventgroup,
    sizeof_major, sizeof_event, sizeof_pending_id, COMMAND_POSITION_PAYLOAD,
    List.append_assoc]
  simp only [read_bytes_append_skip, read_bytes_append_zero, to_le_length, hH, Nat.le_refl,
    Nat.sub_self, Nat.reduceLeDiff, Nat.reduceSub, Nat.reduceAdd, and_self]

/-- C17: whenever `subscribe_command_base::serialize` completes with `ERROR_OK`, the buffer
holds, counted from the payload position, `service` at +0 (2 bytes), `instance` at +2
(2 bytes), `eventgroup` at +4 (2 bytes), `major` at +6 (1 byte), `event` at +7 (2 bytes) and
`pending_id` at +9 (2 bytes), each little-endian; advancing by `sizeof(instance_)` after
`eventgroup_` gives the same result as advancing by `sizeof(eventgroup_)`; and
`subscribe_command_base::deserialize` reads the six members at these offsets: whenever its
header step reports `ERROR_OK` it returns the six values that were written. -/
theorem subscribe_payload_offsets (header : command → List Nat → List Nat × error_e)
    (x : subscribe_command_base) (buf out : List Nat) (hwf : x.wf)
    (hser : subscribe_command_base.serialize header x buf = some (out, error_e.ERROR_OK)) :
    (read_bytes out (COMMAND_POSITION_PAYLOAD + 0) 2 = some (to_le 2 x.service_) ∧
     read_bytes out (COMMAND_POSITION_PAYLOAD + 2) 2 = some (to_le 2 x.instance_) ∧
     read_bytes out (COMMAND_POSITION_PAYLOAD + 4) 2 = some (to_le 2 x.eventgroup_) ∧
     read_bytes out (COMMAND_POSITION_PAYLOAD + 6) 1 = some (to_le 1 x.major_) ∧
     read_bytes out (COMMAND_POSITION_PAYLOAD + 7) 2 = some (to_le 2 x.event_) ∧
     read_bytes out (COMMAND_POSITION_PAYLOAD + 9) 2 = some (to_le 2 x.pending_id_)) ∧
    subscribe_command_base.serialize_by_member_width header x buf
      = subscribe_command_base.serialize header x buf ∧
    ∀ (header_in : command → List Nat → command × error_e) (fresh : subscribe_command_base),
      (header_in fresh.base out).2 = error_e.ERROR_OK →
      subscribe_command_base.deserialize header_in fresh out
        = some ({ x with base := (header_in fresh.base out).1 }, error_e.ERROR_OK) := by
  obtain ⟨-, hlen, hout⟩ := serialize_ok_out header x buf out hser
  have hH : ((header x.base buf).1.take 8).length = 8 := by
    rw [List.length_take]; omega
  refine ⟨?_, rfl, ?_⟩
  · rw [hout]
    exact read_payload_members x _ _ hH
  · intro header_in fresh hok
    rw [hout] at hok ⊢
    exact deserialize_payload header_in x fresh _ _ hH hwf hok

/-- Witness for C17: the command of the specification's round-trip scenario, serialized with
the header step of the specification into an empty buffer. -/
theorem subscribe_payload_offsets_witness :
    subscribe_command_base.wf
      { base := { id_ := 1, version_ := 0, client_ := 0, size_ := 11 }
        service_ := 0x1234, instance_ := 0x5678, eventgroup_ := 0x0ABC
        major_ := 1, event_ := 0x0DEF, pending_id_ := 0x0042 } ∧
    subscribe_command_base.serialize command.serialize
      { base := { id_ := 1, version_ := 0, client_ := 0, size_ := 11 }
        service_ := 0x1234, instance_ := 0x5678, eventgroup_ := 0x0ABC
        major_ := 1, event_ := 0x0DEF, pending_id_ := 0x0042 } []
      = some ([1, 0, 0, 0, 11, 0, 0, 0, 0x34, 0x12, 0x78, 0x56, 0xBC, 0x0A, 0x01, 0xEF, 0x0D,
          0x42, 0x00], error_e.ERROR_OK) ∧
    read_bytes [1, 0, 0, 0, 11, 0, 0, 0, 0x34, 0x12, 0x78, 0x56, 0xBC, 0x0A, 0x01, 0xEF, 0x0D,
        0x42, 0x00] (COMMAND_POSITION_PAYLOAD + 7) 2 = some (to_le 2 0x0DEF) :=
  ⟨by decide, by decide,
    (subscribe_payload_offsets command.serialize
      { base := { id_ := 1, version_ := 0, client_ := 0, size_ := 11 }
        service_ := 0x1234, instance_ := 0x5678, eventgroup_ := 0x0ABC
        major_ := 1, event_ := 0x0DEF, pending_id_ := 0x0042 } [] _
      (by decide) (by decide)).1.2.2.2.2.1⟩

theorem getElem_payload_bytes (x : subscribe_command_base) (H R : List Nat)
    (hH : H.length = 8) :
    (H ++ subscribe_payload x ++ R)[10]? = some (x.instance_ % 256) ∧
    (H ++ subscribe_payload x ++ R)[12]? = some (x.eventgroup_ % 256) := by
  have key : ∀ i, 8 ≤ i →
      (H ++ subscribe_payload x ++ R)[i]? = (subscribe_payload x ++ R)[i - 8]? := by
    intro i hi
    rw [List.append_assoc, List.getElem?_append_right (by omega), hH]
  rw [key 10 (by omega), key 12 (by omega)]
  simp [subscribe_payload, sizeof_service, sizeof_instance, sizeof_eventgroup, to_le]

/-- C18 (as stated, refuted): for the command of the specification's round-trip scenario the
serialized byte at offset 10 is 0x78, the low-order byte of `instance`; it is neither 0xBC nor
the low-order byte of `eventgroup`. -/
theorem subscribe_offset_10_refuted :
    subscribe_command_base.serialize command.serialize
      { base := { id_ := 1, version_ := 0, client_ := 0, size_ := 11 }
        service_ := 0x1234, instance_ := 0x5678, eventgroup_ := 0x0ABC
        major_ := 1, event_ := 0x0DEF, pending_id_ := 0x0042 } []
      = some ([1, 0, 0, 0, 11, 0, 0, 0, 0x34, 0x12, 0x78, 0x56, 0xBC, 0x0A, 0x01, 0xEF, 0x0D,
          0x42, 0x00], error_e.ERROR_OK) ∧
    [1, 0, 0, 0, 11, 0, 0, 0, 0x34, 0x12, 0x78, 0x56, 0xBC, 0x0A, 0x01, 0xEF, 0x0D, 0x42,
      0x00][10]? = some 0x78 ∧
    [1, 0, 0, 0, 11, 0, 0, 0, 0x34, 0x12, 0x78, 0x56, 0xBC, 0x0A, 0x01, 0xEF, 0x0D, 0x42,
      0x00][10]? ≠ some 0xBC ∧
    [1, 0, 0, 0, 11, 0, 0, 0, 0x34, 0x12, 0x78, 0x56, 0xBC, 0x0A, 0x01, 0xEF, 0x0D, 0x42,
      0x00][10]? ≠ some (0x0ABC % 256) := by
  decide

/-- C18 (amended): whenever `serialize` completes with `ERROR_OK`, the byte at offset 12 of
the buffer is the low-order byte of `eventgroup` and the byte at offset 10 is the low-order
byte of `instance`; for the command with service 0x1234, instance 0x5678, eventgroup 0x0ABC,
major 1, event 0x0DEF, pending_id 0x0042 the byte at offset 12 is 0xBC and `deserialize`,
whenever its header step reports `ERROR_OK`, returns every member equal. -/
theorem subscribe_eventgroup_offset (header : command → List Nat → List Nat × error_e)
    (x : subscribe_command_base) (buf out : List Nat) (hwf : x.wf)
    (hser : subscribe_command_base.serialize header x buf = some (out, error_e.ERROR_OK)) :
    out[12]? = some (x.eventgroup_ % 256) ∧
    out[10]? = some (x.instance_ % 256) ∧
    ((x.service_ = 0x1234 ∧ x.instance_ = 0x5678 ∧ x.eventgroup_ = 0x0ABC ∧ x.major_ = 1 ∧
        x.event_ = 0x0DEF ∧ x.pending_id_ = 0x0042) →
      out[12]? = some 0xBC ∧
      ∀ (header_in : command → List Nat → command × error_e)
        (fresh : subscribe_command_base),
        (header_in fresh.base out).2 = error_e.ERROR_OK →
        ∃ y, subscribe_command_base.deserialize header_in fresh out
            = some (y, error_e.ERROR_OK) ∧
          y.service_ = 0x1234 ∧ y.instance_ = 0x5678 ∧ y.eventgroup_ = 0x0ABC ∧
          y.major_ = 1 ∧ y.event_ = 0x0DEF ∧ y.pending_id_ = 0x0042) := by
  obtain ⟨-, hlen, hout⟩ := serialize_ok_out header x buf out hser
  have hH : ((header x.base buf).1.take 8).length = 8 := by
    rw [List.length_take]; omega
  have hb := getElem_payload_bytes x _ ((header x.base buf).1.drop 19) hH
  rw [← hout] at hb
  refine ⟨hb.2, hb.1, ?_⟩
  rintro ⟨h1, h2, h3, h4, h5, h6⟩
  refine ⟨by rw [hb.2, h3], ?_⟩
  intro header_in fresh hok
  refine ⟨{ x with base := (header_in fresh.base out).1 }, ?_, h1, h2, h3, h4, h5, h6⟩
  rw [hout] at hok ⊢
  exact deserialize_payload header_in x fresh _ _ hH hwf hok

/-- Witness for C18 (amended): the command of the scenario, serialized with the header step
of the specification into an empty buffer. -/
theorem subscribe_eventgroup_offset_witness :
    subscribe_command_base.wf
      { base := { id_ := 1, version_ := 0, client_ := 0, size_ := 11 }
        service_ := 0x1234, instance_ := 0x5678, eventgroup_ := 0x0ABC
        major_ := 1, event_ := 0x0DEF, pending_id_ := 0x0042 } ∧
    subscribe_command_base.serialize command.serialize
      { base := { id_ := 1, version_ := 0, client_ := 0, size_ := 11 }
        service_ := 0x1234, instance_ := 0x5678, eventgroup_ := 0x0ABC
        major_ := 1, event_ := 0x0DEF, pending_id_ := 0x0042 } []
      = some ([1, 0, 0, 0, 11, 0, 0, 0, 0x34, 0x12, 0x78, 0x56, 0xBC, 0x0A, 0x01, 0xEF, 0x0D,
          0x42, 0x00], error_e.ERROR_OK) ∧
    [1, 0, 0, 0, 11, 0, 0, 0, 0x34, 0x12, 0x78, 0x56, 0xBC, 0x0A, 0x01, 0xEF, 0x0D, 0x42,
      0x00][12]? = some (0x0ABC % 256) :=
  ⟨by decide, by decide,
    (subscribe_eventgroup_offset command.serialize
      { base := { id_ := 1, version_ := 0, client_ := 0, size_ := 11 }
        service_ := 0x1234, instance_ := 0x5678, eventgroup_ := 0x0ABC
        major_ := 1, event_ := 0x0DEF, pending_id_ := 0x0042 } [] _
      (by decide) (by decide)).1⟩

/-- C19 (as stated, refuted): the payload is 11 bytes, not 14.  With the header step of the
specification and a `size` of 14, the three bytes at payload offsets 11, 12 and 13 (buffer
offsets 19, 20, 21) still hold their old content 0xEE after `serialize`. -/
theorem subscribe_payload_14_refuted :
    (subscribe_payload
      { base := { id_ := 1, version_ := 0, client_ := 0, size_ := 14 }
        service_ := 0x1234, instance_ := 0x5678, eventgroup_ := 0x0ABC
        major_ := 1, event_ := 0x0DEF, pending_id_ := 0x0042 }).length ≠ 14 ∧
    subscribe_command_base.serialize command.serialize
      { base := { id_ := 1, version_ := 0, client_ := 0, size_ := 14 }
        service_ := 0x1234, instance_ := 0x5678, eventgroup_ := 0x0ABC
        major_ := 1, event_ := 0x0DEF, pending_id_ := 0x0042 } (List.replicate 22 0xEE)
      = some ([1, 0, 0, 0, 14, 0, 0, 0, 0x34, 0x12, 0x78, 0x56, 0xBC, 0x0A, 0x01, 0xEF, 0x0D,
          0x42, 0x00, 0xEE, 0xEE, 0xEE], error_e.ERROR_OK) := by
  decide

/-- C19 (amended): the payload that `subscribe_command_base::serialize` writes after the
header is exactly 11 bytes long (2 + 2 + 2 + 1 + 2 + 2): whenever it completes with
`ERROR_OK`, the result is the buffer the header step left, with the bytes at payload offsets
0 to 10 (buffer offsets 8 to 18) replaced by the six members and every other byte, before and
after, untouched; the last payload byte written is at payload offset 10. -/
theorem subscribe_payload_extent (header : command → List Nat → List Nat × error_e)
    (x : subscribe_command_base) (buf out : List Nat)
    (hser : subscribe_command_base.serialize header x buf = some (out, error_e.ERROR_OK)) :
    (subscribe_payload x).length = 11 ∧
    sizeof_service + sizeof_instance + sizeof_eventgroup + sizeof_major + sizeof_event
      + sizeof_pending_id = 11 ∧
    out.length = (header x.base buf).1.length ∧
    out.take COMMAND_POSITION_PAYLOAD = (header x.base buf).1.take COMMAND_POSITION_PAYLOAD ∧
    (out.drop COMMAND_POSITION_PAYLOAD).take 11 = subscribe_payload x ∧
    out.drop (COMMAND_POSITION_PAYLOAD + 11)
      = (header x.base buf).1.drop (COMMAND_POSITION_PAYLOAD + 11) := by
  obtain ⟨-, hlen, hout⟩ := serialize_ok_out header x buf out hser
  have hH : ((header x.base buf).1.take 8).length = 8 := by
    rw [List.length_take]; omega
  have hP := subscribe_payload_length x
  refine ⟨hP, by decide, ?_, ?_, ?_, ?_⟩
  · rw [hout]
    simp only [List.length_append, hH, hP, List.length_drop]
    omega
  · rw [hout, List.append_assoc, COMMAND_POSITION_PAYLOAD, List.take_left' hH]
  · rw [hout, List.append_assoc, COMMAND_POSITION_PAYLOAD, List.drop_left' hH,
      List.take_left' hP]
  · rw [hout, COMMAND_POSITION_PAYLOAD]
    exact List.drop_left' (by simp only [List.length_append, hH, hP])

/-- Witness for C19 (amended): a `size` of 11 gives a buffer of 19 bytes that `serialize`
fills to the last byte. -/
theorem subscribe_payload_extent_witness :
    subscribe_command_base.serialize command.serialize
      { base := { id_ := 1, version_ := 0, client_ := 0, size_ := 11 }
        service_ := 0x1234, instance_ := 0x5678, eventgroup_ := 0x0ABC
        major_ := 1, event_ := 0x0DEF, pending_id_ := 0x0042 } []
      = some ([1, 0, 0, 0, 11, 0, 0, 0, 0x34, 0x12, 0x78, 0x56, 0xBC, 0x0A, 0x01, 0xEF, 0x0D,
          0x42, 0x00], error_e.ERROR_OK) ∧
    ([1, 0, 0, 0, 11, 0, 0, 0, 0x34, 0x12, 0x78, 0x56, 0xBC, 0x0A, 0x01, 0xEF, 0x0D, 0x42,
        0x00].drop COMMAND_POSITION_PAYLOAD).take 11
      = subscribe_payload
          { base := { id_ := 1, version_ := 0, client_ := 0, size_ := 11 }
            service_ := 0x1234, instance_ := 0x5678, eventgroup_ := 0x0ABC
            major_ := 1, event_ := 0x0DEF, pending_id_ := 0x0042 } :=
  ⟨by decide,
    (subscribe_payload_extent command.serialize
      { base := { id_ := 1, version_ := 0, client_ := 0, size_ := 11 }
        service_ := 0x1234, instance_ := 0x5678, eventgroup_ := 0x0ABC
        major_ := 1, event_ := 0x0DEF, pending_id_ := 0x0042 } [] _ (by decide)).2.2.2.2.1⟩

/-- The header step of the specification rejects a frame whose `size` field announces more
payload than the buffer holds. -/
theorem command_deserialize_truncated (known : Nat → Bool) (c self : command) (Q : List Nat)
    (hsz : c.size_ < 2 ^ 32) (hQ : Q.length < c.size_) :
    command.deserialize known self
        ((to_le 1 c.id_ ++ to_le 1 c.version_ ++ to_le 2 c.client_ ++ to_le 4 c.size_) ++ Q)
      = (self, error_e.Truncated) := by
  have hlen : (to_le 1 c.id_ ++ (to_le 1 c.version_ ++ (to_le 2 c.client_
      ++ (to_le 4 c.size_ ++ Q)))).length = 8 + Q.length := by
    simp only [List.length_append, to_le_length]; omega
  unfold command.deserialize
  simp only [COMMAND_HEADER_SIZE, List.append_assoc, hlen]
  simp only [take_drop_append_skip, take_drop_append_zero, to_le_length, Nat.le_refl,
    Nat.sub_self, Nat.reduceLeDiff, Nat.reduceSub, Nat.reduceAdd, of_le_to_le_4 _ hsz]
  rw [if_neg (by omega), if_pos (by omega)]

/-- C20: for every subscribe-family command with members in the range of their types,
removing the last byte of the buffer that `serialize` produced makes `deserialize` report an
error: the header step answers `Truncated`, no byte outside the shortened buffer is read
(there is a result), and the command object is left as it was. -/
theorem subscribe_truncated_rejected (known : Nat → Bool) (x fresh : subscribe_command_base)
    (buf out : List Nat) (hwf : x.wf)
    (hser : subscribe_command_base.serialize command.serialize x buf
      = some (out, error_e.ERROR_OK)) :
    subscribe_command_base.deserialize (command.deserialize known) fresh out.dropLast
        = some (fresh, error_e.Truncated) ∧
    ∀ y e, subscribe_command_base.deserialize (command.deserialize known) fresh out.dropLast
        = some (y, e) → e ≠ error_e.ERROR_OK := by
  obtain ⟨-, hlen, hout⟩ := serialize_ok_out command.serialize x buf out hser
  have hsz := (command_serialize_length x.base buf).1
  rw [command_serialize_take] at hout
  have hP := subscribe_payload_length x
  have hne : subscribe_payload x ++ (command.serialize x.base buf).1.drop 19 ≠ [] := by
    intro h
    have := congrArg List.length h
    simp only [List.length_append, hP, List.length_nil] at this
    omega
  have hdl : out.dropLast
      = (to_le 1 x.base.id_ ++ to_le 1 x.base.version_ ++ to_le 2 x.base.client_
          ++ to_le 4 x.base.size_)
        ++ (subscribe_payload x ++ (command.serialize x.base buf).1.drop 19).dropLast := by
    rw [hout, List.append_assoc, List.dropLast_append_of_ne_nil _ hne]
  have hQ : (subscribe_payload x
      ++ (command.serialize x.base buf).1.drop 19).dropLast.length < x.base.size_ := by
    simp only [List.length_dropLast, List.length_append, hP, List.length_drop]
    omega
  have hhead := command_deserialize_truncated known x.base fresh.base _ hwf.1.2.2.2 hQ
  have hmain : subscribe_command_base.deserialize (command.deserialize known) fresh
      out.dropLast = some (fresh, error_e.Truncated) := by
    rw [hdl]
    unfold subscribe_command_base.deserialize
    rw [hhead]
    simp
  refine ⟨hmain, ?_⟩
  intro y e hy
  rw [hmain] at hy
  obtain ⟨-, rfl⟩ := Prod.mk.inj (Option.some.inj hy)
  decide

/-- Witness for C20: the 19-byte frame of the round-trip scenario, cut to 18 bytes. -/
theorem subscribe_truncated_rejected_witness :
    subscribe_command_base.wf
      { base := { id_ := 1, version_ := 0, client_ := 0, size_ := 11 }
        service_ := 0x1234, instance_ := 0x5678, eventgroup_ := 0x0ABC
        major_ := 1, event_ := 0x0DEF, pending_id_ := 0x0042 } ∧
    subscribe_command_base.serialize command.serialize
      { base := { id_ := 1, version_ := 0, client_ := 0, size_ := 11 }
        service_ := 0x1234, instance_ := 0x5678, eventgroup_ := 0x0ABC
        major_ := 1, event_ := 0x0DEF, pending_id_ := 0x0042 } []
      = some ([1, 0, 0, 0, 11, 0, 0, 0, 0x34, 0x12, 0x78, 0x56, 0xBC, 0x0A, 0x01, 0xEF, 0x0D,
          0x42, 0x00], error_e.ERROR_OK) ∧
    subscribe_command_base.deserialize (command.deserialize (fun _ => true))
      { base := { id_ := 1, version_ := 0, client_ := 0, size_ := 0 }
        service_ := 0, instance_ := 0, eventgroup_ := 0, major_ := 0, event_ := 0
        pending_id_ := 0 }
      [1, 0, 0, 0, 11, 0, 0, 0, 0x34, 0x12, 0x78, 0x56, 0xBC, 0x0A, 0x01, 0xEF, 0x0D,
          0x42, 0x00].dropLast
      = some ({ base := { id_ := 1, version_ := 0, client_ := 0, size_ := 0 }
                service_ := 0, instance_ := 0, eventgroup_ := 0, major_ := 0, event_ := 0
                pending_id_ := 0 }, error_e.Truncated) :=
  ⟨by decide, by decide,
    (subscribe_truncated_rejected (fun _ => true)
      { base := { id_ := 1, version_ := 0, client_ := 0, size_ := 11 }
        service_ := 0x1234, instance_ := 0x5678, eventgroup_ := 0x0ABC
        major_ := 1, event_ := 0x0DEF, pending_id_ := 0x0042 } _ [] _
      (by decide) (by decide)).1⟩

/-! ## Error short-circuit -/

/-- C32: error short-circuit in the subscribe codec.  If the header step of
`subscribe_command_base::deserialize` reports an error, the function returns that same error
and the six payload members keep their values; if the header step of
`subscribe_command_base::serialize` reports an error, the function returns that error and the
buffer is the one the header step left, with no payload byte written. -/
theorem subscribe_error_short_circuit (x : subscribe_command_base) :
    (∀ (header : command → List Nat → command × error_e) (_buffer : List Nat),
      (header x.base _buffer).2 ≠ error_e.ERROR_OK →
      ∃ y, x.deserialize header _buffer = some (y, (header x.base _buffer).2) ∧
        y.service_ = x.service_ ∧ y.instance_ = x.instance_ ∧
        y.eventgroup_ = x.eventgroup_ ∧ y.major_ = x.major_ ∧ y.event_ = x.event_ ∧
        y.pending_id_ = x.pending_id_) ∧
    (∀ (header : command → List Nat → List Nat × error_e) (_buffer : List Nat),
      (header x.base _buffer).2 ≠ error_e.ERROR_OK →
      x.serialize header _buffer = some (header x.base _buffer)) := by
  constructor
  · intro header _buffer h
    refine ⟨{ x with base := (header x.base _buffer).1 }, ?_, rfl, rfl, rfl, rfl, rfl, rfl⟩
    unfold subscribe_command_base.deserialize
    simp only [ne_eq]
    rw [if_pos h]
  · intro header _buffer h
    unfold subscribe_command_base.serialize
    simp only [ne_eq]
    rw [if_pos h]

/-- Witness for C32: deserializing a three-byte buffer, which the header step rejects as too
short, and serializing with a header step that reports an error. -/
theorem subscribe_error_short_circuit_witness :
    (∃ y, subscribe_command_base.deserialize (command.deserialize (fun _ => true))
        ⟨⟨0, 0, 0, 0⟩, 1, 2, 3, 4, 5, 6⟩ [0x11, 0x00, 0x22]
          = some (y, error_e.TooShort) ∧
        y.service_ = 1 ∧ y.instance_ = 2 ∧ y.eventgroup_ = 3 ∧ y.major_ = 4 ∧ y.event_ = 5 ∧
        y.pending_id_ = 6) ∧
    subscribe_command_base.serialize (fun _ b => (b, error_e.UnknownId))
        ⟨⟨0, 0, 0, 0⟩, 1, 2, 3, 4, 5, 6⟩ [0xAA]
      = some ([0xAA], error_e.UnknownId) :=
  ⟨(subscribe_error_short_circuit ⟨⟨0, 0, 0, 0⟩, 1, 2, 3, 4, 5, 6⟩).1
      (command.deserialize (fun _ => true)) [0x11, 0x00, 0x22] (by decide),
    (subscribe_error_short_circuit ⟨⟨0, 0, 0, 0⟩, 1, 2, 3, 4, 5, 6⟩).2
      (fun _ b => (b, error_e.UnknownId)) [0xAA] (by decide)⟩

end protocol

/-! # Proofs: local client endpoint -/

namespace local_tcp_client_endpoint_impl

/-! ## `send` -/

theorem send_unfold (base : base_methods) (st : local_tcp_client_endpoint_impl)
    (_data : List Nat) (_size : Nat) :
    send base st _data _size =
      if st.sending_blocked_ = true then (false, st)
      else if base.check_message_size st _size ≠ cms_ret_e.MSG_OK then (false, st)
      else if (check_packetizer_space st _size).1 = false then
        (false, (check_packetizer_space st _size).2)
      else if base.check_queue_limit (check_packetizer_space st _size).2 _data _size = false
        then (false, (check_packetizer_space st _size).2)
      else
        (true, { base.queue_train
              { (check_packetizer_space st _size).2 with
                train_ := (check_packetizer_space st _size).2.train_ ++ _data.take _size }
            with train_ := [] }) := by
  unfold send
  by_cases h1 : st.sending_blocked_ = true
  · simp [h1]
  · by_cases h2 : base.check_message_size st _size = cms_ret_e.MSG_OK
    · by_cases h3 : (check_packetizer_space st _size).1 = true
      · by_cases h4 :
          base.check_queue_limit (check_packetizer_space st _size).2 _data _size = true
        · simp [h1, h2, h3, h4]
        · simp [h1, h2, h3, h4]
      · simp [h1, h2, h3]
    · simp [h1, h2]

theorem check_packetizer_space_no_flush (st : local_tcp_client_endpoint_impl) (_size : Nat)
    (h : st.train_ = [] ∨ st.train_.length + _size ≤ st.max_message_size_) :
    (check_packetizer_space st _size).2 = st := by
  unfold check_packetizer_space
  split
  · rfl
  · split
    · rename_i h2
      simp only [Bool.and_eq_true, decide_eq_true_eq, Bool.not_eq_true', List.isEmpty_eq_false]
        at h2
      rcases h with h | h
      · exact absurd h h2.2
      · have := Nat.mod_le (st.train_.length + _size) (2 ^ SIZE_T_BITS)
        omega
    · rfl

theorem check_packetizer_space_queue_size (st : local_tcp_client_endpoint_impl)
    (_size : Nat) :
    st.queue_size_ ≤ (check_packetizer_space st _size).2.queue_size_ ∧
    (check_packetizer_space st _size).2.queue_limit_ = st.queue_limit_ := by
  unfold check_packetizer_space
  split
  · exact ⟨Nat.le_refl _, rfl⟩
  · split
    · exact ⟨Nat.le_add_right _ _, rfl⟩
    · exact ⟨Nat.le_refl _, rfl⟩

/-- C12: `send` returns false if and only if sending is blocked, or the message-size check
does not return `MSG_OK`, or `check_packetizer_space` fails, or `check_queue_limit` (asked
after `check_packetizer_space` has run) fails; in every other case it returns true, the
first `_size` bytes of the data have been appended to the train, the train has been handed to
`queue_train`, and a fresh empty train is in place.  This holds whatever the three base-class
methods compute; with the methods of the specification the queue has gained exactly one
buffer, the train followed by the data. -/
theorem send_returns_false_iff (base : base_methods) (st : local_tcp_client_endpoint_impl)
    (_data : List Nat) (_size : Nat) :
    ((send base st _data _size).1 = false ↔
      (st.sending_blocked_ = true ∨
       base.check_message_size st _size ≠ cms_ret_e.MSG_OK ∨
       (check_packetizer_space st _size).1 = false ∨
       base.check_queue_limit (check_packetizer_space st _size).2 _data _size = false)) ∧
    ((send base st _data _size).1 = true →
      (send base st _data _size).2
        = { base.queue_train
              { (check_packetizer_space st _size).2 with
                train_ := (check_packetizer_space st _size).2.train_ ++ _data.take _size }
            with train_ := [] }) ∧
    ((send spec_base st _data _size).1 = true →
      (send spec_base st _data _size).2.queue_
        = (check_packetizer_space st _size).2.queue_
          ++ [((check_packetizer_space st _size).2.train_ ++ _data.take _size, 0)] ∧
      (send spec_base st _data _size).2.train_ = []) := by
  have key : ∀ b : base_methods,
      ((send b st _data _size).1 = false ↔
        (st.sending_blocked_ = true ∨
         b.check_message_size st _size ≠ cms_ret_e.MSG_OK ∨
         (check_packetizer_space st _size).1 = false ∨
         b.check_queue_limit (check_packetizer_space st _size).2 _data _size = false)) ∧
      ((send b st _data _size).1 = true →
        (send b st _data _size).2
          = { b.queue_train
                { (check_packetizer_space st _size).2 with
                  train_ := (check_packetizer_space st _size).2.train_ ++ _data.take _size }
              with train_ := [] }) := by
    intro b
    rw [send_unfold]
    by_cases h1 : st.sending_blocked_ = true
    · simp [h1]
    · by_cases h2 : b.check_message_size st _size = cms_ret_e.MSG_OK
      · by_cases h3 : (check_packetizer_space st _size).1 = true
        · by_cases h4 :
            b.check_queue_limit (check_packetizer_space st _size).2 _data _size = true
          · simp [h1, h2, h3, h4]
          · simp [h1, h2, h3, h4]
        · simp [h1, h2, h3]
      · simp [h1, h2]
  refine ⟨(key base).1, (key base).2, ?_⟩
  intro h
  rw [(key spec_base).2 h]
  simp [spec_base, queue_train]

/-- Witness for C12: a 3-byte message sent on a fresh endpoint with room for it. -/
theorem send_returns_false_iff_witness :
    (send spec_base (construct 256 1024) [1, 2, 3] 3).1 = true ∧
    (send spec_base (construct 256 1024) [1, 2, 3] 3).2.queue_ = [([1, 2, 3], 0)] ∧
    (send spec_base (construct 256 1024) [1, 2, 3] 3).2.train_ = [] :=
  ⟨by decide,
    (send_returns_false_iff spec_base (construct 256 1024) [1, 2, 3] 3).2.2 (by decide)⟩

/-- A message that fits is accepted when the train is empty: the queue gains exactly this
message and the byte-count its length. -/
theorem send_accepts (st : local_tcp_client_endpoint_impl) (m : List Nat)
    (hblocked : st.sending_blocked_ = false) (htrain : st.train_ = [])
    (hsize : m.length ≤ st.max_message_size_)
    (hroom : st.queue_size_ + m.length ≤ st.queue_limit_) :
    send spec_base st m m.length
      = (true, { st with
          queue_ := st.queue_ ++ [(m, 0)]
          queue_size_ := st.queue_size_ + m.length
          train_ := [] }) := by
  have hcps : check_packetizer_space st m.length = (true, st) := by
    unfold check_packetizer_space
    simp [htrain]
  rw [send_unfold, hcps]
  simp [spec_base, check_message_size, check_queue_limit, queue_train, hblocked, htrain,
    Nat.not_lt.mpr hsize, Nat.not_lt.mpr hroom]

/-- With a full queue `send` refuses; the state is untouched when `check_packetizer_space`
has nothing to flush. -/
theorem send_refuses (st : local_tcp_client_endpoint_impl) (_data : List Nat) (_size : Nat)
    (hfull : st.queue_size_ + _size > st.queue_limit_) :
    (send spec_base st _data _size).1 = false ∧
    ((st.train_ = [] ∨ st.train_.length + _size ≤ st.max_message_size_) →
      (send spec_base st _data _size).2 = st) := by
  have hq := check_packetizer_space_queue_size st _size
  have hcql : spec_base.check_queue_limit (check_packetizer_space st _size).2 _data _size
      = false := by
    simp only [spec_base, check_queue_limit, hq.2, Bool.not_eq_false', decide_eq_true_eq]
    omega
  rw [send_unfold]
  constructor
  · by_cases h1 : st.sending_blocked_ = true
    · simp [h1]
    · by_cases h2 : spec_base.check_message_size st _size = cms_ret_e.MSG_OK
      · by_cases h3 : (check_packetizer_space st _size).1 = true
        · simp [h1, h2, h3, hcql]
        · simp [h1, h2, h3]
      · simp [h1, h2]
  · intro h
    have hnf := check_packetizer_space_no_flush st _size h
    rw [hnf] at hcql
    simp only [hnf]
    simp only [hcql, if_true]
    split_ifs <;> rfl

/-! ## `receive_cbk` -/

/-- The byte-by-byte test of `receive_cbk` holds exactly for the buffers that begin with the
start tag, carry the id at byte 4 and hold the end tag in bytes 15 to 18. -/
theorem framing_test_iff (ack : Nat) (l : List Nat) :
    (l.getD 0 0 = 0x67 ∧ l.getD 1 0 = 0x37 ∧ l.getD 2 0 = 0x6d ∧ l.getD 3 0 = 0x07
      ∧ l.getD 4 0 = ack
      ∧ l.getD 15 0 = 0x07 ∧ l.getD 16 0 = 0x6d ∧ l.getD 17 0 = 0x37 ∧ l.getD 18 0 = 0x67)
    ↔ (l.take 4 = [0x67, 0x37, 0x6D, 0x07] ∧ l[4]? = some ack
      ∧ (l.drop 15).take 4 = [0x07, 0x6D, 0x37, 0x67]) := by
  rcases l with _ | ⟨a0, l⟩
  · simp
  rcases l with _ | ⟨a1, l⟩
  · simp
  rcases l with _ | ⟨a2, l⟩
  · simp
  rcases l with _ | ⟨a3, l⟩
  · simp
  rcases l with _ | ⟨a4, l⟩
  · simp
  rcases l with _ | ⟨a5, l⟩
  · simp
  rcases l with _ | ⟨a6, l⟩
  · simp
  rcases l with _ | ⟨a7, l⟩
  · simp
  rcases l with _ | ⟨a8, l⟩
  · simp
  rcases l with _ | ⟨a9, l⟩
  · simp
  rcases l with _ | ⟨a10, l⟩
  · simp
  rcases l with _ | ⟨a11, l⟩
  · simp
  rcases l with _ | ⟨a12, l⟩
  · simp
  rcases l with _ | ⟨a13, l⟩
  · simp
  rcases l with _ | ⟨a14, l⟩
  · simp
  rcases l with _ | ⟨a15, l⟩
  · simp
  rcases l with _ | ⟨a16, l⟩
  · simp
  rcases l with _ | ⟨a17, l⟩
  · simp
  rcases l with _ | ⟨a18, l⟩
  · simp
  simp only [List.getD_cons_zero, List.getD_cons_succ, List.take_succ_cons, List.take_zero,
    List.drop_succ_cons, List.drop_zero, List.getElem?_cons_succ, List.getElem?_cons_zero,
    List.cons.injEq, Option.some.injEq, and_true]
  tauto

theorem receive_trace (st : local_tcp_client_endpoint_impl) :
    receive st
      = { st with
          trace := st.trace ++ (if st.socket_is_open then [event.async_receive] else []) } := by
  unfold receive
  by_cases h : st.socket_is_open = true
  · rw [if_pos h, if_pos h]
  · rw [if_neg h, if_neg h, List.append_nil]

/-- An error-free completion: the message is handed over when the frame is well formed and
the routing host is alive, then `receive` is called. -/
theorem receive_cbk_success (ack : Nat) (st : local_tcp_client_endpoint_impl) (k : Nat) :
    receive_cbk ack st error_code.success k
      = receive
          (if well_framed ack st.recv_buffer_ k ∧ st.routing_host_alive = true then
            { st with
              trace := st.trace ++ [event.on_message
                ((st.recv_buffer_.drop 4).take (st.recv_buffer_.length - 8))] }
          else st) := by
  have hf := framing_test_iff ack st.recv_buffer_
  unfold receive_cbk well_framed
  simp only [ne_eq, not_true_eq_false, if_false]
  by_cases hk : k = VSOMEIP_LOCAL_CLIENT_ENDPOINT_RECV_BUFFER_SIZE
  · by_cases ht : st.recv_buffer_.take 4 = [0x67, 0x37, 0x6D, 0x07] ∧
        st.recv_buffer_[4]? = some ack ∧
        (st.recv_buffer_.drop 15).take 4 = [0x07, 0x6D, 0x37, 0x67]
    · have hc := hf.mpr ht
      by_cases ha : st.routing_host_alive = true
      · rw [if_pos ⟨hk, hc⟩, if_pos ha, if_pos ⟨⟨hk, ht⟩, ha⟩]
      · rw [if_pos ⟨hk, hc⟩, if_neg ha, if_neg (fun h => ha h.2)]
    · have hc := fun h => ht (hf.mp h)
      rw [if_neg (fun h => hc h.2), if_neg (fun h => ht h.1.2)]
  · rw [if_neg (fun h => hk h.1), if_neg (fun h => hk h.1.1)]

/-- C14: on an error-free receive completion reporting `k` bytes, with the routing host alive
and the receive buffer at its constructed size, `receive_cbk` hands a message to the routing
host if and only if `k = LOCAL_RECV_BUFFER_SIZE`, bytes 0..3 are `67 37 6D 07`, byte 4 is the
`ASSIGN_CLIENT_ACK` id and bytes 15..18 are `07 6D 37 67`; when it does, `on_message` gets the
`LOCAL_RECV_BUFFER_SIZE - 8` bytes that start at buffer offset 4, once, before the receive is
re-armed; otherwise nothing but the re-arming happens. -/
theorem receive_cbk_delivers_iff (ack : Nat) (st : local_tcp_client_endpoint_impl) (k : Nat)
    (hbuf : st.recv_buffer_.length = VSOMEIP_LOCAL_CLIENT_ENDPOINT_RECV_BUFFER_SIZE)
    (halive : st.routing_host_alive = true) :
    ((∃ d, event.on_message d ∈
        (receive_cbk ack st error_code.success k).trace.drop st.trace.length)
      ↔ well_framed ack st.recv_buffer_ k) ∧
    (well_framed ack st.recv_buffer_ k →
      (receive_cbk ack st error_code.success k).trace
        = st.trace
          ++ [event.on_message ((st.recv_buffer_.drop 4).take
              (VSOMEIP_LOCAL_CLIENT_ENDPOINT_RECV_BUFFER_SIZE - 8))]
          ++ (if st.socket_is_open then [event.async_receive] else []) ∧
      ((st.recv_buffer_.drop 4).take
          (VSOMEIP_LOCAL_CLIENT_ENDPOINT_RECV_BUFFER_SIZE - 8)).length
        = VSOMEIP_LOCAL_CLIENT_ENDPOINT_RECV_BUFFER_SIZE - 8) ∧
    (¬ well_framed ack st.recv_buffer_ k →
      (receive_cbk ack st error_code.success k).trace
        = st.trace ++ (if st.socket_is_open then [event.async_receive] else [])) := by
  have hyes : well_framed ack st.recv_buffer_ k →
      (receive_cbk ack st error_code.success k).trace
        = st.trace
          ++ [event.on_message ((st.recv_buffer_.drop 4).take
              (VSOMEIP_LOCAL_CLIENT_ENDPOINT_RECV_BUFFER_SIZE - 8))]
          ++ (if st.socket_is_open then [event.async_receive] else []) := by
    intro hw
    rw [receive_cbk_success, if_pos ⟨hw, halive⟩, receive_trace, hbuf]
  have hno : ¬ well_framed ack st.recv_buffer_ k →
      (receive_cbk ack st error_code.success k).trace
        = st.trace ++ (if st.socket_is_open then [event.async_receive] else []) := by
    intro hw
    rw [receive_cbk_success, if_neg (fun h => hw h.1), receive_trace]
  refine ⟨?_, fun hw => ⟨hyes hw, ?_⟩, hno⟩
  · constructor
    · rintro ⟨d, hd⟩
      by_contra hw
      rw [hno hw, List.drop_left] at hd
      cases h : st.socket_is_open <;> simp [h] at hd
    · intro hw
      refine ⟨(st.recv_buffer_.drop 4).take
        (VSOMEIP_LOCAL_CLIENT_ENDPOINT_RECV_BUFFER_SIZE - 8), ?_⟩
      rw [hyes hw, List.append_assoc, List.drop_left]
      exact List.mem_cons_self _ _
  · rw [List.length_take, List.length_drop, hbuf]
    decide

/-- Witness for C14: a well-formed 19-byte frame with id 0x01 and body bytes 1 to 10; the
routing host gets the 11 bytes from offset 4 on. -/
theorem receive_cbk_delivers_iff_witness :
    well_framed 0x01 [0x67, 0x37, 0x6D, 0x07, 0x01, 1, 2, 3, 4, 5, 6, 7, 8, 9, 10,
      0x07, 0x6D, 0x37, 0x67] 19 ∧
    (receive_cbk 0x01
        { construct 256 1024 with
          socket_is_open := true
          recv_buffer_ := [0x67, 0x37, 0x6D, 0x07, 0x01, 1, 2, 3, 4, 5, 6, 7, 8, 9, 10,
            0x07, 0x6D, 0x37, 0x67] }
        error_code.success 19).trace
      = [event.on_message [0x01, 1, 2, 3, 4, 5, 6, 7, 8, 9, 10], event.async_receive] :=
  ⟨by decide,
    ((receive_cbk_delivers_iff 0x01
      { construct 256 1024 with
        socket_is_open := true
        recv_buffer_ := [0x67, 0x37, 0x6D, 0x07, 0x01, 1, 2, 3, 4, 5, 6, 7, 8, 9, 10,
          0x07, 0x6D, 0x37, 0x67] } 19 (by decide) (by decide)).2.1 (by decide)).1⟩

/-- C15: for every error-free receive completion whose buffer fails a framing check (wrong
byte count, wrong start tag, wrong command id at byte 4 or wrong end tag), `receive_cbk` does
nothing but call `receive` once: no `on_message`, no member changes, and the one call of
`receive` arms exactly one asynchronous receive on the open socket (none if the socket is
closed, the guard inside `receive`). -/
theorem receive_cbk_drops_malformed (ack : Nat) (st : local_tcp_client_endpoint_impl)
    (k : Nat) (hbad : ¬ well_framed ack st.recv_buffer_ k) :
    receive_cbk ack st error_code.success k = receive st ∧
    receive_cbk ack st error_code.success k
      = { st with
          trace := st.trace ++ (if st.socket_is_open then [event.async_receive] else []) } ∧
    (∀ d, event.on_message d ∉
      (receive_cbk ack st error_code.success k).trace.drop st.trace.length) ∧
    (st.socket_is_open = true →
      (receive_cbk ack st error_code.success k).trace = st.trace ++ [event.async_receive]) := by
  have h1 : receive_cbk ack st error_code.success k = receive st := by
    rw [receive_cbk_success, if_neg (fun h => hbad h.1)]
  have h2 := receive_trace st
  refine ⟨h1, h1.trans h2, ?_, ?_⟩
  · intro d hd
    rw [h1, h2, List.drop_left] at hd
    by_cases h : st.socket_is_open = true
    · rw [if_pos h] at hd
      simp at hd
    · rw [if_neg h] at hd
      simp at hd
  · intro h
    rw [h1, h2, if_pos h]

/-- Witness for C15: the frame of the specification's scenario with one corrupted end-tag
byte (0x66 in place of 0x67) on an open socket. -/
theorem receive_cbk_drops_malformed_witness :
    ¬ well_framed 0x01 [0x67, 0x37, 0x6D, 0x07, 0x01, 1, 2, 3, 4, 5, 6, 7, 8, 9, 10,
      0x07, 0x6D, 0x37, 0x66] 19 ∧
    (receive_cbk 0x01
        { construct 256 1024 with
          socket_is_open := true
          recv_buffer_ := [0x67, 0x37, 0x6D, 0x07, 0x01, 1, 2, 3, 4, 5, 6, 7, 8, 9, 10,
            0x07, 0x6D, 0x37, 0x66] }
        error_code.success 19).trace
      = [event.async_receive] :=
  ⟨by decide,
    (receive_cbk_drops_malformed 0x01
      { construct 256 1024 with
        socket_is_open := true
        recv_buffer_ := [0x67, 0x37, 0x6D, 0x07, 0x01, 1, 2, 3, 4, 5, 6, 7, 8, 9, 10,
          0x07, 0x6D, 0x37, 0x66] } 19 (by decide)).2.2.2 rfl⟩

theorem restart_forced (st : local_tcp_client_endpoint_impl) :
    restart st true
      = { st with
          state_ := cei_state_e.CONNECTING
          sending_blocked_ := false
          queue_ := []
          queue_size_ := 0
          socket_is_open := false
          was_not_connected_ := true
          reconnect_counter_ := 0
          trace := st.trace ++ [event.shutdown_and_close_socket_unlocked true,
            event.start_connect_timer] } := by
  simp [restart, shutdown_and_close_socket_unlocked, start_connect_timer]

/-- C16: when `receive_cbk` is completed with `connection_reset` or `bad_descriptor`, it
performs exactly one `restart(true)`: the state is `CONNECTING` afterwards whatever it was,
the calls made are one `shutdown_and_close_socket_unlocked(true)` followed by exactly one
`start_connect_timer()` (one scheduled reconnect), the error handler is not invoked and no
receive is armed. -/
theorem receive_cbk_reset_restarts (ack : Nat) (st : local_tcp_client_endpoint_impl)
    (_error : error_code) (k : Nat)
    (herr : _error = error_code.connection_reset ∨ _error = error_code.bad_descriptor) :
    receive_cbk ack st _error k = restart st true ∧
    (receive_cbk ack st _error k).state_ = cei_state_e.CONNECTING ∧
    (receive_cbk ack st _error k).trace
      = st.trace ++ [event.shutdown_and_close_socket_unlocked true,
          event.start_connect_timer] ∧
    ((receive_cbk ack st _error k).trace.drop st.trace.length).count
        event.start_connect_timer = 1 ∧
    event.error_handler ∉ (receive_cbk ack st _error k).trace.drop st.trace.length ∧
    event.async_receive ∉ (receive_cbk ack st _error k).trace.drop st.trace.length := by
  have h1 : receive_cbk ack st _error k = restart st true := by
    unfold receive_cbk
    rcases herr with h | h <;> subst h <;> simp
  rw [h1, restart_forced]
  refine ⟨rfl, rfl, rfl, ?_, ?_, ?_⟩
  · simp only [List.drop_left]; decide
  · simp only [List.drop_left]; decide
  · simp only [List.drop_left]; decide

/-- Witness for C16: a connection reset on an endpoint that already is `CONNECTING`. -/
theorem receive_cbk_reset_restarts_witness :
    (receive_cbk 0x01 { construct 256 1024 with state_ := cei_state_e.CONNECTING }
        error_code.connection_reset 0).state_ = cei_state_e.CONNECTING ∧
    (receive_cbk 0x01 { construct 256 1024 with state_ := cei_state_e.CONNECTING }
        error_code.connection_reset 0).trace
      = [event.shutdown_and_close_socket_unlocked true, event.start_connect_timer] :=
  ⟨(receive_cbk_reset_restarts 0x01 { construct 256 1024 with state_ := cei_state_e.CONNECTING }
      error_code.connection_reset 0 (Or.inl rfl)).2.1,
    (receive_cbk_reset_restarts 0x01 { construct 256 1024 with state_ := cei_state_e.CONNECTING }
      error_code.connection_reset 0 (Or.inl rfl)).2.2.1⟩

/-! ## `send_queued`, `restart`, `stop`, `connect` -/

/-- C21: for every queued buffer `p`, `send_queued` makes one gathered write of the three
buffers start tag, `p`, end tag: the bytes written are `67 37 6D 07 ++ p ++ 07 6D 37 67`,
that is `|p| + 8` bytes, with `p` unmodified between the two 4-byte tags; nothing else
happens. -/
theorem send_queued_frames (st : local_tcp_client_endpoint_impl) (p : List Nat) (t : Nat) :
    send_queued st (p, t)
      = { st with
          trace := st.trace
            ++ [event.async_write [[0x67, 0x37, 0x6D, 0x07], p, [0x07, 0x6D, 0x37, 0x67]]] } ∧
    [[0x67, 0x37, 0x6D, 0x07], p, [0x07, 0x6D, 0x37, 0x67]].flatten
      = [0x67, 0x37, 0x6D, 0x07] ++ p ++ [0x07, 0x6D, 0x37, 0x67] ∧
    ([[0x67, 0x37, 0x6D, 0x07], p, [0x07, 0x6D, 0x37, 0x67]].flatten).length = p.length + 8 ∧
    (([[0x67, 0x37, 0x6D, 0x07], p, [0x07, 0x6D, 0x37, 0x67]].flatten).drop 4).take p.length
      = p := by
  refine ⟨rfl, by simp, by simp, ?_⟩
  simp

theorem restart_not_forced_connecting (st : local_tcp_client_endpoint_impl)
    (hstate : st.state_ = cei_state_e.CONNECTING) : restart st false = st := by
  simp [restart, hstate]

theorem restart_effective (st : local_tcp_client_endpoint_impl) (_force : Bool)
    (h : ¬ (_force = false ∧ st.state_ = cei_state_e.CONNECTING)) :
    restart st _force = restart st true := by
  cases _force
  · have hs : st.state_ ≠ cei_state_e.CONNECTING := fun hc => h ⟨rfl, hc⟩
    simp [restart, hs]
  · rfl

/-- C22: `restart(force)` with `force` false in state `CONNECTING` changes nothing (no member
changes, socket untouched, no call made); in every other case the state is `CONNECTING`
afterwards, `sending_blocked` is false, the queue is empty, `queue_bytes` is 0, the socket is
closed, the reconnect counter is 0 and the calls made are one
`shutdown_and_close_socket_unlocked(true)` and exactly one `start_connect_timer()`. -/
theorem restart_contract (st : local_tcp_client_endpoint_impl) (_force : Bool) :
    ((_force = false ∧ st.state_ = cei_state_e.CONNECTING) → restart st _force = st) ∧
    (¬ (_force = false ∧ st.state_ = cei_state_e.CONNECTING) →
      (restart st _force).state_ = cei_state_e.CONNECTING ∧
      (restart st _force).sending_blocked_ = false ∧
      (restart st _force).queue_ = [] ∧
      (restart st _force).queue_size_ = 0 ∧
      (restart st _force).socket_is_open = false ∧
      (restart st _force).reconnect_counter_ = 0 ∧
      (restart st _force).trace
        = st.trace ++ [event.shutdown_and_close_socket_unlocked true,
            event.start_connect_timer] ∧
      ((restart st _force).trace.drop st.trace.length).count event.start_connect_timer
        = 1) := by
  constructor
  · rintro ⟨hf, hs⟩
    subst hf
    exact restart_not_forced_connecting st hs
  · intro h
    rw [restart_effective st _force h, restart_forced]
    refine ⟨rfl, rfl, rfl, rfl, rfl, rfl, rfl, ?_⟩
    simp only [List.drop_left]
    decide

/-- Witness for C22: an unforced restart of an established endpoint with a message queued. -/
theorem restart_contract_witness :
    (restart { construct 256 1024 with
        state_ := cei_state_e.ESTABLISHED
        socket_is_open := true
        queue_ := [([1, 2, 3], 0)]
        queue_size_ := 3 } false).state_ = cei_state_e.CONNECTING ∧
    (restart { construct 256 1024 with
        state_ := cei_state_e.ESTABLISHED
        socket_is_open := true
        queue_ := [([1, 2, 3], 0)]
        queue_size_ := 3 } false).queue_ = [] :=
  ⟨((restart_contract { construct 256 1024 with
        state_ := cei_state_e.ESTABLISHED
        socket_is_open := true
        queue_ := [([1, 2, 3], 0)]
        queue_size_ := 3 } false).2 (by decide)).1,
    ((restart_contract { construct 256 1024 with
        state_ := cei_state_e.ESTABLISHED
        socket_is_open := true
        queue_ := [([1, 2, 3], 0)]
        queue_size_ := 3 } false).2 (by decide)).2.2.1⟩

theorem stop_loop_never_empty (queue_empty_at : Nat → Bool)
    (hnever : ∀ t, queue_empty_at t = false) :
    ∀ (n t : Nat), t + n = 51 → stop_loop queue_empty_at t = 51 := by
  intro n
  induction n with
  | zero =>
    intro t ht
    rw [stop_loop, if_neg (by omega)]
    omega
  | succ n ih =>
    intro t ht
    rw [stop_loop, if_pos (by omega), hnever t]
    simp only [Bool.false_eq_true, if_false]
    exact ih (t + 1) (by omega)

theorem stop_loop_empty_first (queue_empty_at : Nat → Bool)
    (hempty : queue_empty_at 0 = true) : stop_loop queue_empty_at 0 = 0 := by
  rw [stop_loop, if_pos (by omega), hempty]
  simp

theorem stop_loop_le (queue_empty_at : Nat → Bool) :
    ∀ (n t : Nat), t + n = 51 → stop_loop queue_empty_at t ≤ 51 := by
  intro n
  induction n with
  | zero =>
    intro t ht
    rw [stop_loop, if_neg (by omega)]
    omega
  | succ n ih =>
    intro t ht
    rw [stop_loop, if_pos (by omega)]
    split
    · omega
    · exact ih (t + 1) (by omega)

/-- The calls of `stop` on an open socket: the timer is cancelled, then one sleep per pass of
the loop that found the queue non-empty, then the socket is closed. -/
theorem stop_open (st : local_tcp_client_endpoint_impl) (queue_empty_at : Nat → Bool)
    (hopen : st.socket_is_open = true) :
    stop st queue_empty_at
      = { st with
          sending_blocked_ := true
          connect_timeout_ := connect_timeout.VSOMEIP_DEFAULT_CONNECT_TIMEOUT
          socket_is_open := false
          trace := st.trace ++ [event.cancel_connect_timer]
            ++ List.replicate (stop_loop queue_empty_at 0) event.sleep_for_10_milliseconds
            ++ [event.shutdown_and_close_socket false] } := by
  simp [stop, shutdown_and_close_socket, hopen]

/-- C23 (the code at the failing input): `stop` on an open socket whose queue is never found
empty.  `sending_blocked` is set and the socket is closed at the end, but between the
cancelling of the timer and the closing of the socket there are 51 sleeps of 10 ms (510 ms),
one more than the 50 of the specification: the loop runs while `times_slept <= 50`.  With the
queue empty at the first poll there is no sleep. -/
theorem stop_sleeps_51_times :
    (stop { construct 256 1024 with
        socket_is_open := true, queue_ := [([1], 0)], queue_size_ := 1 }
      (fun _ => false)).trace
      = [event.cancel_connect_timer]
        ++ List.replicate 51 event.sleep_for_10_milliseconds
        ++ [event.shutdown_and_close_socket false] ∧
    ((stop { construct 256 1024 with
        socket_is_open := true, queue_ := [([1], 0)], queue_size_ := 1 }
      (fun _ => false)).trace.count event.sleep_for_10_milliseconds = 51) ∧
    (stop { construct 256 1024 with
        socket_is_open := true, queue_ := [([1], 0)], queue_size_ := 1 }
      (fun _ => false)).sending_blocked_ = true ∧
    (stop { construct 256 1024 with
        socket_is_open := true, queue_ := [([1], 0)], queue_size_ := 1 }
      (fun _ => false)).socket_is_open = false ∧
    (stop { construct 256 1024 with socket_is_open := true } (fun _ => true)).trace
      = [event.cancel_connect_timer, event.shutdown_and_close_socket false] := by
  have h51 := stop_loop_never_empty (fun _ => false) (fun _ => rfl) 51 0 rfl
  have h0 := stop_loop_empty_first (fun _ => true) rfl
  rw [stop_open _ _ rfl, stop_open _ _ rfl, h51, h0]
  refine ⟨rfl, ?_, rfl, rfl, rfl⟩
  decide

/-- C24 (the code at the failing input): `connect` when the socket opens.  If `bind` fails,
the connect callback is posted with the default-constructed `its_connect_error`, that is with
`success` and not with an error; the state is not touched and no asynchronous connect is
issued.  The path for a socket that cannot be opened does assign the error before posting.
With a successful `bind` the state becomes `CONNECTING` and the asynchronous connect is
issued, whichever of the four socket options failed. -/
theorem connect_bind_failure_posts_success (already_open : Nat)
    (st : local_tcp_client_endpoint_impl)
    (no_delay_fails keep_alive_fails linger_fails reuse_address_fails : Bool) :
    (connect already_open st
        { open_error := error_code.success, no_delay_fails := no_delay_fails
          keep_alive_fails := keep_alive_fails, linger_fails := linger_fails
          reuse_address_fails := reuse_address_fails, bind_fails := true }).trace
      = st.trace ++ [event.socket_open, event.set_option socket_option.no_delay,
          event.set_option socket_option.keep_alive, event.set_option socket_option.linger,
          event.set_option socket_option.reuse_address, event.bind,
          event.post_connect_cbk error_code.success] ∧
    (connect already_open st
        { open_error := error_code.success, no_delay_fails := no_delay_fails
          keep_alive_fails := keep_alive_fails, linger_fails := linger_fails
          reuse_address_fails := reuse_address_fails, bind_fails := true }).state_
      = st.state_ ∧
    (connect already_open st
        { open_error := error_code.bad_descriptor, no_delay_fails := no_delay_fails
          keep_alive_fails := keep_alive_fails, linger_fails := linger_fails
          reuse_address_fails := reuse_address_fails, bind_fails := false }).trace
      = st.trace ++ [event.socket_open, event.post_connect_cbk error_code.bad_descriptor] ∧
    (connect already_open st
        { open_error := error_code.success, no_delay_fails := no_delay_fails
          keep_alive_fails := keep_alive_fails, linger_fails := linger_fails
          reuse_address_fails := reuse_address_fails, bind_fails := false }).trace
      = st.trace ++ [event.socket_open, event.set_option socket_option.no_delay,
          event.set_option socket_option.keep_alive, event.set_option socket_option.linger,
          event.set_option socket_option.reuse_address, event.bind,
          event.start_connecting_timer, event.async_connect] ∧
    (connect already_open st
        { open_error := error_code.success, no_delay_fails := no_delay_fails
          keep_alive_fails := keep_alive_fails, linger_fails := linger_fails
          reuse_address_fails := reuse_address_fails, bind_fails := false }).state_
      = cei_state_e.CONNECTING := by
  simp [connect]

/-! ## `receive_cbk` completed with an error -/

theorem receive_cbk_aborted (ack : Nat) (st : local_tcp_client_endpoint_impl) (k : Nat) :
    receive_cbk ack st error_code.operation_aborted k = st := by
  simp [receive_cbk]

theorem receive_cbk_eof (ack : Nat) (st : local_tcp_client_endpoint_impl) (k : Nat) :
    receive_cbk ack st error_code.eof k
      = { st with
          sending_blocked_ := false
          queue_ := []
          queue_size_ := 0
          trace := st.trace ++ (if st.error_handler_ then [event.error_handler] else []) } := by
  by_cases h : st.error_handler_ = true
  · simp [receive_cbk, h]
  · simp [receive_cbk, h]

theorem receive_cbk_other (ack : Nat) (st : local_tcp_client_endpoint_impl) (k : Nat)
    (_error : error_code) (h0 : _error ≠ error_code.success)
    (h1 : _error ≠ error_code.operation_aborted) (h2 : _error ≠ error_code.eof)
    (h3 : _error ≠ error_code.connection_reset) (h4 : _error ≠ error_code.bad_descriptor) :
    receive_cbk ack st _error k
      = { st with
          trace := st.trace ++ (if st.error_handler_ then [event.error_handler] else []) } := by
  unfold receive_cbk
  simp only [ne_eq, h0, h1, h2, h3, h4, not_false_eq_true, if_true, if_false, or_self]
  by_cases h : st.error_handler_ = true
  · rw [if_pos h, if_pos h]
  · rw [if_neg h, if_neg h, List.append_nil]

/-- C25 (as stated, refuted): completed with `eof`, `receive_cbk` does invoke the registered
error handler. -/
theorem receive_cbk_eof_invokes_handler :
    (receive_cbk 0x01 { construct 256 1024 with error_handler_ := true }
      error_code.eof 0).trace = [event.error_handler] := by
  decide

/-- C25 (amended): with an error handler registered, `receive_cbk` invokes it exactly once
when the receive error is none of `operation_aborted`, `connection_reset` and
`bad_descriptor` (for `eof` too), and does not invoke it for those three errors or for an
error-free completion. -/
theorem receive_cbk_error_handler (ack : Nat) (st : local_tcp_client_endpoint_impl)
    (_error : error_code) (k : Nat) (hreg : st.error_handler_ = true) :
    ((_error ≠ error_code.success ∧ _error ≠ error_code.operation_aborted ∧
        _error ≠ error_code.connection_reset ∧ _error ≠ error_code.bad_descriptor) →
      (receive_cbk ack st _error k).trace = st.trace ++ [event.error_handler]) ∧
    ((_error = error_code.success ∨ _error = error_code.operation_aborted ∨
        _error = error_code.connection_reset ∨ _error = error_code.bad_descriptor) →
      event.error_handler ∉ (receive_cbk ack st _error k).trace.drop st.trace.length) := by
  constructor
  · rintro ⟨h0, h1, h3, h4⟩
    by_cases h2 : _error = error_code.eof
    · subst h2
      rw [receive_cbk_eof, hreg]
      rfl
    · rw [receive_cbk_other ack st k _error h0 h1 h2 h3 h4, hreg]
      rfl
  · rintro (h | h | h | h) <;> subst h
    · rw [receive_cbk_success, receive_trace]
      by_cases hw : well_framed ack st.recv_buffer_ k ∧ st.routing_host_alive = true
      · rw [if_pos hw]
        simp only [List.append_assoc, List.drop_left]
        by_cases ho : st.socket_is_open = true
        · simp [ho]
        · simp [ho]
      · rw [if_neg hw]
        simp only [List.drop_left]
        by_cases ho : st.socket_is_open = true
        · simp [ho]
        · simp [ho]
    · rw [receive_cbk_aborted]
      simp
    · have h := restart_forced st
      have e : receive_cbk ack st error_code.connection_reset k = restart st true := by
        simp [receive_cbk]
      rw [e, h]
      simp only [List.drop_left]
      decide
    · have h := restart_forced st
      have e : receive_cbk ack st error_code.bad_descriptor k = restart st true := by
        simp [receive_cbk]
      rw [e, h]
      simp only [List.drop_left]
      decide

/-- Witness for C25 (amended): an error that is none of the named ones. -/
theorem receive_cbk_error_handler_witness :
    ({ construct 256 1024 with error_handler_ := true }).error_handler_ = true ∧
    (receive_cbk 0x01 { construct 256 1024 with error_handler_ := true }
      (error_code.other 32) 0).trace = [event.error_handler] :=
  ⟨rfl,
    (receive_cbk_error_handler 0x01 { construct 256 1024 with error_handler_ := true }
      (error_code.other 32) 0 rfl).1 (by decide)⟩

/-- C26: completed with `eof`, `receive_cbk` leaves the queue empty, `queue_bytes` 0 and
`sending_blocked` false, also right after a `stop()` that had blocked sending; the connection
state is the one it was, and no restart is made: the only call that can leave the class is the
one of the error handler. -/
theorem receive_cbk_eof_resets_queue (ack : Nat) (st : local_tcp_client_endpoint_impl)
    (k : Nat) (queue_empty_at : Nat → Bool) :
    (receive_cbk ack st error_code.eof k).queue_ = [] ∧
    (receive_cbk ack st error_code.eof k).queue_size_ = 0 ∧
    (receive_cbk ack st error_code.eof k).sending_blocked_ = false ∧
    (receive_cbk ack st error_code.eof k).state_ = st.state_ ∧
    (receive_cbk ack st error_code.eof k).socket_is_open = st.socket_is_open ∧
    (receive_cbk ack st error_code.eof k).trace
      = st.trace ++ (if st.error_handler_ then [event.error_handler] else []) ∧
    (stop st queue_empty_at).sending_blocked_ = true ∧
    (receive_cbk ack (stop st queue_empty_at) error_code.eof k).sending_blocked_ = false ∧
    (receive_cbk ack (stop st queue_empty_at) error_code.eof k).state_ = st.state_ := by
  have hstop : (stop st queue_empty_at).sending_blocked_ = true ∧
      (stop st queue_empty_at).state_ = st.state_ := by
    by_cases h : st.socket_is_open = true
    · simp [stop, shutdown_and_close_socket, h]
    · simp [stop, shutdown_and_close_socket, h]
  rw [receive_cbk_eof, receive_cbk_eof]
  exact ⟨rfl, rfl, rfl, rfl, rfl, rfl, hstop.1, rfl, hstop.2⟩

/-- C28: completed with `operation_aborted`, `receive_cbk` returns at once: no member
changes (queue, `queue_bytes`, `sending_blocked`, connection state and all others) and no call
is made, so no receive is armed, nothing is restarted and the error handler is not invoked. -/
theorem receive_cbk_aborted_is_silent (ack : Nat) (st : local_tcp_client_endpoint_impl)
    (k : Nat) :
    receive_cbk ack st error_code.operation_aborted k = st ∧
    (receive_cbk ack st error_code.operation_aborted k).trace = st.trace :=
  ⟨receive_cbk_aborted ack st k, by rw [receive_cbk_aborted]⟩

/-! ## Order of the queue and its byte-count -/

theorem send_each_append (base : base_methods) (ms1 ms2 : List (List Nat)) :
    ∀ st : local_tcp_client_endpoint_impl,
      (send_each base st (ms1 ++ ms2)).1
        = (send_each base st ms1).1 ++ (send_each base (send_each base st ms1).2 ms2).1 ∧
      (send_each base st (ms1 ++ ms2)).2
        = (send_each base (send_each base st ms1).2 ms2).2 := by
  induction ms1 with
  | nil => intro st; exact ⟨rfl, rfl⟩
  | cons m ms ih =>
    intro st
    have h := ih (send base st m m.length).2
    have e : m :: ms ++ ms2 = m :: (ms ++ ms2) := rfl
    rw [e]
    simp only [send_each, h.1, h.2, List.cons_append, and_self]

/-- The behaviour of `send` on an empty train, with the base-class methods of the
specification. -/
theorem send_empty_train (st : local_tcp_client_endpoint_impl) (_data : List Nat)
    (_size : Nat) (htrain : st.train_ = []) :
    send spec_base st _data _size =
      if st.sending_blocked_ = true then (false, st)
      else if _size > st.max_message_size_ then (false, st)
      else if st.queue_size_ + _size > st.queue_limit_ then (false, st)
      else
        (true, { st with
          queue_ := st.queue_ ++ [(_data.take _size, 0)]
          queue_size_ := st.queue_size_ + (_data.take _size).length
          train_ := [] }) := by
  have hcps : check_packetizer_space st _size = (true, st) := by
    unfold check_packetizer_space
    simp [htrain]
  rw [send_unfold, hcps]
  by_cases h1 : st.sending_blocked_ = true
  · rw [if_pos h1, if_pos h1]
  · rw [if_neg h1, if_neg h1]
    by_cases h2 : _size > st.max_message_size_
    · have hc : spec_base.check_message_size st _size ≠ cms_ret_e.MSG_OK := by
        simp [spec_base, check_message_size, h2]
      rw [if_pos hc, if_pos h2]
    · have hc : ¬ (spec_base.check_message_size st _size ≠ cms_ret_e.MSG_OK) := by
        simp [spec_base, check_message_size, h2]
      rw [if_neg hc, if_neg h2, if_neg (by simp)]
      by_cases h3 : st.queue_size_ + _size > st.queue_limit_
      · have hq : spec_base.check_queue_limit (true, st).2 _data _size = false := by
          simp [spec_base, check_queue_limit, h3]
        rw [if_pos hq, if_pos h3]
      · have hq : ¬ (spec_base.check_queue_limit (true, st).2 _data _size = false) := by
          simp [spec_base, check_queue_limit, h3]
        rw [if_neg hq, if_neg h3]
        simp only [spec_base, queue_train, htrain, List.nil_append]

/-- An accepted `send` on an empty train queues exactly the message. -/
theorem send_true_empty_train (st : local_tcp_client_endpoint_impl) (m : List Nat)
    (htrain : st.train_ = []) (hacc : (send spec_base st m m.length).1 = true) :
    (send spec_base st m m.length).2
      = { st with
          queue_ := st.queue_ ++ [(m, 0)]
          queue_size_ := st.queue_size_ + m.length
          train_ := [] } := by
  rw [send_empty_train st m m.length htrain] at hacc ⊢
  split_ifs at hacc ⊢
  simp only [List.take_length]

theorem send_each_accepted (ms : List (List Nat)) :
    ∀ st : local_tcp_client_endpoint_impl, st.train_ = [] →
      (∀ b ∈ (send_each spec_base st ms).1, b = true) →
      (send_each spec_base st ms).2.queue_ = st.queue_ ++ ms.map (fun m => (m, 0)) ∧
      (send_each spec_base st ms).2.train_ = [] := by
  induction ms with
  | nil => intro st ht _; simp [send_each, ht]
  | cons m ms ih =>
    intro st ht hacc
    simp only [send_each, List.mem_cons, forall_eq_or_imp] at hacc
    have hst := send_true_empty_train st m ht hacc.1
    have h := ih (send spec_base st m m.length).2 (by rw [hst]) hacc.2
    simp only [send_each]
    rw [h.1, h.2, hst]
    simp

/-- C27: FIFO.  Starting from an empty train, for every sequence of messages that `send`
accepts one after the other (every call returns true; nothing is drained, restarted or reset
in between), after each of the sends the queue has gained exactly the messages sent so far,
in call order, one buffer per message and equal to it byte for byte, and the train is empty
again. -/
theorem send_fifo (st : local_tcp_client_endpoint_impl) (ms : List (List Nat))
    (htrain : st.train_ = [])
    (hacc : ∀ b ∈ (send_each spec_base st ms).1, b = true) :
    ∀ (sent rest : List (List Nat)), ms = sent ++ rest →
      (send_each spec_base st sent).2.queue_ = st.queue_ ++ sent.map (fun m => (m, 0)) ∧
      ((send_each spec_base st sent).2.queue_.drop st.queue_.length).map (fun e => e.1)
        = sent ∧
      (send_each spec_base st sent).2.train_ = [] := by
  intro sent rest hms
  subst hms
  have happ := (send_each_append spec_base sent rest st).1
  have hsent : ∀ b ∈ (send_each spec_base st sent).1, b = true := by
    intro b hb
    apply hacc
    rw [happ]
    exact List.mem_append_left _ hb
  have h := send_each_accepted sent st htrain hsent
  refine ⟨h.1, ?_, h.2⟩
  rw [h.1, List.drop_left, List.map_map]
  exact List.map_id'' (fun _ => rfl) sent

/-- Witness for C27: three messages on a fresh endpoint. -/
theorem send_fifo_witness :
    (send_each spec_base (construct 256 1024) [[1, 2], [3], [4, 5, 6]]).1
      = [true, true, true] ∧
    (send_each spec_base (construct 256 1024) [[1, 2], [3], [4, 5, 6]]).2.queue_
      = [([1, 2], 0), ([3], 0), ([4, 5, 6], 0)] ∧
    (send_each spec_base (construct 256 1024) [[1, 2], [3], [4, 5, 6]]).2.train_ = [] :=
  ⟨by decide,
    (send_fifo (construct 256 1024) [[1, 2], [3], [4, 5, 6]] rfl (by decide)
      [[1, 2], [3], [4, 5, 6]] [] rfl).1,
    (send_fifo (construct 256 1024) [[1, 2], [3], [4, 5, 6]] rfl (by decide)
      [[1, 2], [3], [4, 5, 6]] [] rfl).2.2⟩

/-- The invariant of the outbound bookkeeping: the train is empty between the calls, the
byte-count is the sum of the sizes of the queued buffers and does not exceed the limit. -/
theorem reachable_invariant (st : local_tcp_client_endpoint_impl) (h : reachable st) :
    st.train_ = [] ∧
    st.queue_size_ = (st.queue_.map (fun e => e.1.length)).sum ∧
    st.queue_size_ ≤ st.queue_limit_ := by
  induction h with
  | initial st ht hq hs => simp [ht, hq, hs]
  | send st _data _size _ ih =>
    obtain ⟨ht, hsum, hle⟩ := ih
    rw [send_empty_train st _data _size ht]
    split_ifs with h1 h2 h3
    · exact ⟨ht, hsum, hle⟩
    · exact ⟨ht, hsum, hle⟩
    · exact ⟨ht, hsum, hle⟩
    · have htake : (_data.take _size).length ≤ _size := by
        rw [List.length_take]; exact Nat.min_le_left _ _
      refine ⟨rfl, ?_, ?_⟩
      · simp only [List.map_append, List.sum_append, List.map_cons, List.map_nil,
          List.sum_cons, List.sum_nil, Nat.add_zero, hsum]
      · show st.queue_size_ + (_data.take _size).length ≤ st.queue_limit_
        omega
  | check_packetizer_space st _size _ ih =>
    have hnf := check_packetizer_space_no_flush st _size (Or.inl ih.1)
    rw [hnf]
    exact ih
  | restart st _force _ ih =>
    by_cases h : _force = false ∧ st.state_ = cei_state_e.CONNECTING
    · obtain ⟨hf, hs⟩ := h
      subst hf
      rw [restart_not_forced_connecting st hs]
      exact ih
    · rw [restart_effective st _force h, restart_forced]
      exact ⟨ih.1, rfl, Nat.zero_le _⟩
  | receive_cbk_eof ack st _bytes _ ih =>
    rw [receive_cbk_eof]
    exact ⟨ih.1, rfl, Nat.zero_le _⟩

/-- C13: back-pressure.  For every endpoint state reachable from an initial state by `send`,
`check_packetizer_space`, `restart` and `receive_cbk(eof)`, and every message of `n` bytes
with `queue_bytes + n > queue_limit`, `send` returns false and leaves the whole state
(`queue_bytes`, the queue and the train included) unchanged.  With `queue_limit = 1024`,
`max_message_size = 256` and no draining, five consecutive sends of 256 bytes return true,
true, true, true, false, and the queue then holds the first four messages, 1024 bytes. -/
theorem send_back_pressure (st : local_tcp_client_endpoint_impl) (_data : List Nat)
    (_size : Nat) (hreach : reachable st)
    (hfull : st.queue_size_ + _size > st.queue_limit_) :
    send spec_base st _data _size = (false, st) ∧
    (∀ m1 m2 m3 m4 m5 : List Nat,
      m1.length = 256 → m2.length = 256 → m3.length = 256 → m4.length = 256 →
      m5.length = 256 →
      (send_each spec_base (construct 256 1024) [m1, m2, m3, m4, m5]).1
          = [true, true, true, true, false] ∧
      (send_each spec_base (construct 256 1024) [m1, m2, m3, m4, m5]).2.queue_
          = [(m1, 0), (m2, 0), (m3, 0), (m4, 0)] ∧
      (send_each spec_base (construct 256 1024) [m1, m2, m3, m4, m5]).2.queue_size_
          = 1024) := by
  have hr := send_refuses st _data _size hfull
  refine ⟨Prod.ext hr.1 (hr.2 (Or.inl (reachable_invariant st hreach).1)), ?_⟩
  intro m1 m2 m3 m4 m5 h1 h2 h3 h4 h5
  simp only [send_each]
  rw [send_accepts (construct 256 1024) m1 rfl rfl (by simp [construct, h1])
    (by simp [construct, h1])]
  simp only []
  rw [send_accepts _ m2 rfl rfl (by simp [construct, h2]) (by simp [construct, h1, h2])]
  simp only []
  rw [send_accepts _ m3 rfl rfl (by simp [construct, h3]) (by simp [construct, h1, h2, h3])]
  simp only []
  rw [send_accepts _ m4 rfl rfl (by simp [construct, h4])
    (by simp [construct, h1, h2, h3, h4])]
  simp only []
  have h := send_refuses
    { construct 256 1024 with
      queue_ := [(m1, 0), (m2, 0), (m3, 0), (m4, 0)]
      queue_size_ := 1024
      train_ := [] } m5 m5.length (by simp [construct, h5])
  simp only [construct, List.nil_append, List.cons_append, Nat.zero_add, h1, h2, h3, h4] at h ⊢
  refine ⟨by rw [h.1], ?_, ?_⟩
  · rw [h.2 (Or.inl trivial)]
  · rw [h.2 (Or.inl trivial)]

/-- Witness for C13: after an accepted 3-byte message on a fresh endpoint whose queue limit
is 3, a further 1-byte message is refused and the state stays as it was. -/
theorem send_back_pressure_witness :
    reachable (send spec_base (construct 4 3) [1, 2, 3] 3).2 ∧
    (send spec_base (construct 4 3) [1, 2, 3] 3).2.queue_size_ + 1
      > (send spec_base (construct 4 3) [1, 2, 3] 3).2.queue_limit_ ∧
    send spec_base (send spec_base (construct 4 3) [1, 2, 3] 3).2 [9] 1
      = (false, (send spec_base (construct 4 3) [1, 2, 3] 3).2) :=
  ⟨reachable.send _ _ _ (reachable.initial _ rfl rfl rfl), by decide,
    (send_back_pressure (send spec_base (construct 4 3) [1, 2, 3] 3).2 [9] 1
      (reachable.send _ _ _ (reachable.initial _ rfl rfl rfl)) (by decide)).1⟩

/-- C30: in every state reachable from an initial state (empty train, empty queue,
`queue_bytes = 0`) by `send`, `check_packetizer_space`, `restart` and `receive_cbk(eof)`,
`queue_bytes` equals the sum of the sizes of the buffers in the queue and is at most
`queue_limit`. -/
theorem outbound_train_invariant (st : local_tcp_client_endpoint_impl) (h : reachable st) :
    st.queue_size_ = (st.queue_.map (fun e => e.1.length)).sum ∧
    st.queue_size_ ≤ st.queue_limit_ :=
  (reachable_invariant st h).2

/-- Witness for C30: the state after an accepted 3-byte message and a refused 300-byte
message on a fresh endpoint. -/
theorem outbound_train_invariant_witness :
    reachable
      (send spec_base (send spec_base (construct 256 1024) [1, 2, 3] 3).2
        (List.replicate 300 0) 300).2 ∧
    (send spec_base (send spec_base (construct 256 1024) [1, 2, 3] 3).2
        (List.replicate 300 0) 300).2.queue_size_ = 3 ∧
    (send spec_base (send spec_base (construct 256 1024) [1, 2, 3] 3).2
        (List.replicate 300 0) 300).2.queue_size_
      = ((send spec_base (send spec_base (construct 256 1024) [1, 2, 3] 3).2
          (List.replicate 300 0) 300).2.queue_.map (fun e => e.1.length)).sum :=
  ⟨reachable.send _ _ _ (reachable.send _ _ _ (reachable.initial _ rfl rfl rfl)),
    by decide,
    (outbound_train_invariant _
      (reachable.send _ _ _ (reachable.send _ _ _ (reachable.initial _ rfl rfl rfl)))).1⟩

/-! ## The packetizer guard -/

theorem size_t_wraps_iff (len n : Nat) (hlen : len < 2 ^ SIZE_T_BITS) (hn : n < 2 ^ 32) :
    (len + n) % 2 ^ SIZE_T_BITS < len ↔ 2 ^ SIZE_T_BITS ≤ len + n := by
  simp only [SIZE_T_BITS] at *
  omega

/-- C31: `check_packetizer_space(n)`, for a train shorter than `2 ^ SIZE_T_BITS` bytes and a
`std::uint32_t` argument.  It returns false exactly when `train.len + n` does not fit the
machine word, and then the endpoint (train, queue and queue_bytes included) is unchanged.
Otherwise it returns true; if `train.len + n > max_message_size` and the train is non-empty,
the train is appended to the queue tail, its length is added to queue_bytes and the train is
replaced by an empty buffer; in all remaining cases nothing changes. -/
theorem check_packetizer_space_contract (st : local_tcp_client_endpoint_impl) (n : Nat)
    (hlen : st.train_.length < 2 ^ SIZE_T_BITS) (hn : n < 2 ^ 32) :
    ((check_packetizer_space st n).1 = false ↔ 2 ^ SIZE_T_BITS ≤ st.train_.length + n) ∧
    (2 ^ SIZE_T_BITS ≤ st.train_.length + n → check_packetizer_space st n = (false, st)) ∧
    (st.train_.length + n < 2 ^ SIZE_T_BITS →
      st.max_message_size_ < st.train_.length + n → st.train_ ≠ [] →
      check_packetizer_space st n = (true, { st with
        queue_ := st.queue_ ++ [(st.train_, 0)]
        queue_size_ := st.queue_size_ + st.train_.length
        train_ := [] })) ∧
    (st.train_.length + n < 2 ^ SIZE_T_BITS →
      ¬ (st.max_message_size_ < st.train_.length + n ∧ st.train_ ≠ []) →
      check_packetizer_space st n = (true, st)) := by
  have hw := size_t_wraps_iff st.train_.length n hlen hn
  have hfalse : 2 ^ SIZE_T_BITS ≤ st.train_.length + n →
      check_packetizer_space st n = (false, st) := by
    intro h
    unfold check_packetizer_space
    rw [if_pos (hw.mpr h)]
  have hmod : st.train_.length + n < 2 ^ SIZE_T_BITS →
      (st.train_.length + n) % 2 ^ SIZE_T_BITS = st.train_.length + n :=
    fun h => Nat.mod_eq_of_lt h
  have hflush : st.train_.length + n < 2 ^ SIZE_T_BITS →
      st.max_message_size_ < st.train_.length + n → st.train_ ≠ [] →
      check_packetizer_space st n = (true, { st with
        queue_ := st.queue_ ++ [(st.train_, 0)]
        queue_size_ := st.queue_size_ + st.train_.length
        train_ := [] }) := by
    intro h hmax hne
    unfold check_packetizer_space
    rw [if_neg (fun hc => absurd (hw.mp hc) (by omega)), hmod h, if_pos]
    simp [hmax, hne]
  have hkeep : st.train_.length + n < 2 ^ SIZE_T_BITS →
      ¬ (st.max_message_size_ < st.train_.length + n ∧ st.train_ ≠ []) →
      check_packetizer_space st n = (true, st) := by
    intro h hno
    unfold check_packetizer_space
    rw [if_neg (fun hc => absurd (hw.mp hc) (by omega)), hmod h, if_neg]
    intro hc
    apply hno
    simpa using hc
  refine ⟨⟨fun h => ?_, fun h => by rw [hfalse h]⟩, hfalse, hflush, hkeep⟩
  by_contra hc
  have hlt : st.train_.length + n < 2 ^ SIZE_T_BITS := Nat.lt_of_not_le hc
  by_cases hf : st.max_message_size_ < st.train_.length + n ∧ st.train_ ≠ []
  · rw [hflush hlt hf.1 hf.2] at h
    exact Bool.noConfusion h
  · rw [hkeep hlt hf] at h
    exact Bool.noConfusion h

/-- Witness for C31: a train of three bytes, an argument of two and a maximum message size
of four; the train is moved to the queue. -/
theorem check_packetizer_space_contract_witness :
    ({ construct 4 100 with train_ := [1, 2, 3] } : local_tcp_client_endpoint_impl).train_.length
        < 2 ^ SIZE_T_BITS ∧ 2 < 2 ^ 32 ∧
    check_packetizer_space { construct 4 100 with train_ := [1, 2, 3] } 2
      = (true, { construct 4 100 with queue_ := [([1, 2, 3], 0)], queue_size_ := 3 }) :=
  ⟨by decide, by decide,
    ((check_packetizer_space_contract { construct 4 100 with train_ := [1, 2, 3] } 2
      (by decide) (by decide)).2.2.1 (by decide) (by decide) (by decide)).trans (by decide)⟩

end local_tcp_client_endpoint_impl

end vsomeip_v3
